import Mathlib

/-!
# SENSEI ADIOS2 schema: a shallow embedding and its properties

The definitions below embed the codecs of `sensei/ADIOS2Schema.cxx`, and
`ADIOS1DataAdaptor::GetMeshMetadata` of `sensei/ADIOS1DataAdaptor.cxx`, as pure
functions.  Stateful code is written in state-passing style: a function returns
its C++ return code together with the values it updates and, where a property
speaks about the transport or about the calls a codec makes, the list of these
operations in the order in which they were issued.

Conventions.

* The rank of the calling process (`MPI_Comm_rank`) is an argument.
* Timer events, error messages and byte counts kept for the timers are left out.
* A `for` loop over `0..n-1` is a recursive function whose first argument counts
  the iterations still to run and whose second argument is the loop index.
* Counts taken from the metadata are natural numbers.  Arithmetic that the code
  does in `unsigned int` is reduced with `u32`, arithmetic in `unsigned long long`
  with `u64`.
* Where a property is about the control flow around operations and not about what
  they do, the operations are arguments of the embedding: the operations of the
  members of `DataObjectSchema`, the blocks guarded by the kind tests of the geometry
  codecs, the partitioner of the adaptor.
* Indexing a `std::vector` from the metadata outside its size has no defined
  result in C++; the embedding reads a default there (`getD`) and treats a block
  whose owner is not listed as not owned.
-/

namespace senseiADIOS2

/-! ## Machine integers -/

/-- Reduction to the range of `unsigned int`. -/
def u32 (n : Nat) : Nat := n % 2 ^ 32

/-- Reduction to the range of `unsigned long long` (also `uint64_t`, `size_t`). -/
def u64 (n : Nat) : Nat := n % 2 ^ 64

/-! ## The read side of the transport -/

/-- The part of `ADIOS_VARINFO` the schema looks at: the scalar `value`
(already seen at the type the caller asks for) and the first dimension. -/
structure ADIOS_VARINFO where
  value : Nat
  dims0 : Nat
deriving Repr, DecidableEq

/-- An `ADIOS_SELECTION` as built by `adios_selection_boundingbox(1, &start, &count)`
or `adios_selection_writeblock(rank)`. -/
inductive ADIOS_SELECTION where
  | boundingbox (start count : Nat)
  | writeblock (rank : Int)
deriving Repr, DecidableEq

/-- An open `ADIOS_FILE`.  `inq_var path` is `adios_inq_var` (`none` is the null
pointer).  `read sel path` is `adios_schedule_read` with selection `sel`
(`none` is the null selection) followed by `adios_perform_reads`: `none` when
`adios_perform_reads` reports an error, otherwise the values delivered. -/
structure ADIOS_FILE where
  inq_var : String → Option ADIOS_VARINFO
  read : Option ADIOS_SELECTION → String → Option (List Int)

/-- The members `io` and `engine` of the `AdiosHandle` that an `InputStream` keeps in
`Handles` (`none` is the null pointer). -/
structure InputStream.HandlePair where
  io : Option Nat := none
  engine : Option Nat := none
deriving Repr, DecidableEq

/-- The fields of `InputStream` used by the readers, and those that `Open` and `Close`
work on: the engine name, the file name, the library handle `Adios` and `Handles`. -/
structure InputStream where
  File : ADIOS_FILE
  ReadMethod : String
  ReadEngine : String := ""
  FileName : String := ""
  Adios : Option Nat := none
  Handles : InputStream.HandlePair := {}

/-- `adiosInq<val_t>`: returns `-1` and leaves `val` alone when the variable is
missing, otherwise stores the value and returns `0`. -/
def adiosInq (iStream : InputStream) (path : String) (val : Nat) : Int × Nat :=
  match iStream.File.inq_var path with
  | none => (-1, val)
  | some vinfo => (0, vinfo.value)

/-! ## VersionSchema -/

/-- The data members of `VersionSchema`. -/
structure VersionSchema where
  Revision : Nat
  LowestCompatibleRevision : Nat
deriving Repr, DecidableEq

/-- The constructor `VersionSchema() : Revision(3), LowestCompatibleRevision(3)`. -/
def VersionSchema.new : VersionSchema :=
  { Revision := 3, LowestCompatibleRevision := 3 }

/-- `VersionSchema::Read`. -/
def VersionSchema.Read (this : VersionSchema) (iStream : InputStream) : Int :=
  let revision := 0
  match adiosInq iStream "DataObjectSchema" revision with
  | (ierr, revision) =>
    if ierr ≠ 0 then -1
    else if revision < this.LowestCompatibleRevision then -2
    else 0

/-! ## Constants of VTK and of the transport -/

/-- Attribute centering `vtkDataObject::POINT`. -/
def vtkDataObject.POINT : Int := 0

/-- Attribute centering `vtkDataObject::CELL`. -/
def vtkDataObject.CELL : Int := 1

def VTK_CHAR : Int := 2
def VTK_UNSIGNED_CHAR : Int := 3
def VTK_INT : Int := 6
def VTK_UNSIGNED_INT : Int := 7
def VTK_LONG : Int := 8
def VTK_UNSIGNED_LONG : Int := 9
def VTK_FLOAT : Int := 10
def VTK_DOUBLE : Int := 11
def VTK_ID_TYPE : Int := 12
def VTK_LONG_LONG : Int := 16
def VTK_UNSIGNED_LONG_LONG : Int := 17

/-- Data object type codes of `vtkType.h`. -/
def VTK_POLY_DATA : Int := 0
def VTK_STRUCTURED_POINTS : Int := 1
def VTK_STRUCTURED_GRID : Int := 2
def VTK_RECTILINEAR_GRID : Int := 3
def VTK_UNSTRUCTURED_GRID : Int := 4
def VTK_IMAGE_DATA : Int := 6
def VTK_DATA_SET : Int := 8
def VTK_UNIFORM_GRID : Int := 10

/-- Cell type tags of `vtkCellType.h`. -/
def VTK_VERTEX : Nat := 1
def VTK_LINE : Nat := 3
def VTK_TRIANGLE_STRIP : Nat := 6
def VTK_POLYGON : Nat := 7

/-- The element types of the transport that the schema uses. -/
inductive adios2_type where
  | unknown | int8_t | uint8_t | int32_t | uint32_t | int64_t | uint64_t
  | float | double
deriving Repr, DecidableEq

/-- `adiosIdType()` on a build with 64 bit `vtkIdType`. -/
def adiosIdType : adios2_type := adios2_type.int64_t

/-- `adiosType(int vtkt)` on an LP64 platform (`sizeof(long) == 8`).  The default
branch of the switch reports an error and aborts the run; the value returned
after it is `adios2_type_unknown`. -/
def adiosType (vtkt : Int) : adios2_type :=
  if vtkt = VTK_FLOAT then adios2_type.float
  else if vtkt = VTK_DOUBLE then adios2_type.double
  else if vtkt = VTK_CHAR then adios2_type.uint8_t
  else if vtkt = VTK_UNSIGNED_CHAR then adios2_type.uint8_t
  else if vtkt = VTK_INT then adios2_type.int32_t
  else if vtkt = VTK_UNSIGNED_INT then adios2_type.uint32_t
  else if vtkt = VTK_LONG then adios2_type.int64_t
  else if vtkt = VTK_UNSIGNED_LONG then adios2_type.uint64_t
  else if vtkt = VTK_LONG_LONG then adios2_type.int64_t
  else if vtkt = VTK_UNSIGNED_LONG_LONG then adios2_type.uint64_t
  else if vtkt = VTK_ID_TYPE then adiosIdType
  else adios2_type.unknown

/-! ## Mesh metadata -/

/-- The fields of `sensei::MeshMetadata` read by the schema.  Counts and sizes are
natural numbers; the per-array and per-block vectors are lists indexed from 0. -/
structure MeshMetadata where
  GlobalView : Bool := true
  MeshName : String := ""
  BlockType : Int := 0
  CoordinateType : Int := VTK_DOUBLE
  NumBlocks : Nat := 0
  NumArrays : Nat := 0
  NumGhostCells : Nat := 0
  NumGhostNodes : Nat := 0
  ArrayName : List String := []
  ArrayCentering : List Int := []
  ArrayComponents : List Nat := []
  ArrayType : List Int := []
  BlockNumPoints : List Nat := []
  BlockNumCells : List Nat := []
  BlockCellArraySize : List Nat := []
  BlockOwner : List Int := []
  BlockIds : List Nat := []
  BlockExtents : List (List Int) := []
deriving Repr, DecidableEq

/-! ## The in-memory mesh model -/

/-- A `vtkDataArray`: name, VTK type code, shape and the scalars of its buffer. -/
structure vtkDataArray where
  Name : String := ""
  DataType : Int := VTK_DOUBLE
  NumberOfComponents : Nat := 1
  NumberOfTuples : Nat := 0
  Values : List Int := []
deriving Repr, DecidableEq

/-- `vtkDataArray::CreateDataArray(type)`: an empty array with one component. -/
def vtkDataArray.CreateDataArray (array_type : Int) : vtkDataArray :=
  { DataType := array_type }

/-- `SetNumberOfComponents`. -/
def vtkDataArray.SetNumberOfComponents (a : vtkDataArray) (n : Nat) : vtkDataArray :=
  { a with NumberOfComponents := n }

/-- `SetNumberOfTuples`: the buffer is sized to tuples times components; scalars
not yet written read as 0. -/
def vtkDataArray.SetNumberOfTuples (a : vtkDataArray) (n : Nat) : vtkDataArray :=
  { a with NumberOfTuples := n,
           Values := (a.Values ++ List.replicate (n * a.NumberOfComponents) 0).take
                       (n * a.NumberOfComponents) }

/-- `SetName`. -/
def vtkDataArray.SetName (a : vtkDataArray) (name : String) : vtkDataArray :=
  { a with Name := name }

/-- The buffer after the transport has delivered `vals` at `GetVoidPointer(0)`. -/
def vtkDataArray.Deliver (a : vtkDataArray) (vals : List Int) : vtkDataArray :=
  { a with Values := (vals ++ a.Values.drop vals.length).take a.Values.length }

/-- `vtkDataSetAttributes::GetArray(name)`. -/
def GetArray (dsa : List vtkDataArray) (name : String) : Option vtkDataArray :=
  dsa.find? (fun a => a.Name == name)

/-- `vtkDataSetAttributes::AddArray`: an array of the same name is replaced. -/
def AddArray (dsa : List vtkDataArray) (a : vtkDataArray) : List vtkDataArray :=
  dsa.filter (fun b => !(b.Name == a.Name)) ++ [a]

/-- A leaf `vtkDataSet` with its point and cell attribute sets, the type code of its
class (`GetDataObjectType()`) and, for a `vtkRectilinearGrid`, the coordinate arrays of
the three axes (`none` where not set). -/
structure vtkDataSet where
  PointData : List vtkDataArray := []
  CellData : List vtkDataArray := []
  DataObjectType : Int := VTK_DATA_SET
  XCoordinates : Option vtkDataArray := none
  YCoordinates : Option vtkDataArray := none
  ZCoordinates : Option vtkDataArray := none
deriving Repr, DecidableEq

/-- A `vtkCompositeDataSet` as the codecs traverse it: the blocks in flat index
order, `none` for an empty node. -/
abbrev vtkCompositeDataSet := List (Option vtkDataSet)

/-- `it->GetCurrentDataObject()` seen through `dynamic_cast<vtkDataSet*>`, for an
iterator that does not skip empty nodes and stands at position `it`. -/
def GetCurrentDataObject (dobj : vtkCompositeDataSet) (it : Nat) : Option vtkDataSet :=
  (dobj.getD it none)

/-! ## The write side of the transport -/

/-- The handle returned by `adios2_define_variable` for a one dimensional block
variable: its path, element type, local extent, global extent and global offset
(the three size arguments in the order in which the schema passes them). -/
structure adios2_variable where
  path : String
  type : adios2_type
  local_extent : Nat
  global_extent : Nat
  offset : Nat
deriving Repr, DecidableEq

/-- One block variable declared by a codec: the block `j` it belongs to, the
position of the handle table at which the handle is stored, and the handle. -/
structure BlockVar where
  block : Nat
  index : Nat
  var : adios2_variable
deriving Repr, DecidableEq

/-- One deferred `adios2_put` issued for a block: the block, the position of the
handle table that was read, the handle found there and the array written. -/
structure BlockPut where
  block : Nat
  index : Nat
  var : Option adios2_variable
  data : vtkDataArray
deriving Repr, DecidableEq

/-- One bounded read issued for a block by `ArraySchema::Read`: the block, the
path, the `start` and `count` of the bounding box selection, and the array as
allocated for the block before the transport fills it. -/
structure BlockRead where
  block : Nat
  path : String
  start : Nat
  count : Nat
  array : vtkDataArray
deriving Repr, DecidableEq

/-! ## ArraySchema -/

/-- The data member of `ArraySchema`: `PutVars`, from mesh name to handle table. -/
structure ArraySchema where
  PutVars : List (String × List (Option adios2_variable)) := []
deriving Repr, DecidableEq

/-- Reading `PutVars[name]`; a missing entry is an empty table. -/
def ArraySchema.getPutVars (this : ArraySchema) (name : String) :
    List (Option adios2_variable) :=
  (this.PutVars.lookup name).getD []

/-- Storing back the table referenced by `PutVars[name]`. -/
def ArraySchema.setPutVars (this : ArraySchema) (name : String)
    (v : List (Option adios2_variable)) : ArraySchema :=
  { PutVars := (name, v) :: this.PutVars.filter (fun e => !(e.1 == name)) }

/-- `std::vector::resize(n)` on a handle table: new slots hold the null handle. -/
def resize (v : List (Option adios2_variable)) (n : Nat) : List (Option adios2_variable) :=
  v.take n ++ List.replicate (n - v.length) none

/-- The variables of the block loop of `ArraySchema::DefineVariable`. -/
structure ArraySchema.DefineState where
  block_offset : Nat
  put_vars : List (Option adios2_variable)
  defined : List BlockVar
deriving Repr, DecidableEq

/-- The loop `for (j = 0; j < num_blocks; ++j)` of `ArraySchema::DefineVariable`;
the first argument counts the iterations still to run, the second is `j`.  A store
`put_vars[i*num_blocks + j] = put_var` is recorded in `defined` with its position;
a position beyond the table (undefined behaviour in C++) leaves the table as it is. -/
def ArraySchema.DefineVariable.loop (rank : Int) (ans : String) (elem_type : adios2_type)
    (i num_components : Nat) (array_cen : Int) (num_elem_total num_blocks : Nat)
    (block_num_points block_num_cells : List Nat) (block_owner : List Int) :
    Nat → Nat → ArraySchema.DefineState → ArraySchema.DefineState
  | 0, _, st => st
  | n + 1, j, st =>
    let num_elem_local := u64 ((if array_cen = vtkDataObject.POINT
      then block_num_points.getD j 0 else block_num_cells.getD j 0) * num_components)
    let st1 : ArraySchema.DefineState :=
      if block_owner[j]? = some rank then
        let path := ans ++ "data"
        let put_var : adios2_variable :=
          { path := path, type := elem_type, local_extent := num_elem_local,
            global_extent := num_elem_total, offset := st.block_offset }
        { st with put_vars := st.put_vars.set (u32 (i * num_blocks + j)) (some put_var),
                  defined := st.defined ++ [⟨j, u32 (i * num_blocks + j), put_var⟩] }
      else st
    ArraySchema.DefineVariable.loop rank ans elem_type i num_components array_cen
      num_elem_total num_blocks block_num_points block_num_cells block_owner n (j + 1)
      { st1 with block_offset := u64 (st1.block_offset + num_elem_local) }

/-- `ArraySchema::DefineVariable`: return code, handle table, and the block
variables declared in order. -/
def ArraySchema.DefineVariable (rank : Int) (ons : String) (i : Nat) (array_type : Int)
    (num_components : Nat) (array_cen : Int) (num_points_total num_cells_total : Nat)
    (num_blocks : Nat) (block_num_points block_num_cells : List Nat)
    (block_owner : List Int) (put_vars : List (Option adios2_variable)) :
    Int × List (Option adios2_variable) × List BlockVar :=
  if array_cen ≠ vtkDataObject.POINT ∧ array_cen ≠ vtkDataObject.CELL then
    (-1, put_vars, [])
  else
    let ans := ons ++ "data_array_" ++ toString i ++ "/"
    let num_elem_total := u64 ((if array_cen = vtkDataObject.POINT
      then num_points_total else num_cells_total) * num_components)
    let elem_type := adiosType array_type
    let st := ArraySchema.DefineVariable.loop rank ans elem_type i num_components
      array_cen num_elem_total num_blocks block_num_points block_num_cells block_owner
      num_blocks 0 { block_offset := 0, put_vars := put_vars, defined := [] }
    (0, st.put_vars, st.defined)

/-- The arguments of one call of `ArraySchema::DefineVariable` that select the
array: slot `i`, VTK type, component count and centering. -/
structure DefineCall where
  i : Nat
  array_type : Int
  num_components : Nat
  array_cen : Int
deriving Repr, DecidableEq

/-- What `ArraySchema::DefineVariables` accumulates: the handle table, the block
variables declared, and the calls of `DefineVariable` made so far. -/
structure ArraySchema.DefState where
  putVars : List (Option adios2_variable)
  defined : List BlockVar := []
  calls : List DefineCall := []
deriving Repr, DecidableEq

/-- One call `this->DefineVariable(comm, handles, ons, i, type, comps, cen, ...)`
from `DefineVariables`, recorded in the state. -/
def ArraySchema.DefineVariables.call (rank : Int) (ons : String) (md : MeshMetadata)
    (num_points_total num_cells_total : Nat) (c : DefineCall)
    (st : ArraySchema.DefState) : Int × ArraySchema.DefState :=
  let r := ArraySchema.DefineVariable rank ons c.i c.array_type c.num_components
    c.array_cen num_points_total num_cells_total (u32 md.NumBlocks) md.BlockNumPoints
    md.BlockNumCells md.BlockOwner st.putVars
  (r.1, { putVars := r.2.1, defined := st.defined ++ r.2.2, calls := st.calls ++ [c] })

/-- The loop `for (i = 0; i < num_arrays; ++i)` over the data arrays in
`ArraySchema::DefineVariables`, leaving with `-1` at the first failing call. -/
def ArraySchema.DefineVariables.loop (rank : Int) (ons : String) (md : MeshMetadata)
    (num_points_total num_cells_total : Nat) :
    Nat → Nat → ArraySchema.DefState → Int × ArraySchema.DefState
  | 0, _, st => (0, st)
  | n + 1, i, st =>
    let r := ArraySchema.DefineVariables.call rank ons md num_points_total num_cells_total
      ⟨i, md.ArrayType.getD i 0, md.ArrayComponents.getD i 0, md.ArrayCentering.getD i 0⟩ st
    if r.1 ≠ 0 then (-1, r.2)
    else ArraySchema.DefineVariables.loop rank ons md num_points_total num_cells_total
      n (i + 1) r.2

/-- The loop that adds up `num_points_total` and `num_cells_total`. -/
def ArraySchema.DefineVariables.totals (md : MeshMetadata) : Nat → Nat → Nat × Nat → Nat × Nat
  | 0, _, t => t
  | n + 1, j, t =>
    ArraySchema.DefineVariables.totals md n (j + 1)
      (u64 (t.1 + md.BlockNumPoints.getD j 0), u64 (t.2 + md.BlockNumCells.getD j 0))

/-- `ArraySchema::DefineVariables`: return code, the codec with its updated handle
map, the block variables declared and the `DefineVariable` calls made. -/
def ArraySchema.DefineVariables (this : ArraySchema) (rank : Int) (ons : String)
    (md : MeshMetadata) : Int × ArraySchema × List BlockVar × List DefineCall :=
  let num_blocks := u32 md.NumBlocks
  let num_arrays := u32 md.NumArrays
  let num_ghost_arrays : Nat :=
    if md.NumGhostCells ≠ 0 then 1 else (if 0 + md.NumGhostNodes ≠ 0 then 1 else 0)
  let putVars := resize (this.getPutVars md.MeshName)
    (u32 (num_blocks * (num_arrays + num_ghost_arrays)))
  let t := ArraySchema.DefineVariables.totals md num_blocks 0 (0, 0)
  let r := ArraySchema.DefineVariables.loop rank ons md t.1 t.2 num_arrays 0
    { putVars := putVars }
  if r.1 ≠ 0 then (-1, this.setPutVars md.MeshName r.2.putVars, r.2.defined, r.2.calls)
  else
    let r1 := if md.NumGhostCells ≠ 0 then
        ArraySchema.DefineVariables.call rank ons md t.1 t.2
          ⟨num_arrays, VTK_UNSIGNED_CHAR, 1, vtkDataObject.CELL⟩ r.2
      else (0, r.2)
    if r1.1 ≠ 0 then (-1, this.setPutVars md.MeshName r1.2.putVars, r1.2.defined, r1.2.calls)
    else
      let num_arrays := if md.NumGhostCells ≠ 0 then u32 (num_arrays + 1) else num_arrays
      let r2 := if md.NumGhostNodes ≠ 0 then
          ArraySchema.DefineVariables.call rank ons md t.1 t.2
            ⟨num_arrays, VTK_UNSIGNED_CHAR, 1, vtkDataObject.POINT⟩ r1.2
        else (0, r1.2)
      if r2.1 ≠ 0 then
        (-1, this.setPutVars md.MeshName r2.2.putVars, r2.2.defined, r2.2.calls)
      else (0, this.setPutVars md.MeshName r2.2.putVars, r2.2.defined, r2.2.calls)

/-- The loop `for (j = 0; j < num_blocks; ++j)` of the per-array
`ArraySchema::Write`; arguments: iterations still to run, `j`, the position `it` of
the composite iterator, and the puts issued so far. -/
def ArraySchema.WriteArray.loop (rank : Int) (i : Nat) (array_name : String)
    (array_cen : Int) (dobj : vtkCompositeDataSet) (num_blocks : Nat)
    (block_owner : List Int) (putVars : List (Option adios2_variable)) :
    Nat → Nat → Nat → List BlockPut → Int × List BlockPut
  | 0, _, _, puts => (0, puts)
  | n + 1, j, it, puts =>
    if block_owner[j]? = some rank then
      match GetCurrentDataObject dobj it with
      | none => (-1, puts)
      | some ds =>
        let dsa := if array_cen = vtkDataObject.POINT then ds.PointData else ds.CellData
        match GetArray dsa array_name with
        | none => (-1, puts)
        | some da =>
          ArraySchema.WriteArray.loop rank i array_name array_cen dobj num_blocks
            block_owner putVars n (j + 1) (it + 1)
            (puts ++ [⟨j, u32 (i * num_blocks + j),
              (putVars.getD (u32 (i * num_blocks + j)) none), da⟩])
    else
      ArraySchema.WriteArray.loop rank i array_name array_cen dobj num_blocks
        block_owner putVars n (j + 1) (it + 1) puts

/-- The per-array `ArraySchema::Write(comm, handles, i, array_name, array_cen, dobj,
num_blocks, block_owner, putVars)`: return code and the deferred puts issued. -/
def ArraySchema.WriteArray (rank : Int) (i : Nat) (array_name : String) (array_cen : Int)
    (dobj : vtkCompositeDataSet) (num_blocks : Nat) (block_owner : List Int)
    (putVars : List (Option adios2_variable)) : Int × List BlockPut :=
  ArraySchema.WriteArray.loop rank i array_name array_cen dobj num_blocks block_owner
    putVars num_blocks 0 0 []

/-- The array that the per-array `ArraySchema::Write` finds for block `j`, with the
composite iterator at position `j`: `none` when the block is null or when the attribute
set selected by the centering holds no array of that name. -/
def arrayOfBlock (dobj : vtkCompositeDataSet) (array_cen : Int) (array_name : String)
    (j : Nat) : Option vtkDataArray :=
  (GetCurrentDataObject dobj j).bind (fun ds =>
    GetArray (if array_cen = vtkDataObject.POINT then ds.PointData else ds.CellData)
      array_name)

/-- The arguments of one call of the per-array `ArraySchema::Write` that select
the array: slot `i`, name and centering. -/
structure WriteCall where
  i : Nat
  array_name : String
  array_cen : Int
deriving Repr, DecidableEq

/-- What the per-mesh `ArraySchema::Write` accumulates. -/
structure ArraySchema.WriteState where
  puts : List BlockPut := []
  calls : List WriteCall := []
deriving Repr, DecidableEq

/-- One call of the per-array `Write` from the per-mesh `Write`, recorded. -/
def ArraySchema.Write.call (rank : Int) (md : MeshMetadata) (dobj : vtkCompositeDataSet)
    (putVars : List (Option adios2_variable)) (c : WriteCall)
    (st : ArraySchema.WriteState) : Int × ArraySchema.WriteState :=
  let r := ArraySchema.WriteArray rank c.i c.array_name c.array_cen dobj
    (u32 md.NumBlocks) md.BlockOwner putVars
  (r.1, { puts := st.puts ++ r.2, calls := st.calls ++ [c] })

/-- The loop over the data arrays in the per-mesh `ArraySchema::Write`. -/
def ArraySchema.Write.loop (rank : Int) (md : MeshMetadata) (dobj : vtkCompositeDataSet)
    (putVars : List (Option adios2_variable)) :
    Nat → Nat → ArraySchema.WriteState → Int × ArraySchema.WriteState
  | 0, _, st => (0, st)
  | n + 1, i, st =>
    let r := ArraySchema.Write.call rank md dobj putVars
      ⟨i, md.ArrayName.getD i "", md.ArrayCentering.getD i 0⟩ st
    if r.1 ≠ 0 then (-1, r.2)
    else ArraySchema.Write.loop rank md dobj putVars n (i + 1) r.2

/-- The per-mesh `ArraySchema::Write(comm, handles, md, dobj)`: return code, the
deferred puts issued and the per-array calls made. -/
def ArraySchema.Write (this : ArraySchema) (rank : Int) (md : MeshMetadata)
    (dobj : vtkCompositeDataSet) : Int × List BlockPut × List WriteCall :=
  let putVars := this.getPutVars md.MeshName
  let num_arrays := u32 md.NumArrays
  let r := ArraySchema.Write.loop rank md dobj putVars num_arrays 0 {}
  if r.1 ≠ 0 then (-1, r.2.puts, r.2.calls)
  else
    let r1 := if md.NumGhostCells ≠ 0 then
        ArraySchema.Write.call rank md dobj putVars
          ⟨num_arrays, "vtkGhostType", vtkDataObject.CELL⟩ r.2
      else (0, r.2)
    if r1.1 ≠ 0 then (-1, r1.2.puts, r1.2.calls)
    else
      let num_arrays := if md.NumGhostCells ≠ 0 then u32 (num_arrays + 1) else num_arrays
      let r2 := if md.NumGhostNodes ≠ 0 then
          ArraySchema.Write.call rank md dobj putVars
            ⟨num_arrays, "vtkGhostType", vtkDataObject.POINT⟩ r1.2
        else (0, r1.2)
      if r2.1 ≠ 0 then (-1, r2.2.puts, r2.2.calls)
      else (0, r2.2.puts, r2.2.calls)

/-- The variables of the block loop of the per-array `ArraySchema::Read`. -/
structure ArraySchema.ReadState where
  block_offset : Nat := 0
  it : Nat := 0
  dobj : vtkCompositeDataSet
  reads : List BlockRead := []
deriving Repr, DecidableEq

/-- The body of the loop `for (j = 0; j < num_blocks; ++j)` of the per-array
`ArraySchema::Read` for block `j`: code `-1` where the body returns `-1`, code
`0` where it reaches the end of the iteration. -/
def ArraySchema.ReadArray.block (rank : Int) (fh : ADIOS_FILE) (ans : String)
    (array_name : String) (array_type : Int) (num_components : Nat) (array_cen : Int)
    (block_num_points block_num_cells : List Nat) (block_owner : List Int)
    (j : Nat) (st : ArraySchema.ReadState) : Int × ArraySchema.ReadState :=
  let num_elem_local := u64 ((if array_cen = vtkDataObject.POINT
    then block_num_points.getD j 0 else block_num_cells.getD j 0) * num_components)
  if block_owner[j]? = some rank then
    let start := st.block_offset
    let count := num_elem_local
    let sel := ADIOS_SELECTION.boundingbox start count
    let array := (((vtkDataArray.CreateDataArray array_type).SetNumberOfComponents
      num_components).SetNumberOfTuples num_elem_local).SetName array_name
    let path := ans ++ "data"
    let st1 := { st with reads := st.reads ++ [⟨j, path, start, count, array⟩] }
    match fh.read (some sel) path with
    | none => (-1, st1)
    | some vals =>
      match GetCurrentDataObject st.dobj st.it with
      | none => (-1, st1)
      | some ds =>
        let ds1 : vtkDataSet :=
          if array_cen = vtkDataObject.POINT
          then { ds with PointData := AddArray ds.PointData (array.Deliver vals) }
          else { ds with CellData := AddArray ds.CellData (array.Deliver vals) }
        (0, { st1 with dobj := st.dobj.set st.it (some ds1),
                       block_offset := u64 (st.block_offset + num_elem_local),
                       it := st.it + 1 })
  else
    (0, { st with block_offset := u64 (st.block_offset + num_elem_local),
                  it := st.it + 1 })

/-- The loop `for (j = 0; j < num_blocks; ++j)` of the per-array
`ArraySchema::Read`; arguments: iterations still to run, `j`, the loop state. -/
def ArraySchema.ReadArray.loop (rank : Int) (fh : ADIOS_FILE) (ans : String)
    (array_name : String) (array_type : Int) (num_components : Nat) (array_cen : Int)
    (block_num_points block_num_cells : List Nat) (block_owner : List Int) :
    Nat → Nat → ArraySchema.ReadState → Int × ArraySchema.ReadState
  | 0, _, st => (0, st)
  | n + 1, j, st =>
    let r := ArraySchema.ReadArray.block rank fh ans array_name array_type num_components
      array_cen block_num_points block_num_cells block_owner j st
    if r.1 ≠ 0 then (-1, r.2)
    else ArraySchema.ReadArray.loop rank fh ans array_name array_type num_components
      array_cen block_num_points block_num_cells block_owner n (j + 1) r.2

/-- The per-array `ArraySchema::Read(comm, fh, ons, i, array_name, array_type,
num_components, array_cen, num_blocks, ...)`: return code, the composite object
and the bounded reads issued. -/
def ArraySchema.ReadArray (rank : Int) (fh : ADIOS_FILE) (ons : String) (i : Nat)
    (array_name : String) (array_type : Int) (num_components : Nat) (array_cen : Int)
    (num_blocks : Nat) (block_num_points block_num_cells : List Nat)
    (block_owner : List Int) (dobj : vtkCompositeDataSet) :
    Int × vtkCompositeDataSet × List BlockRead :=
  let ans := ons ++ "data_array_" ++ toString i ++ "/"
  let r := ArraySchema.ReadArray.loop rank fh ans array_name array_type num_components
    array_cen block_num_points block_num_cells block_owner num_blocks 0 { dobj := dobj }
  (r.1, r.2.dobj, r.2.reads)

/-- The arguments of one call of the per-array `ArraySchema::Read` that select the
array: slot `i`, name, VTK type, component count and centering. -/
structure ReadCall where
  i : Nat
  array_name : String
  array_type : Int
  num_components : Nat
  array_cen : Int
deriving Repr, DecidableEq

/-- The loop over the array descriptors in the by-name `ArraySchema::Read`: the
first descriptor with the requested name and centering, if any. -/
def ArraySchema.Read.find (name : String) (centering : Int) (md : MeshMetadata) :
    Nat → Nat → Option ReadCall
  | 0, _ => none
  | n + 1, i =>
    let array_name := md.ArrayName.getD i ""
    let array_cen := md.ArrayCentering.getD i 0
    if centering ≠ array_cen ∨ name ≠ array_name then
      ArraySchema.Read.find name centering md n (i + 1)
    else
      some ⟨i, array_name, md.ArrayType.getD i 0, md.ArrayComponents.getD i 0, array_cen⟩

/-- The per-array read that the by-name `ArraySchema::Read` decides on, if any. -/
def ArraySchema.Read.select (name : String) (centering : Int) (md : MeshMetadata) :
    Option ReadCall :=
  let num_arrays := u32 md.NumArrays
  if name = "vtkGhostType" then
    let i := if centering = vtkDataObject.CELL then num_arrays else u32 (num_arrays + 1)
    some ⟨i, "vtkGhostType", VTK_UNSIGNED_CHAR, 1, centering⟩
  else
    ArraySchema.Read.find name centering md num_arrays 0

/-- The by-name `ArraySchema::Read(comm, fh, ons, name, centering, md, dobj)`:
return code, the composite object, the bounded reads issued and the per-array
call made (none when no descriptor matches). -/
def ArraySchema.Read (rank : Int) (fh : ADIOS_FILE) (ons : String) (name : String)
    (centering : Int) (md : MeshMetadata) (dobj : vtkCompositeDataSet) :
    Int × vtkCompositeDataSet × List BlockRead × Option ReadCall :=
  match ArraySchema.Read.select name centering md with
  | none => (0, dobj, [], none)
  | some c =>
    let r := ArraySchema.ReadArray rank fh ons c.i c.array_name c.array_type
      c.num_components c.array_cen (u32 md.NumBlocks) md.BlockNumPoints md.BlockNumCells
      md.BlockOwner dobj
    (r.1, r.2.1, r.2.2, some c)

/-! ## PolydataCellSchema -/

/-- A `vtkCellArray`: the number of cells and the connectivity array returned by
`GetData()`, a sequence of runs `count, id_1, ..., id_count`. -/
structure vtkCellArray where
  NumberOfCells : Nat := 0
  Data : List Int := []
deriving Repr, DecidableEq

/-- The four cell groups of a `vtkPolyData` block. -/
structure vtkPolyData where
  Verts : vtkCellArray := {}
  Lines : vtkCellArray := {}
  Polys : vtkCellArray := {}
  Strips : vtkCellArray := {}
deriving Repr, DecidableEq

/-- The part of `PolydataCellSchema::Write` that serializes one locally owned block:
the `types` and `cells` vectors handed to `adios2_put`. -/
def PolydataCellSchema.Write.block (pd : vtkPolyData) : List Nat × List Int :=
  let types : List Nat := []
  let cells : List Int := []
  let nv := pd.Verts.NumberOfCells
  let (types, cells) :=
    if nv ≠ 0 then (types ++ List.replicate nv VTK_VERTEX, cells ++ pd.Verts.Data)
    else (types, cells)
  let nl := pd.Lines.NumberOfCells
  let (types, cells) :=
    if nl ≠ 0 then (types ++ List.replicate nl VTK_LINE, cells ++ pd.Lines.Data)
    else (types, cells)
  let np := pd.Polys.NumberOfCells
  let (types, cells) :=
    if np ≠ 0 then (types ++ List.replicate np VTK_POLYGON, cells ++ pd.Polys.Data)
    else (types, cells)
  let ns := pd.Strips.NumberOfCells
  let (types, cells) :=
    if ns ≠ 0 then (types ++ List.replicate ns VTK_TRIANGLE_STRIP, cells ++ pd.Strips.Data)
    else (types, cells)
  (types, cells)

/-- Reading `p[0]` through a pointer that stands at offset `p` of `buf`; outside
the buffer (undefined behaviour in C++) the value read is 0. -/
def deref (buf : List Int) (p : Int) : Int :=
  if 0 ≤ p then buf.getD p.toNat 0 else 0

/-- One of the four loops
`while ((i < num_cells_local) && (p_types[i] == tag)) { p_cells += p_cells[0] + 1; ++n; ++i; }`
of `PolydataCellSchema::Read`.  The first argument is `num_cells_local - i`, so that
it is positive exactly when `i < num_cells_local`; the state is `i`, the offset of
`p_cells` in `cell_array`, and the counter `n`. -/
def PolydataCellSchema.Read.whileTag (tag : Nat) (p_types : List Nat)
    (cell_array : List Int) : Nat → Nat × Int × Nat → Nat × Int × Nat
  | 0, st => st
  | r + 1, (i, p_cells, n) =>
    if p_types.getD i 0 = tag then
      PolydataCellSchema.Read.whileTag tag p_types cell_array r
        (i + 1, p_cells + (deref cell_array p_cells + 1), n + 1)
    else (i, p_cells, n)

/-- The copy `for (j = 0; j < n_tups; ++j) p[j] = begin[j]` with
`n_tups = end - begin`. -/
def copyRange (cell_array : List Int) (p_begin p_end : Int) : List Int :=
  (List.range (p_end - p_begin).toNat).map (fun j => deref cell_array (p_begin + j))

/-- The part of `PolydataCellSchema::Read` that rebuilds one locally owned block
from the `cell_types` and `cell_array` buffers read from the stream. -/
def PolydataCellSchema.Read.block (num_cells_local : Nat) (p_types : List Nat)
    (cell_array : List Int) : vtkPolyData :=
  let p_cells : Int := 0
  -- find first and last vert and number of verts
  let i := 0
  let n_verts := 0
  let vert_begin := p_cells
  let (i, p_cells, n_verts) := PolydataCellSchema.Read.whileTag VTK_VERTEX p_types
    cell_array (num_cells_local - i) (i, p_cells, n_verts)
  let vert_end := p_cells
  -- find first and last line and number of lines
  let n_lines := 0
  let line_begin := p_cells
  let (i, p_cells, n_lines) := PolydataCellSchema.Read.whileTag VTK_LINE p_types
    cell_array (num_cells_local - i) (i, p_cells, n_lines)
  let line_end := p_cells
  -- find first and last poly and number of polys
  let n_polys := 0
  let poly_begin := p_cells
  let (i, p_cells, n_polys) := PolydataCellSchema.Read.whileTag VTK_VERTEX p_types
    cell_array (num_cells_local - i) (i, p_cells, n_polys)
  let poly_end := p_cells
  -- find first and last strip and number of strips
  let n_strips := 0
  let strip_begin := p_cells
  let (_, p_cells, n_strips) := PolydataCellSchema.Read.whileTag VTK_VERTEX p_types
    cell_array (num_cells_local - i) (i, p_cells, n_strips)
  let strip_end := p_cells
  { Verts := ⟨n_verts, copyRange cell_array vert_begin vert_end⟩,
    Lines := ⟨n_lines, copyRange cell_array line_begin line_end⟩,
    Polys := ⟨n_polys, copyRange cell_array poly_begin poly_end⟩,
    Strips := ⟨n_strips, copyRange cell_array strip_begin strip_end⟩ }

/-! ## UnstructuredCellSchema: the cell locations built on read -/

/-- The memory traffic of the code that builds the cell locations: the buffer of
`cell_locs` (`num_cells_local` entries after `SetNumberOfTuples`), the positions of
`p_locs` that were written, in order, and the positions of `p_cells` that were read,
in order.  A write at a position beyond the buffer (undefined behaviour in C++) is
recorded in `writes` and leaves the buffer as it is. -/
structure LocScan where
  p_locs : List Int
  writes : List Nat
  reads : List Int
deriving Repr, DecidableEq

/-- The loop `for (i = 1; i < num_cells_local; ++i) p_locs[i] = p_locs[i-1] +
p_cells[p_locs[i-1]] + 1;` of `UnstructuredCellSchema::Read`; the first argument
counts the iterations still to run, the second is `i`. -/
def UnstructuredCellSchema.Read.locations.loop (p_cells : List Int) :
    Nat → Nat → LocScan → LocScan
  | 0, _, st => st
  | r + 1, i, st =>
    let prev := st.p_locs.getD (i - 1) 0
    UnstructuredCellSchema.Read.locations.loop p_cells r (i + 1)
      { p_locs := st.p_locs.set i (prev + deref p_cells prev + 1),
        writes := st.writes ++ [i],
        reads := st.reads ++ [prev] }

/-- The lines of `UnstructuredCellSchema::Read` under `// build locations`:
`cell_locs->SetNumberOfTuples(num_cells_local)`, then `p_locs[0] = 0`, then the loop
from `i = 1`. -/
def UnstructuredCellSchema.Read.locations (num_cells_local : Nat) (p_cells : List Int) :
    LocScan :=
  let cell_locs : List Int := List.replicate num_cells_local 0
  UnstructuredCellSchema.Read.locations.loop p_cells (num_cells_local - 1) 1
    { p_locs := cell_locs.set 0 0, writes := [0], reads := [] }

/-! ## BinaryStreamSchema -/

/-- Modelled from the spec: `sensei::BinaryStream` (`BinaryStream.h` is not part of
the sources at hand), "an ordered, resizable byte sequence with independent
read/write cursors". -/
structure BinaryStream where
  Data : List Int := []
  ReadPos : Nat := 0
  WritePos : Nat := 0
deriving Repr, DecidableEq

/-- `BinaryStream::Size`. -/
def BinaryStream.Size (s : BinaryStream) : Nat := s.Data.length

/-- `BinaryStream::Resize`: bytes not yet written read as 0. -/
def BinaryStream.Resize (s : BinaryStream) (n : Nat) : BinaryStream :=
  { s with Data := (s.Data ++ List.replicate n 0).take n }

/-- `BinaryStream::SetReadPos`. -/
def BinaryStream.SetReadPos (s : BinaryStream) (n : Nat) : BinaryStream :=
  { s with ReadPos := n }

/-- `BinaryStream::SetWritePos`. -/
def BinaryStream.SetWritePos (s : BinaryStream) (n : Nat) : BinaryStream :=
  { s with WritePos := n }

/-- The stream after the transport has delivered `vals` at `GetData()`. -/
def BinaryStream.Deliver (s : BinaryStream) (vals : List Int) : BinaryStream :=
  { s with Data := (vals ++ s.Data.drop vals.length).take s.Data.length }

/-- The conversion of an unsigned extent to `int`: the low 32 bits, read as a signed
number. -/
def toInt32 (n : Nat) : Int :=
  if n % 2 ^ 32 < 2 ^ 31 then ((n % 2 ^ 32 : Nat) : Int) else ((n % 2 ^ 32 : Nat) : Int) - 2 ^ 32

/-- The conversion of an `int` to an unsigned 64 bit size. -/
def toSize (z : Int) : Nat := (z % 2 ^ 64).toNat

/-- `BinaryStreamSchema::Read`: return code, the destination stream and the reads
scheduled on the transport (selection and path).  `int nbytes = vinfo->dims[0]` is
the stored extent. -/
def BinaryStreamSchema.Read (iStream : InputStream) (sel : Option ADIOS_SELECTION)
    (path : String) (str : BinaryStream) :
    Int × BinaryStream × List (Option ADIOS_SELECTION × String) :=
  match iStream.File.inq_var path with
  | none => (-1, str, [])
  | some vinfo =>
    let nbytes := toInt32 vinfo.dims0
    let str := ((str.Resize (toSize nbytes)).SetReadPos 0).SetWritePos (toSize nbytes)
    match iStream.File.read sel path with
    | none => (-1, str, [(sel, path)])
    | some vals => (0, str.Deliver vals, [(sel, path)])

/-- A `double`, kept as its bit pattern; the schema only passes it on. -/
structure double where
  bits : Nat
deriving Repr, DecidableEq

/-- The buffer handed to `adios2_put`. -/
inductive PutData where
  | uint (v : Nat)
  | real (v : double)
  | bytes (b : List Int)
deriving Repr, DecidableEq

/-- What the collection codec does to the transport when it writes, in order:
`adios2_set_shape`, `adios2_set_selection`, `adios2_put` (or `adios2_put_by_name`) on
a named variable, and the call of `DataObjectSchema::Write` for one object, which
writes the geometry and array payload of that object. -/
inductive WriteEvent where
  | set_shape (path : String) (n : Nat)
  | set_selection (path : String) (start count : Nat)
  | put (path : String) (data : PutData)
  | object (doid : Nat) (md : MeshMetadata) (dobj : vtkCompositeDataSet)
deriving Repr, DecidableEq

/-- What the collection codec declares, in order: a scalar variable
(`adios2_define_variable` with 0 dimensions), a binary stream variable
(`BinaryStreamSchema::DefineVariables`), and the call of
`DataObjectSchema::DefineVariables` for one object, which declares the geometry and
array variables of that object. -/
inductive DefineEvent where
  | scalar (path : String) (type : adios2_type)
  | stream (path : String)
  | object (doid : Nat) (md : MeshMetadata)
deriving Repr, DecidableEq

/-- The write side handles (`AdiosHandle`): `error op` tells whether the transport
reports an error for the operation `op`. -/
structure AdiosHandle where
  error : WriteEvent → Bool

/-- `BinaryStreamSchema::DefineVariables`. -/
def BinaryStreamSchema.DefineVariables (path : String) : Int × List DefineEvent :=
  (0, [DefineEvent.stream path])

/-- `BinaryStreamSchema::Write`: return code and the transport operations issued;
the three calls are joined by `||`, so the first error ends the sequence. -/
def BinaryStreamSchema.Write (handles : AdiosHandle) (path : String) (str : BinaryStream) :
    Int × List WriteEvent :=
  let n := str.Size
  if handles.error (WriteEvent.set_shape path n) then
    (-1, [WriteEvent.set_shape path n])
  else if handles.error (WriteEvent.set_selection path 0 n) then
    (-1, [WriteEvent.set_shape path n, WriteEvent.set_selection path 0 n])
  else if handles.error (WriteEvent.put path (PutData.bytes str.Data)) then
    (-1, [WriteEvent.set_shape path n, WriteEvent.set_selection path 0 n,
          WriteEvent.put path (PutData.bytes str.Data)])
  else
    (0, [WriteEvent.set_shape path n, WriteEvent.set_selection path 0 n,
         WriteEvent.put path (PutData.bytes str.Data)])

/-- `VersionSchema::DefineVariables`. -/
def VersionSchema.DefineVariables (_this : VersionSchema) : Int × List DefineEvent :=
  (0, [DefineEvent.scalar "DataObjectSchema" adios2_type.uint32_t])

/-- `VersionSchema::Write`. -/
def VersionSchema.Write (this : VersionSchema) : Int × List WriteEvent :=
  (0, [WriteEvent.put "DataObjectSchema" (PutData.uint this.Revision)])

/-! ## Metadata maps -/

/-- Modelled from the spec: `sensei::MeshMetadataMap` (`MeshMetadataMap.h` is not part
of the sources at hand), a map "keyed by object id (0..N-1)" whose entries "start
empty" after a resize.  `none` is an entry that has not been set. -/
structure MeshMetadataMap where
  entries : List (Option MeshMetadata) := []
deriving Repr, DecidableEq

/-- `MeshMetadataMap::Clear`. -/
def MeshMetadataMap.Clear (_m : MeshMetadataMap) : MeshMetadataMap := { entries := [] }

/-- `MeshMetadataMap::PushBack`. -/
def MeshMetadataMap.PushBack (m : MeshMetadataMap) (md : MeshMetadata) : MeshMetadataMap :=
  { entries := m.entries ++ [some md] }

/-- `MeshMetadataMap::Resize`. -/
def MeshMetadataMap.Resize (m : MeshMetadataMap) (n : Nat) : MeshMetadataMap :=
  { entries := m.entries.take n ++ List.replicate (n - m.entries.length) none }

/-- `MeshMetadataMap::Size`. -/
def MeshMetadataMap.Size (m : MeshMetadataMap) : Nat := m.entries.length

/-! ## DataObjectCollectionSchema

The mesh-object codec `DataObjectSchema` enters the collection codec through its
operations `DefineVariables` and `Write`, passed as arguments (`σ` is the state of
that codec): what is proved about the collection codec holds whatever these
operations do. -/

/-- `DataObjectCollectionSchema::InternalsType`. -/
structure DataObjectCollectionSchema (σ : Type) where
  Version : VersionSchema := VersionSchema.new
  DataObject : σ
  SenderMdMap : MeshMetadataMap := {}
  ReceiverMdMap : MeshMetadataMap := {}

/-- The loop `for (i = 0; i < n_objects; ++i)` of
`DataObjectCollectionSchema::DefineVariables`; arguments: iterations still to run,
`i`, the mesh-object codec and the declarations made so far. -/
def DataObjectCollectionSchema.DefineVariables.loop {σ : Type}
    (defineObject : σ → Nat → MeshMetadata → Int × σ) (metadata : List MeshMetadata) :
    Nat → Nat → σ × List DefineEvent → Int × σ × List DefineEvent
  | 0, _, st => (0, st)
  | n + 1, i, (dataObject, log) =>
    let object_id := "data_object_" ++ toString i ++ "/"
    -- what follows depends on a global view of the metadata
    if !(metadata.getD i {}).GlobalView then (-1, dataObject, log)
    else
      let r0 := BinaryStreamSchema.DefineVariables (object_id ++ "metadata")
      let r := defineObject dataObject i (metadata.getD i {})
      let log1 := log ++ r0.2 ++ [DefineEvent.object i (metadata.getD i {})]
      if r.1 ≠ 0 then (-1, r.2, log1)
      else DataObjectCollectionSchema.DefineVariables.loop defineObject metadata n (i + 1)
        (r.2, log1)

/-- `DataObjectCollectionSchema::DefineVariables`: return code, the codec and the
declarations made, in order. -/
def DataObjectCollectionSchema.DefineVariables {σ : Type}
    (this : DataObjectCollectionSchema σ)
    (defineObject : σ → Nat → MeshMetadata → Int × σ) (metadata : List MeshMetadata) :
    Int × DataObjectCollectionSchema σ × List DefineEvent :=
  let log := (this.Version.DefineVariables).2 ++
    [DefineEvent.scalar "time_step" adios2_type.uint64_t,
     DefineEvent.scalar "time" adios2_type.double]
  let n_objects := u32 metadata.length
  let log := log ++ [DefineEvent.scalar "number_of_data_objects" adios2_type.int32_t]
  let r := DataObjectCollectionSchema.DefineVariables.loop defineObject metadata n_objects 0
    (this.DataObject, log)
  (r.1, { this with DataObject := r.2.1 }, r.2.2)

/-- The loop `for (i = 0; i < n_objects; ++i)` of `DataObjectCollectionSchema::Write`.
The return code of `BinaryStreamSchema::Write` is not looked at. -/
def DataObjectCollectionSchema.Write.loop {σ : Type}
    (writeObject : σ → Nat → MeshMetadata → vtkCompositeDataSet → Int × σ)
    (ToStream : MeshMetadata → BinaryStream) (handles : AdiosHandle)
    (metadata : List MeshMetadata) (objects : List vtkCompositeDataSet) :
    Nat → Nat → σ × List WriteEvent → Int × σ × List WriteEvent
  | 0, _, st => (0, st)
  | n + 1, i, (dataObject, log) =>
    let bs := ToStream (metadata.getD i {})
    let object_id := "data_object_" ++ toString i ++ "/"
    let path := object_id ++ "metadata"
    let r0 := BinaryStreamSchema.Write handles path bs
    let r := writeObject dataObject i (metadata.getD i {}) (objects.getD i [])
    let log1 := log ++ r0.2 ++
      [WriteEvent.object i (metadata.getD i {}) (objects.getD i [])]
    if r.1 ≠ 0 then (-1, r.2, log1)
    else DataObjectCollectionSchema.Write.loop writeObject ToStream handles metadata objects
      n (i + 1) (r.2, log1)

/-- `DataObjectCollectionSchema::Write`: return code, the codec and what was done
to the transport, in order.  `ToStream` is `MeshMetadata::ToStream`. -/
def DataObjectCollectionSchema.Write {σ : Type} (this : DataObjectCollectionSchema σ)
    (writeObject : σ → Nat → MeshMetadata → vtkCompositeDataSet → Int × σ)
    (ToStream : MeshMetadata → BinaryStream) (handles : AdiosHandle)
    (time_step : Nat) (time : double) (metadata : List MeshMetadata)
    (objects : List vtkCompositeDataSet) :
    Int × DataObjectCollectionSchema σ × List WriteEvent :=
  let n_objects := u32 objects.length
  if n_objects ≠ metadata.length then (-1, this, [])
  else
    let log := (this.Version.Write).2 ++
      [WriteEvent.put "time_step" (PutData.uint time_step),
       WriteEvent.put "time" (PutData.real time),
       WriteEvent.put "number_of_data_objects" (PutData.uint n_objects)]
    let r := DataObjectCollectionSchema.Write.loop writeObject ToStream handles metadata
      objects n_objects 0 (this.DataObject, log)
    (r.1, { this with DataObject := r.2.1 }, r.2.2)

/-- `streamIsFileBased`. -/
def streamIsFileBased (engine : String) : Bool :=
  engine == "BPFile" || engine == "HDF5" || engine == "BP3" || engine == "BP4"

/-- The loop `for (i = 0; i < n_objects; ++i)` of
`DataObjectCollectionSchema::ReadMeshMetadata`, which reads the sender metadata;
arguments: iterations still to run, `i`, the sender map.  `FromStream` is
`MeshMetadata::FromStream` applied to a new `MeshMetadata`. -/
def DataObjectCollectionSchema.ReadMeshMetadata.loop (iStream : InputStream)
    (FromStream : BinaryStream → MeshMetadata) (sel : Option ADIOS_SELECTION) :
    Nat → Nat → MeshMetadataMap → Int × MeshMetadataMap
  | 0, _, senderMdMap => (0, senderMdMap)
  | n + 1, i, senderMdMap =>
    let data_object_id := "data_object_" ++ toString i ++ "/"
    let bs : BinaryStream := {}
    let path := data_object_id ++ "metadata"
    let r := BinaryStreamSchema.Read iStream sel path bs
    if r.1 ≠ 0 then (-1, senderMdMap)
    else
      let md := FromStream r.2.1
      DataObjectCollectionSchema.ReadMeshMetadata.loop iStream FromStream sel n (i + 1)
        (senderMdMap.PushBack md)

/-- `DataObjectCollectionSchema::ReadMeshMetadata`: return code and the codec with
its two metadata maps.  `adios_selection_writeblock rank` is `none` when the
transport cannot make the selection. -/
def DataObjectCollectionSchema.ReadMeshMetadata {σ : Type}
    (this : DataObjectCollectionSchema σ) (rank : Int) (iStream : InputStream)
    (FromStream : BinaryStream → MeshMetadata)
    (adios_selection_writeblock : Int → Option ADIOS_SELECTION) :
    Int × DataObjectCollectionSchema σ :=
  let this := { this with SenderMdMap := this.SenderMdMap.Clear,
                          ReceiverMdMap := this.ReceiverMdMap.Clear }
  -- /number_of_data_objects
  let q := adiosInq iStream "number_of_data_objects" 0
  if q.1 ≠ 0 then (-1, this)
  else
    let n_objects := q.2
    let sel : Option ADIOS_SELECTION :=
      if !streamIsFileBased iStream.ReadMethod then adios_selection_writeblock rank
      else none
    if !streamIsFileBased iStream.ReadMethod ∧ sel = none then (-1, this)
    else
      -- read the sender mesh metadata
      let r := DataObjectCollectionSchema.ReadMeshMetadata.loop iStream FromStream sel
        n_objects 0 this.SenderMdMap
      if r.1 ≠ 0 then (-1, { this with SenderMdMap := r.2 })
      else
        (0, { this with SenderMdMap := r.2,
                        ReceiverMdMap := this.ReceiverMdMap.Resize n_objects })

/-- `DataObjectCollectionSchema::GetNumberOfObjects`: return code and `num`. -/
def DataObjectCollectionSchema.GetNumberOfObjects {σ : Type}
    (this : DataObjectCollectionSchema σ) : Int × Nat :=
  (0, this.SenderMdMap.Size)

/-! ## Lookups in the metadata maps -/

/-- Modelled from the spec: `MeshMetadataMap::GetMeshMetadata(id, md)` (`MeshMetadataMap.h`
is not part of the sources at hand).  An entry "already exists" when `id` is inside
the map and the entry has been set; `none` stands for the non-zero return code, the
entry for return code 0 with `md` set to it. -/
def MeshMetadataMap.GetMeshMetadata (m : MeshMetadataMap) (id : Nat) : Option MeshMetadata :=
  (m.entries.getD id none)

/-- Modelled from the spec: `MeshMetadataMap::SetMeshMetadata(id, md)`, which sets the
entry `id` of a map that has been resized to hold it; return code and map. -/
def MeshMetadataMap.SetMeshMetadata (m : MeshMetadataMap) (id : Nat) (md : MeshMetadata) :
    Int × MeshMetadataMap :=
  if id < m.entries.length then (0, { entries := m.entries.set id (some md) })
  else (-1, m)

/-- Modelled from the spec: `MeshMetadataMap::GetMeshId(name, id)`, which "resolves
name->id" and fails when the name is absent; `none` stands for the non-zero return
code. -/
def MeshMetadataMap.GetMeshId (m : MeshMetadataMap) (name : String) : Option Nat :=
  m.entries.findIdx? (fun e => match e with
    | some md => md.MeshName == name
    | none => false)

/-- `DataObjectCollectionSchema::GetSenderMeshMetadata`: return code and `md`. -/
def DataObjectCollectionSchema.GetSenderMeshMetadata {σ : Type}
    (this : DataObjectCollectionSchema σ) (id : Nat) (md : Option MeshMetadata) :
    Int × Option MeshMetadata :=
  match this.SenderMdMap.GetMeshMetadata id with
  | none => (-1, md)
  | some e => (0, some e)

/-- `DataObjectCollectionSchema::SetReceiverMeshMetadata`: return code and codec. -/
def DataObjectCollectionSchema.SetReceiverMeshMetadata {σ : Type}
    (this : DataObjectCollectionSchema σ) (id : Nat) (md : MeshMetadata) :
    Int × DataObjectCollectionSchema σ :=
  let r := this.ReceiverMdMap.SetMeshMetadata id md
  (r.1, { this with ReceiverMdMap := r.2 })

/-- `DataObjectCollectionSchema::GetReceiverMeshMetadata`: return code and `md`. -/
def DataObjectCollectionSchema.GetReceiverMeshMetadata {σ : Type}
    (this : DataObjectCollectionSchema σ) (id : Nat) (md : Option MeshMetadata) :
    Int × Option MeshMetadata :=
  match this.ReceiverMdMap.GetMeshMetadata id with
  | none => (-1, md)
  | some e => (0, some e)

/-- `DataObjectCollectionSchema::GetObjectId`: return code and `doid`, which is set
to 0 before the lookup. -/
def DataObjectCollectionSchema.GetObjectId {σ : Type}
    (this : DataObjectCollectionSchema σ) (object_name : String) : Int × Nat :=
  let doid := 0
  match this.SenderMdMap.GetMeshId object_name with
  | none => (-1, doid)
  | some id => (0, id)

/-! ## ADIOS1DataAdaptor::GetMeshMetadata -/

/-- A `sensei::Partitioner` seen through `GetPartition(comm, senderMd, recverMd)`:
from the sender metadata to the return code and the receiver metadata it leaves in
`recverMd` (`none` is the null pointer). -/
abbrev Partitioner := Option MeshMetadata → Int × Option MeshMetadata

/-- What `ADIOS1DataAdaptor::GetMeshMetadata` does besides looking at the receiver
metadata, in order: fetch the sender metadata of an object, run a partitioner
(`isDefault` tells whether it is the `BlockPartitioner` made on the spot) on a sender
metadata, close the stream. -/
inductive AdaptorEvent where
  | GetSenderMeshMetadata (id : Nat)
  | GetPartition (isDefault : Bool) (senderMd : Option MeshMetadata)
  | CloseStream
deriving Repr, DecidableEq

/-- The state of an `ADIOS1DataAdaptor` that `GetMeshMetadata` works on: the schema
with its two metadata maps, the partitioner returned by `GetPartitioner()` (`none` is
the null pointer) and whether the stream is open. -/
structure ADIOS1DataAdaptor (σ : Type) where
  Schema : DataObjectCollectionSchema σ
  GetPartitioner : Option Partitioner := none
  StreamOpen : Bool := true

/-- Modelled from the spec: `GetReceiverMeshMetadata(id, metadata)` of the adaptor (its
declaration and body are in files not at hand): it succeeds, with `metadata` set to
the entry, exactly when "a receiver entry already exists" for `id`, here in the
receiver map of the schema. -/
def ADIOS1DataAdaptor.GetReceiverMeshMetadata {σ : Type} (this : ADIOS1DataAdaptor σ)
    (id : Nat) (metadata : Option MeshMetadata) : Int × Option MeshMetadata :=
  this.Schema.GetReceiverMeshMetadata id metadata

/-- `ADIOS1DataAdaptor::GetSenderMeshMetadata`: it asks the schema for the metadata of
object `id` as produced by the sender and returns `-1` when the schema fails. -/
def ADIOS1DataAdaptor.GetSenderMeshMetadata {σ : Type} (this : ADIOS1DataAdaptor σ)
    (id : Nat) (metadata : Option MeshMetadata) : Int × Option MeshMetadata :=
  let r := this.Schema.GetSenderMeshMetadata id metadata
  if r.1 ≠ 0 then (-1, r.2) else (0, r.2)

/-- `ADIOS1DataAdaptor::CloseStream`. -/
def ADIOS1DataAdaptor.CloseStream {σ : Type} (this : ADIOS1DataAdaptor σ) :
    ADIOS1DataAdaptor σ :=
  { this with StreamOpen := false }

/-- `ADIOS1DataAdaptor::GetMeshMetadata(id, metadata)`: return code, `metadata`, the
adaptor afterwards and what was done, in order.  `BlockPartitioner` is the partitioner
that `new BlockPartitioner()` makes. -/
def ADIOS1DataAdaptor.GetMeshMetadata {σ : Type} (this : ADIOS1DataAdaptor σ)
    (BlockPartitioner : Partitioner) (id : Nat) (metadata : Option MeshMetadata) :
    Int × Option MeshMetadata × ADIOS1DataAdaptor σ × List AdaptorEvent :=
  -- check if some uber analysis told us how the data should land
  let r := this.GetReceiverMeshMetadata id metadata
  if r.1 ≠ 0 then
    -- none set, we'll use the partitioner to figure it out
    let s := this.GetSenderMeshMetadata id none
    if s.1 ≠ 0 then (-1, r.2, this, [AdaptorEvent.GetSenderMeshMetadata id])
    else
      let senderMd := s.2
      -- get the partitioner, default to the block based layout
      let g := match this.GetPartitioner with
        | some part => (part senderMd, false)
        | none => (BlockPartitioner senderMd, true)
      let recverMd := g.1.2
      if g.1.1 ≠ 0 then
        (0, recverMd, this.CloseStream,
          [AdaptorEvent.GetSenderMeshMetadata id, AdaptorEvent.GetPartition g.2 senderMd,
           AdaptorEvent.CloseStream])
      else
        (0, recverMd, this,
          [AdaptorEvent.GetSenderMeshMetadata id, AdaptorEvent.GetPartition g.2 senderMd])
  else (0, r.2, this, [])

/-! ## Reading objects and arrays through the collection codec -/

/-- `pat` is found at position 0 of `s` (`s.find(pat) == 0`). -/
def foundAtStart : List Char → List Char → Bool
  | [], _ => true
  | _ :: _, [] => false
  | p :: ps, c :: cs => p == c && foundAtStart ps cs

/-- `pat` is found somewhere in `s` (`s.rfind(pat) != std::string::npos`). -/
def foundIn (pat : List Char) : List Char → Bool
  | [] => foundAtStart pat []
  | c :: cs => foundAtStart pat (c :: cs) || foundIn pat cs

/-- `vtkIntArray::New()`. -/
def vtkIntArray.New : vtkDataArray := { DataType := VTK_INT }

/-- `vtkDataArray::FillComponent(c, v)`: component `c` of every tuple becomes `v`. -/
def vtkDataArray.FillComponent (a : vtkDataArray) (c : Nat) (v : Int) : vtkDataArray :=
  { a with Values := (List.range a.Values.length).map (fun k =>
      if k % a.NumberOfComponents = c then v else a.Values.getD k 0) }

/-- `DataObjectCollectionSchema::ReadObject`: return code, the codec, the mesh handed
back in `dobj` (`none` is the null pointer) and the reads scheduled on the transport.
`readMesh` is `DataObjectSchema::ReadMesh` on the stream at hand, from the state of the
mesh-object codec, the object id, the receiver metadata and `structure_only` to the
return code, the state, the composite object it leaves in `cd` and its reads. -/
def DataObjectCollectionSchema.ReadObject {σ : Type} (this : DataObjectCollectionSchema σ)
    (readMesh : σ → Nat → MeshMetadata → Bool →
      Int × σ × Option vtkCompositeDataSet × List (Option ADIOS_SELECTION × String))
    (object_name : String) (structure_only : Bool) :
    Int × DataObjectCollectionSchema σ × Option vtkCompositeDataSet ×
      List (Option ADIOS_SELECTION × String) :=
  let dobj : Option vtkCompositeDataSet := none
  let q := this.GetObjectId object_name
  if q.1 ≠ 0 then (-1, this, dobj, [])
  else
    let doid := q.2
    match this.ReceiverMdMap.GetMeshMetadata doid with
    | none => (-1, this, dobj, [])
    | some md =>
      let r := readMesh this.DataObject doid md structure_only
      if r.1 ≠ 0 then (-1, { this with DataObject := r.2.1 }, dobj, r.2.2.2)
      else
        let cd := r.2.2.1
        (0, { this with DataObject := r.2.1 }, cd, r.2.2.2)

/-- The loop over the blocks in `DataObjectCollectionSchema::AddBlockOwnerArray`;
arguments: iterations still to run, `j`, the position `it` of the composite iterator
and the composite object. -/
def DataObjectCollectionSchema.AddBlockOwnerArray.loop (name : String) (array_cen : Int)
    (md : MeshMetadata) : Nat → Nat → Nat → vtkCompositeDataSet → vtkCompositeDataSet
  | 0, _, _, dobj => dobj
  | n + 1, j, it, dobj =>
    let num_elem_local := u64 (if array_cen = vtkDataObject.POINT
      then md.BlockNumPoints.getD j 0 else md.BlockNumCells.getD j 0)
    let dobj1 : vtkCompositeDataSet :=
      match GetCurrentDataObject dobj it with
      | some ds =>
        let bo := ((vtkIntArray.New.SetNumberOfTuples num_elem_local).SetName
          name).FillComponent 0 (md.BlockOwner.getD j 0)
        let ds1 : vtkDataSet :=
          if array_cen = vtkDataObject.POINT
          then { ds with PointData := AddArray ds.PointData bo }
          else { ds with CellData := AddArray ds.CellData bo }
        dobj.set it (some ds1)
      | none => dobj
    DataObjectCollectionSchema.AddBlockOwnerArray.loop name array_cen md n (j + 1) (it + 1)
      dobj1

/-- `DataObjectCollectionSchema::AddBlockOwnerArray`: return code and the composite
object. -/
def DataObjectCollectionSchema.AddBlockOwnerArray (name : String) (centering : Int)
    (md : MeshMetadata) (dobj : vtkCompositeDataSet) : Int × vtkCompositeDataSet :=
  let num_blocks := u32 md.NumBlocks
  let array_cen := centering
  (0, DataObjectCollectionSchema.AddBlockOwnerArray.loop name array_cen md num_blocks 0 0
    dobj)

/-- `DataObjectSchema::ReadArray`: return code, the composite object and the bounded
reads issued. -/
def DataObjectSchema.ReadArray (rank : Int) (fh : ADIOS_FILE) (doid : Nat) (name : String)
    (association : Int) (md : MeshMetadata) (dobj : vtkCompositeDataSet) :
    Int × vtkCompositeDataSet × List BlockRead :=
  let ons := "data_object_" ++ toString doid ++ "/"
  let r := ArraySchema.Read rank fh ons name association md dobj
  if r.1 ≠ 0 then (-1, r.2.1, r.2.2.1) else (0, r.2.1, r.2.2.1)

/-- `DataObjectCollectionSchema::ReadArray`: return code, the object `dobj` afterwards
and the bounded reads issued on the transport.  `dobj` is `none` when the object
handed in is not a composite data set. -/
def DataObjectCollectionSchema.ReadArray {σ : Type} (this : DataObjectCollectionSchema σ)
    (rank : Int) (iStream : InputStream) (object_name : String) (association : Int)
    (array_name : String) (dobj : Option vtkCompositeDataSet) :
    Int × Option vtkCompositeDataSet × List BlockRead :=
  -- convert the mesh name into its id
  let q := this.GetObjectId object_name
  if q.1 ≠ 0 then (-1, dobj, [])
  else
    let doid := q.2
    match dobj with
    | none => (-1, dobj, [])
    | some cds =>
      -- get the receiver metadata
      match this.ReceiverMdMap.GetMeshMetadata doid with
      | none => (-1, dobj, [])
      | some md =>
        -- handle a special case to let us visualize block owner for debugging
        if foundIn "BlockOwner".data array_name.data then
          let omd : Option MeshMetadata :=
            if foundAtStart "Sender".data array_name.data
            then this.SenderMdMap.GetMeshMetadata doid
            else some md
          match omd with
          | none => (-1, dobj, [])
          | some omd =>
            let r := DataObjectCollectionSchema.AddBlockOwnerArray array_name association
              omd cds
            if r.1 ≠ 0 then (-1, some r.2, []) else (0, some r.2, [])
        else
          -- read the array from the stream
          let r := DataObjectSchema.ReadArray rank iStream.File doid array_name association
            md cds
          if r.1 ≠ 0 then (-1, some r.2.1, r.2.2) else (0, some r.2.1, r.2.2)

/-! ## InputStream: opening and closing -/

/-- The calls of the ADIOS2 library that `InputStream::Open` makes, each returning a
handle (`none` is the null pointer): `adios2_init(comm, 1)`,
`adios2_declare_io(adios, name)` and `adios2_open(io, fileName, adios2_mode_read)`. -/
structure Adios2Library where
  adios2_init : Option Nat
  adios2_declare_io : Option Nat → String → Option Nat
  adios2_open : Option Nat → String → Option Nat

/-- `InputStream::Close`; the return code is always 0.  `adios2_close` and
`adios2_finalize` release what the handles point to and leave the members alone. -/
def InputStream.Close (this : InputStream) : InputStream :=
  if this.Handles.engine ≠ none then
    { this with Handles := { this.Handles with engine := none, io := none },
                ReadEngine := "" }
  else this

/-- `InputStream::Open(comm, engine, fileName)`: return code and the stream. -/
def InputStream.Open (lib : Adios2Library) (this : InputStream) (engine : String)
    (fileName : String) : Int × InputStream :=
  let this := { this with ReadEngine := engine }
  let this := { this with FileName := fileName }
  let this := this.Close
  -- initialize adios2
  let this := { this with Adios := lib.adios2_init }
  -- Open the io handle
  let this := { this with
    Handles := { this.Handles with io := lib.adios2_declare_io this.Adios "SENSEI" } }
  -- open the file
  let this := { this with
    Handles := { this.Handles with engine := lib.adios2_open this.Handles.io this.FileName } }
  if this.Handles.engine = none then (-1, this)
  else (0, this)

/-! ## The geometry codecs and their kind guards -/

/-- Modelled from the spec: the predicates of `sensei::VTKUtils` that tell the "geometry
kind tag" of a mesh from its metadata (VTKUtils.h is not part of the sources at hand).
The codecs are stated for arbitrary predicates. -/
structure VTKUtils where
  Unstructured : MeshMetadata → Bool
  Structured : MeshMetadata → Bool
  Polydata : MeshMetadata → Bool
  LogicallyCartesian : MeshMetadata → Bool
  UniformCartesian : MeshMetadata → Bool
  StretchedCartesian : MeshMetadata → Bool

/-- A handle map `std::map<std::string, std::vector<adios2_variable>>`. -/
abbrev HandleMap := List (String × List (Option adios2_variable))

/-- Everything an operation of a geometry codec can act upon: the codec itself (its
handle maps), the transport (the variables declared with `adios2_define_variable`, the
deferred puts, the reads scheduled) and the composite object. -/
structure CodecState (C : Type) where
  codec : C
  defined : List adios2_variable := []
  puts : List (Option adios2_variable × vtkDataArray) := []
  reads : List (Option ADIOS_SELECTION × String) := []
  dobj : vtkCompositeDataSet := []

/-- The block guarded by the kind test of a codec operation, as an operation on the
state: it returns `-1` where the block leaves with `return -1`, and `0` where control
reaches the end of the block and falls through to the final `return 0`. -/
abbrev GuardedBlock (C : Type) := CodecState C → Int × CodecState C

/-- The data members of `PointSchema`. -/
structure PointSchema where
  PutVars : HandleMap := []

/-- `PointSchema::DefineVariables(comm, handles, ons, md)`: the whole body is
a block guarded by `sensei::VTKUtils::Unstructured(md) ||
sensei::VTKUtils::Structured(md) || sensei::VTKUtils::Polydata(md)`, then `return 0`. -/
def PointSchema.DefineVariables (u : VTKUtils)
    (body : String → MeshMetadata → GuardedBlock PointSchema) (ons : String)
    (md : MeshMetadata) (st : CodecState PointSchema) : Int × CodecState PointSchema :=
  if u.Unstructured md || u.Structured md || u.Polydata md then body ons md st
  else (0, st)

/-- `PointSchema::Write(comm, handles, md, dobj)`, with the same guard around the whole
body. -/
def PointSchema.Write (u : VTKUtils)
    (body : MeshMetadata → GuardedBlock PointSchema) (md : MeshMetadata)
    (st : CodecState PointSchema) : Int × CodecState PointSchema :=
  if u.Unstructured md || u.Structured md || u.Polydata md then body md st
  else (0, st)

/-- `PointSchema::Read(comm, fh, ons, md, dobj)`, with the same guard around the whole
body. -/
def PointSchema.Read (u : VTKUtils)
    (body : String → MeshMetadata → GuardedBlock PointSchema) (ons : String)
    (md : MeshMetadata) (st : CodecState PointSchema) : Int × CodecState PointSchema :=
  if u.Unstructured md || u.Structured md || u.Polydata md then body ons md st
  else (0, st)

/-- The data members of `UnstructuredCellSchema`. -/
structure UnstructuredCellSchema where
  TypeWriteVars : HandleMap := []
  ArrayWriteVars : HandleMap := []

/-- `UnstructuredCellSchema::DefineVariables(comm, handles, ons, md)`: the whole body is
a block guarded by `sensei::VTKUtils::Unstructured(md)`, then `return 0`. -/
def UnstructuredCellSchema.DefineVariables (u : VTKUtils)
    (body : String → MeshMetadata → GuardedBlock UnstructuredCellSchema) (ons : String)
    (md : MeshMetadata) (st : CodecState UnstructuredCellSchema) : Int × CodecState UnstructuredCellSchema :=
  if u.Unstructured md then body ons md st
  else (0, st)

/-- `UnstructuredCellSchema::Write(comm, handles, md, dobj)`, with the same guard around the whole
body. -/
def UnstructuredCellSchema.Write (u : VTKUtils)
    (body : MeshMetadata → GuardedBlock UnstructuredCellSchema) (md : MeshMetadata)
    (st : CodecState UnstructuredCellSchema) : Int × CodecState UnstructuredCellSchema :=
  if u.Unstructured md then body md st
  else (0, st)

/-- `UnstructuredCellSchema::Read(comm, fh, ons, md, dobj)`, with the same guard around the whole
body. -/
def UnstructuredCellSchema.Read (u : VTKUtils)
    (body : String → MeshMetadata → GuardedBlock UnstructuredCellSchema) (ons : String)
    (md : MeshMetadata) (st : CodecState UnstructuredCellSchema) : Int × CodecState UnstructuredCellSchema :=
  if u.Unstructured md then body ons md st
  else (0, st)

/-- The data members of `PolydataCellSchema`. -/
structure PolydataCellSchema where
  TypeWriteVars : HandleMap := []
  ArrayWriteVars : HandleMap := []

/-- `PolydataCellSchema::DefineVariables(comm, handles, ons, md)`: the whole body is
a block guarded by `sensei::VTKUtils::Polydata(md)`, then `return 0`. -/
def PolydataCellSchema.DefineVariables (u : VTKUtils)
    (body : String → MeshMetadata → GuardedBlock PolydataCellSchema) (ons : String)
    (md : MeshMetadata) (st : CodecState PolydataCellSchema) : Int × CodecState PolydataCellSchema :=
  if u.Polydata md then body ons md st
  else (0, st)

/-- `PolydataCellSchema::Write(comm, handles, md, dobj)`, with the same guard around the whole
body. -/
def PolydataCellSchema.Write (u : VTKUtils)
    (body : MeshMetadata → GuardedBlock PolydataCellSchema) (md : MeshMetadata)
    (st : CodecState PolydataCellSchema) : Int × CodecState PolydataCellSchema :=
  if u.Polydata md then body md st
  else (0, st)

/-- `PolydataCellSchema::Read(comm, fh, ons, md, dobj)`, with the same guard around the whole
body. -/
def PolydataCellSchema.Read (u : VTKUtils)
    (body : String → MeshMetadata → GuardedBlock PolydataCellSchema) (ons : String)
    (md : MeshMetadata) (st : CodecState PolydataCellSchema) : Int × CodecState PolydataCellSchema :=
  if u.Polydata md then body ons md st
  else (0, st)

/-- The data members of `LogicallyCartesianSchema`. -/
structure LogicallyCartesianSchema where
  WriteVars : HandleMap := []

/-- `LogicallyCartesianSchema::DefineVariables(comm, handles, ons, md)`: the whole body is
a block guarded by `sensei::VTKUtils::LogicallyCartesian(md)`, then `return 0`. -/
def LogicallyCartesianSchema.DefineVariables (u : VTKUtils)
    (body : String → MeshMetadata → GuardedBlock LogicallyCartesianSchema) (ons : String)
    (md : MeshMetadata) (st : CodecState LogicallyCartesianSchema) : Int × CodecState LogicallyCartesianSchema :=
  if u.LogicallyCartesian md then body ons md st
  else (0, st)

/-- `LogicallyCartesianSchema::Write(comm, handles, md, dobj)`, with the same guard around the whole
body. -/
def LogicallyCartesianSchema.Write (u : VTKUtils)
    (body : MeshMetadata → GuardedBlock LogicallyCartesianSchema) (md : MeshMetadata)
    (st : CodecState LogicallyCartesianSchema) : Int × CodecState LogicallyCartesianSchema :=
  if u.LogicallyCartesian md then body md st
  else (0, st)

/-- `LogicallyCartesianSchema::Read(comm, fh, ons, md, dobj)`, with the same guard around the whole
body. -/
def LogicallyCartesianSchema.Read (u : VTKUtils)
    (body : String → MeshMetadata → GuardedBlock LogicallyCartesianSchema) (ons : String)
    (md : MeshMetadata) (st : CodecState LogicallyCartesianSchema) : Int × CodecState LogicallyCartesianSchema :=
  if u.LogicallyCartesian md then body ons md st
  else (0, st)

/-- The data members of `UniformCartesianSchema`. -/
structure UniformCartesianSchema where
  OriginWriteVars : HandleMap := []
  SpacingWriteVars : HandleMap := []

/-- `UniformCartesianSchema::DefineVariables(comm, handles, ons, md)`: the whole body is
a block guarded by `sensei::VTKUtils::UniformCartesian(md)`, then `return 0`. -/
def UniformCartesianSchema.DefineVariables (u : VTKUtils)
    (body : String → MeshMetadata → GuardedBlock UniformCartesianSchema) (ons : String)
    (md : MeshMetadata) (st : CodecState UniformCartesianSchema) : Int × CodecState UniformCartesianSchema :=
  if u.UniformCartesian md then body ons md st
  else (0, st)

/-- `UniformCartesianSchema::Write(comm, handles, md, dobj)`, with the same guard around the whole
body. -/
def UniformCartesianSchema.Write (u : VTKUtils)
    (body : MeshMetadata → GuardedBlock UniformCartesianSchema) (md : MeshMetadata)
    (st : CodecState UniformCartesianSchema) : Int × CodecState UniformCartesianSchema :=
  if u.UniformCartesian md then body md st
  else (0, st)

/-- `UniformCartesianSchema::Read(comm, fh, ons, md, dobj)`, with the same guard around the whole
body. -/
def UniformCartesianSchema.Read (u : VTKUtils)
    (body : String → MeshMetadata → GuardedBlock UniformCartesianSchema) (ons : String)
    (md : MeshMetadata) (st : CodecState UniformCartesianSchema) : Int × CodecState UniformCartesianSchema :=
  if u.UniformCartesian md then body ons md st
  else (0, st)

/-- The data members of `StretchedCartesianSchema`. -/
structure StretchedCartesianSchema where
  XCoordWriteVars : HandleMap := []
  YCoordWriteVars : HandleMap := []
  ZCoordWriteVars : HandleMap := []

/-- `StretchedCartesianSchema::DefineVariables(comm, handles, ons, md)`: the whole body is
a block guarded by `sensei::VTKUtils::StretchedCartesian(md)`, then `return 0`. -/
def StretchedCartesianSchema.DefineVariables (u : VTKUtils)
    (body : String → MeshMetadata → GuardedBlock StretchedCartesianSchema) (ons : String)
    (md : MeshMetadata) (st : CodecState StretchedCartesianSchema) : Int × CodecState StretchedCartesianSchema :=
  if u.StretchedCartesian md then body ons md st
  else (0, st)

/-- `StretchedCartesianSchema::Write(comm, handles, md, dobj)`, with the same guard around the whole
body. -/
def StretchedCartesianSchema.Write (u : VTKUtils)
    (body : MeshMetadata → GuardedBlock StretchedCartesianSchema) (md : MeshMetadata)
    (st : CodecState StretchedCartesianSchema) : Int × CodecState StretchedCartesianSchema :=
  if u.StretchedCartesian md then body md st
  else (0, st)

/-- `StretchedCartesianSchema::Read(comm, fh, ons, md, dobj)`, with the same guard around the whole
body. -/
def StretchedCartesianSchema.Read (u : VTKUtils)
    (body : String → MeshMetadata → GuardedBlock StretchedCartesianSchema) (ons : String)
    (md : MeshMetadata) (st : CodecState StretchedCartesianSchema) : Int × CodecState StretchedCartesianSchema :=
  if u.StretchedCartesian md then body ons md st
  else (0, st)

/-! ## StretchedCartesianSchema: the guarded blocks of DefineVariables and Read -/

/-- Reading `map[name]` of a handle map; a missing entry is an empty table. -/
def getHandles (m : HandleMap) (name : String) : List (Option adios2_variable) :=
  (m.lookup name).getD []

/-- Storing back the table referenced by `map[name]`. -/
def setHandles (m : HandleMap) (name : String) (v : List (Option adios2_variable)) :
    HandleMap :=
  (name, v) :: m.filter (fun e => !(e.1 == name))

/-- The length of block `j` between the entries `lo` and `hi` of its extent, as the
code computes it: `ext[hi] - ext[lo] + 2` in `int`, converted to `unsigned long long`
(overflow of the `int` expression is not modelled). -/
def blockLength (md : MeshMetadata) (lo hi j : Nat) : Nat :=
  toSize ((md.BlockExtents.getD j []).getD hi 0 - (md.BlockExtents.getD j []).getD lo 0 + 2)

/-- The sum of the lengths of the blocks before block `j`, in `unsigned long long`. -/
def lengthBefore (md : MeshMetadata) (lo hi j : Nat) : Nat :=
  u64 (((List.range j).map (blockLength md lo hi)).sum)

/-- The loop "calc global size" of `StretchedCartesianSchema::DefineVariables`:
`nx_total`, `ny_total` and `nz_total`. -/
def StretchedCartesianSchema.DefineVariables.totals (md : MeshMetadata) :
    Nat → Nat → Nat × Nat × Nat → Nat × Nat × Nat
  | 0, _, t => t
  | n + 1, j, t =>
    let ext := md.BlockExtents.getD j []
    StretchedCartesianSchema.DefineVariables.totals md n (j + 1)
      (u64 (t.1 + toSize (ext.getD 1 0 - ext.getD 0 0 + 2)),
       u64 (t.2.1 + toSize (ext.getD 3 0 - ext.getD 2 0 + 2)),
       u64 (t.2.2 + toSize (ext.getD 5 0 - ext.getD 4 0 + 2)))

/-- The variables of the block loop of `StretchedCartesianSchema::DefineVariables`. -/
structure StretchedCartesianSchema.DefineState where
  x_block_offset : Nat := 0
  y_block_offset : Nat := 0
  z_block_offset : Nat := 0
  xCoordWriteVars : List (Option adios2_variable)
  yCoordWriteVars : List (Option adios2_variable)
  zCoordWriteVars : List (Option adios2_variable)
  defined : List BlockVar := []
deriving Repr, DecidableEq

/-- The loop "define the variable once for each block" of
`StretchedCartesianSchema::DefineVariables`; arguments: iterations still to run, `j`
and the loop state.  The three variables declared for an owned block are recorded in
the order x, y, z with the position `j` at which their handles are stored. -/
def StretchedCartesianSchema.DefineVariables.loop (rank : Int) (ons : String)
    (md : MeshMetadata) (point_type : adios2_type) (x_gdims y_gdims z_gdims : Nat) :
    Nat → Nat → StretchedCartesianSchema.DefineState → StretchedCartesianSchema.DefineState
  | 0, _, st => st
  | n + 1, j, st =>
    -- get the block size
    let ext := md.BlockExtents.getD j []
    let nx_local := toSize (ext.getD 1 0 - ext.getD 0 0 + 2)
    let ny_local := toSize (ext.getD 3 0 - ext.getD 2 0 + 2)
    let nz_local := toSize (ext.getD 5 0 - ext.getD 4 0 + 2)
    -- define the variable for a local block
    let st1 : StretchedCartesianSchema.DefineState :=
      if md.BlockOwner[j]? = some rank then
        let xc_write_var : adios2_variable :=
          { path := ons ++ "x_coords", type := point_type, local_extent := nx_local,
            global_extent := x_gdims, offset := st.x_block_offset }
        let yc_write_var : adios2_variable :=
          { path := ons ++ "y_coords", type := point_type, local_extent := ny_local,
            global_extent := y_gdims, offset := st.y_block_offset }
        let zc_write_var : adios2_variable :=
          { path := ons ++ "z_coords", type := point_type, local_extent := nz_local,
            global_extent := z_gdims, offset := st.z_block_offset }
        { st with
          xCoordWriteVars := st.xCoordWriteVars.set j (some xc_write_var),
          yCoordWriteVars := st.yCoordWriteVars.set j (some yc_write_var),
          zCoordWriteVars := st.zCoordWriteVars.set j (some zc_write_var),
          defined := st.defined ++
            [⟨j, j, xc_write_var⟩, ⟨j, j, yc_write_var⟩, ⟨j, j, zc_write_var⟩] }
      else st
    -- update the block offset
    StretchedCartesianSchema.DefineVariables.loop rank ons md point_type x_gdims y_gdims
      z_gdims n (j + 1)
      { st1 with x_block_offset := u64 (st1.x_block_offset + nx_local),
                 y_block_offset := u64 (st1.y_block_offset + ny_local),
                 z_block_offset := u64 (st1.z_block_offset + nz_local) }

/-- The block guarded by the kind test in `StretchedCartesianSchema::DefineVariables`:
the codec with its handle maps updated and the variables declared, in order. -/
def StretchedCartesianSchema.DefineVariables.block (rank : Int) (ons : String)
    (md : MeshMetadata) (this : StretchedCartesianSchema) :
    StretchedCartesianSchema × List BlockVar :=
  let num_blocks := u32 md.NumBlocks
  -- allocate write ids
  let xCoordWriteVars := resize (getHandles this.XCoordWriteVars md.MeshName) num_blocks
  let yCoordWriteVars := resize (getHandles this.YCoordWriteVars md.MeshName) num_blocks
  let zCoordWriteVars := resize (getHandles this.ZCoordWriteVars md.MeshName) num_blocks
  -- calc global size
  let t := StretchedCartesianSchema.DefineVariables.totals md num_blocks 0 (0, 0, 0)
  -- data type for points
  let point_type := adiosType md.CoordinateType
  -- global sizes
  let x_gdims := t.1
  let y_gdims := t.2.1
  let z_gdims := t.2.2
  let st := StretchedCartesianSchema.DefineVariables.loop rank ons md point_type x_gdims
    y_gdims z_gdims num_blocks 0
    { xCoordWriteVars := xCoordWriteVars, yCoordWriteVars := yCoordWriteVars,
      zCoordWriteVars := zCoordWriteVars }
  ({ XCoordWriteVars := setHandles this.XCoordWriteVars md.MeshName st.xCoordWriteVars,
     YCoordWriteVars := setHandles this.YCoordWriteVars md.MeshName st.yCoordWriteVars,
     ZCoordWriteVars := setHandles this.ZCoordWriteVars md.MeshName st.zCoordWriteVars },
   st.defined)

/-- The variables of the block loop of `StretchedCartesianSchema::Read`. -/
structure StretchedCartesianSchema.ReadState where
  xc_offset : Nat := 0
  yc_offset : Nat := 0
  zc_offset : Nat := 0
  it : Nat := 0
  dobj : vtkCompositeDataSet
  reads : List BlockRead := []
deriving Repr, DecidableEq

/-- The body of the block loop of `StretchedCartesianSchema::Read` for block `j`: code
`-1` where the body returns `-1`, code `0` where it reaches the end of the iteration.
The three reads are scheduled in the order x, y, z and performed together;
`adios_perform_reads` reports an error when one of them cannot be delivered. -/
def StretchedCartesianSchema.Read.body (rank : Int) (fh : ADIOS_FILE) (ons : String)
    (md : MeshMetadata) (j : Nat) (st : StretchedCartesianSchema.ReadState) :
    Int × StretchedCartesianSchema.ReadState :=
  -- get the block size
  let ext := md.BlockExtents.getD j []
  let nx_local := toSize (ext.getD 1 0 - ext.getD 0 0 + 2)
  let ny_local := toSize (ext.getD 3 0 - ext.getD 2 0 + 2)
  let nz_local := toSize (ext.getD 5 0 - ext.getD 4 0 + 2)
  if md.BlockOwner[j]? = some rank then
    let x_start := st.xc_offset
    let x_count := nx_local
    let x_coords := (((vtkDataArray.CreateDataArray md.CoordinateType).SetNumberOfComponents
      1).SetNumberOfTuples nx_local).SetName "x_coords"
    let xc_path := ons ++ "x_coords"
    let y_start := st.yc_offset
    let y_count := ny_local
    let y_coords := (((vtkDataArray.CreateDataArray md.CoordinateType).SetNumberOfComponents
      1).SetNumberOfTuples ny_local).SetName "y_coords"
    let yc_path := ons ++ "y_coords"
    let z_start := st.zc_offset
    let z_count := nz_local
    let z_coords := (((vtkDataArray.CreateDataArray md.CoordinateType).SetNumberOfComponents
      1).SetNumberOfTuples nz_local).SetName "z_coords"
    let zc_path := ons ++ "z_coords"
    let st1 := { st with reads := st.reads ++
      [⟨j, xc_path, x_start, x_count, x_coords⟩, ⟨j, yc_path, y_start, y_count, y_coords⟩,
       ⟨j, zc_path, z_start, z_count, z_coords⟩] }
    match fh.read (some (ADIOS_SELECTION.boundingbox x_start x_count)) xc_path,
          fh.read (some (ADIOS_SELECTION.boundingbox y_start y_count)) yc_path,
          fh.read (some (ADIOS_SELECTION.boundingbox z_start z_count)) zc_path with
    | some xv, some yv, some zv =>
      -- update the vtk object
      match (GetCurrentDataObject st.dobj st.it).filter
          (fun ds => ds.DataObjectType == VTK_RECTILINEAR_GRID) with
      | none => (-1, st1)
      | some ds =>
        let ds1 : vtkDataSet :=
          { ds with XCoordinates := some (x_coords.Deliver xv),
                    YCoordinates := some (y_coords.Deliver yv),
                    ZCoordinates := some (z_coords.Deliver zv) }
        (0, { st1 with dobj := st.dobj.set st.it (some ds1),
                       it := st.it + 1,
                       xc_offset := u64 (st.xc_offset + nx_local),
                       yc_offset := u64 (st.yc_offset + ny_local),
                       zc_offset := u64 (st.zc_offset + nz_local) })
    | _, _, _ => (-1, st1)
  else
    (0, { st with it := st.it + 1,
                  xc_offset := u64 (st.xc_offset + nx_local),
                  yc_offset := u64 (st.yc_offset + ny_local),
                  zc_offset := u64 (st.zc_offset + nz_local) })

/-- The block loop of `StretchedCartesianSchema::Read`; arguments: iterations still to
run, `j`, the loop state. -/
def StretchedCartesianSchema.Read.loop (rank : Int) (fh : ADIOS_FILE) (ons : String)
    (md : MeshMetadata) :
    Nat → Nat → StretchedCartesianSchema.ReadState → Int × StretchedCartesianSchema.ReadState
  | 0, _, st => (0, st)
  | n + 1, j, st =>
    let r := StretchedCartesianSchema.Read.body rank fh ons md j st
    if r.1 ≠ 0 then (-1, r.2)
    else StretchedCartesianSchema.Read.loop rank fh ons md n (j + 1) r.2

/-- The block guarded by the kind test in `StretchedCartesianSchema::Read`: return
code, the composite object and the bounded reads scheduled, in order. -/
def StretchedCartesianSchema.Read.block (rank : Int) (fh : ADIOS_FILE) (ons : String)
    (md : MeshMetadata) (dobj : vtkCompositeDataSet) :
    Int × vtkCompositeDataSet × List BlockRead :=
  let num_blocks := u32 md.NumBlocks
  let r := StretchedCartesianSchema.Read.loop rank fh ons md num_blocks 0 { dobj := dobj }
  (r.1, r.2.dobj, r.2.reads)

/-! ## DataObjectSchema: the composite operations on one mesh -/

/-- The members of `DataObjectSchema` whose operations the composite operations invoke,
and the member function `InitializeDataObject` that `ReadMesh` calls first. -/
inductive SubCodec
  | InitializeDataObject
  | DataArrays
  | Points
  | UnstructuredCells
  | PolydataCells
  | UniformCartesian
  | StretchedCartesian
  | LogicallyCartesian
deriving Repr, DecidableEq

/-- One operand `this->X.Op(...)` of a condition.  `op c` is the operation invoked on
member `c`, acting on the state `σ` that the sub-codecs share (their handle maps, the
transport, the composite object) and returning its code.  The invocation is recorded
with its return code; the truth value of the operand is "returned non-zero". -/
def invoke {σ : Type} (op : SubCodec → σ → Int × σ) (c : SubCodec)
    (st : σ × List (SubCodec × Int)) : Bool × (σ × List (SubCodec × Int)) :=
  let r := op c st.1
  (decide (r.1 ≠ 0), (r.2, st.2 ++ [(c, r.1)]))

/-- The C++ operator `a || b` on operands with effects: `b` is evaluated only when `a`
is false. -/
def logicalOr {S : Type} (a b : S → Bool × S) (s : S) : Bool × S :=
  let r := a s
  if r.1 then r else b r.2

/-- The C++ operator `c && b` for a flag `c` without effects: `b` is evaluated only when
`c` is true. -/
def logicalAnd {S : Type} (c : Bool) (b : S → Bool × S) (s : S) : Bool × S :=
  if c then b s else (false, s)

/-- `DataObjectSchema::DefineVariables`: return code, the state of the sub-codecs and
the invocations made, with `op c` the `DefineVariables(comm, handles, ons.str(), md)` of
member `c`. -/
def DataObjectSchema.DefineVariables {σ : Type} (op : SubCodec → σ → Int × σ) (s : σ) :
    Int × σ × List (SubCodec × Int) :=
  let r := (logicalOr (logicalOr (logicalOr (logicalOr (logicalOr (logicalOr
    (invoke op SubCodec.DataArrays)
    (invoke op SubCodec.Points))
    (invoke op SubCodec.UnstructuredCells))
    (invoke op SubCodec.PolydataCells))
    (invoke op SubCodec.UniformCartesian))
    (invoke op SubCodec.StretchedCartesian))
    (invoke op SubCodec.LogicallyCartesian)) (s, [])
  if r.1 then (-1, r.2.1, r.2.2) else (0, r.2.1, r.2.2)

/-- `DataObjectSchema::Write`: return code, the state of the sub-codecs and the
invocations made, with `op c` the `Write(comm, handles, md, dobj)` of member `c`. -/
def DataObjectSchema.Write {σ : Type} (op : SubCodec → σ → Int × σ) (s : σ) :
    Int × σ × List (SubCodec × Int) :=
  let r := (logicalOr (logicalOr (logicalOr (logicalOr (logicalOr (logicalOr
    (invoke op SubCodec.DataArrays)
    (invoke op SubCodec.Points))
    (invoke op SubCodec.UnstructuredCells))
    (invoke op SubCodec.PolydataCells))
    (invoke op SubCodec.UniformCartesian))
    (invoke op SubCodec.StretchedCartesian))
    (invoke op SubCodec.LogicallyCartesian)) (s, [])
  if r.1 then (-1, r.2.1, r.2.2) else (0, r.2.1, r.2.2)

/-- `DataObjectSchema::ReadMesh`: return code, the state of the sub-codecs and the
invocations made, with `op SubCodec.InitializeDataObject` the call
`this->InitializeDataObject(comm, md, dobj)` and `op c` the
`Read(comm, handles, ons.str(), md, dobj)` of member `c`. -/
def DataObjectSchema.ReadMesh {σ : Type} (op : SubCodec → σ → Int × σ) (s : σ)
    (structure_only : Bool) : Int × σ × List (SubCodec × Int) :=
  -- create the data object
  let r0 := invoke op SubCodec.InitializeDataObject (s, [])
  if r0.1 then (-1, r0.2.1, r0.2.2)
  else
    let r := (logicalOr (logicalOr (logicalOr
      (logicalAnd (!structure_only)
        (logicalOr (logicalOr
          (invoke op SubCodec.Points)
          (invoke op SubCodec.UnstructuredCells))
          (invoke op SubCodec.PolydataCells)))
      (invoke op SubCodec.UniformCartesian))
      (invoke op SubCodec.StretchedCartesian))
      (invoke op SubCodec.LogicallyCartesian)) r0.2
    if r.1 then (-1, r.2.1, r.2.2) else (0, r.2.1, r.2.2)

/-- Invoking the members of a list one after the other and stopping after the first
that returns non-zero: the reading of "a failure aborts the remaining sub-operations"
against which the composite operations are compared. -/
def invokeInOrder {σ : Type} (op : SubCodec → σ → Int × σ) :
    List SubCodec → σ × List (SubCodec × Int) → Bool × (σ × List (SubCodec × Int))
  | [], st => (false, st)
  | c :: cs, st =>
    let r := invoke op c st
    if r.1 then r else invokeInOrder op cs r.2

/-! ## DataObjectSchema::InitializeDataObject -/

/-- `newDataObject(code)` as the codecs see its result through
`dynamic_cast<vtkDataSet*>`: for the codes of the seven data set classes of the factory
a new, empty data set of that class.  The other objects that the factory makes (tables,
composite data) are not a `vtkDataSet`, and for the remaining codes the factory returns
the null pointer: both are `none` here. -/
def newDataObject (code : Int) : Option vtkDataSet :=
  if code = VTK_POLY_DATA ∨ code = VTK_STRUCTURED_POINTS ∨ code = VTK_STRUCTURED_GRID ∨
      code = VTK_RECTILINEAR_GRID ∨ code = VTK_UNSTRUCTURED_GRID ∨ code = VTK_IMAGE_DATA ∨
      code = VTK_UNIFORM_GRID then
    some { DataObjectType := code }
  else none

/-- `vtkMultiBlockDataSet::New()`: no blocks. -/
def vtkMultiBlockDataSet.New : vtkCompositeDataSet := []

/-- `vtkMultiBlockDataSet::SetNumberOfBlocks(n)`: new positions are empty. -/
def vtkMultiBlockDataSet.SetNumberOfBlocks (mbds : vtkCompositeDataSet) (n : Nat) :
    vtkCompositeDataSet :=
  mbds.take n ++ List.replicate (n - mbds.length) none

/-- `vtkMultiBlockDataSet::SetBlock(blockno, block)`: the data set grows when `blockno`
is not yet a position of it. -/
def vtkMultiBlockDataSet.SetBlock (mbds : vtkCompositeDataSet) (blockno : Nat)
    (block : Option vtkDataSet) : vtkCompositeDataSet :=
  (if mbds.length ≤ blockno then vtkMultiBlockDataSet.SetNumberOfBlocks mbds (blockno + 1)
   else mbds).set blockno block

/-- The loop `for (int i = 0; i < md->NumBlocks; ++i)` of
`DataObjectSchema::InitializeDataObject`; arguments: iterations still to run, `i` and
the multi-block data set. -/
def DataObjectSchema.InitializeDataObject.loop (rank : Int) (md : MeshMetadata) :
    Nat → Nat → vtkCompositeDataSet → vtkCompositeDataSet
  | 0, _, mbds => mbds
  | n + 1, i, mbds =>
    let mbds1 :=
      if md.BlockOwner[i]? = some rank then
        let ds := newDataObject md.BlockType
        vtkMultiBlockDataSet.SetBlock mbds (md.BlockIds.getD i 0) ds
      else mbds
    DataObjectSchema.InitializeDataObject.loop rank md n (i + 1) mbds1

/-- `DataObjectSchema::InitializeDataObject(comm, md, dobj)`: return code and `dobj`. -/
def DataObjectSchema.InitializeDataObject (rank : Int) (md : MeshMetadata) :
    Int × Option vtkCompositeDataSet :=
  -- allocate the local dataset
  let mbds := vtkMultiBlockDataSet.SetNumberOfBlocks vtkMultiBlockDataSet.New
    (u32 md.NumBlocks)
  let mbds := DataObjectSchema.InitializeDataObject.loop rank md md.NumBlocks 0 mbds
  (0, some mbds)

/-! ## Connectivity buffers made of count-prefixed runs -/

/-- The connectivity buffer of the in-memory model for a list of cells: for each
cell the number of its point ids, then the ids. -/
def connectivityOf (cells : List (List Int)) : List Int :=
  cells.flatMap (fun c => (c.length : Int) :: c)

/-- The positions at which the runs of `cells` start in a buffer in which the first
run starts at `s`: each run is one entry longer than its cell. -/
def cellStarts : Int → List (List Int) → List Int
  | _, [] => []
  | s, c :: cs => s :: cellStarts (s + c.length + 1) cs

/-- The buffer `conn` holds the runs of `cells`, one after the other, from position
`p` on. -/
def RunsAt (conn : List Int) (p : Int) (cells : List (List Int)) : Prop :=
  ∃ pre post, conn = pre ++ connectivityOf cells ++ post ∧ (pre.length : Int) = p

/-! ## Sample inputs -/

/-- A mesh of two blocks owned by rank 0 with one point array `p` and both ghost
arrays. -/
def sampleGhostMd : MeshMetadata :=
  { MeshName := "mesh", NumBlocks := 2, NumArrays := 1, NumGhostCells := 1,
    NumGhostNodes := 1, ArrayName := ["p"], ArrayCentering := [vtkDataObject.POINT],
    ArrayComponents := [1], ArrayType := [VTK_DOUBLE], BlockNumPoints := [4, 6],
    BlockNumCells := [1, 2], BlockOwner := [0, 0], BlockIds := [0, 1] }

/-- A block that carries the arrays named by `sampleGhostMd`, with `np` points and
`nc` cells. -/
def sampleGhostBlock (np nc : Nat) : vtkDataSet :=
  { PointData := [{ Name := "p", NumberOfTuples := np, Values := List.replicate np 0 },
                  { Name := "vtkGhostType", DataType := VTK_UNSIGNED_CHAR,
                    NumberOfTuples := np, Values := List.replicate np 0 }],
    CellData := [{ Name := "vtkGhostType", DataType := VTK_UNSIGNED_CHAR,
                   NumberOfTuples := nc, Values := List.replicate nc 0 }] }

/-- The composite object on rank 0 for `sampleGhostMd`. -/
def sampleGhostObj : vtkCompositeDataSet :=
  [some (sampleGhostBlock 4 1), some (sampleGhostBlock 6 2)]

/-- A stream on which every inquiry misses and every read delivers nothing. -/
def sampleEmptyFile : ADIOS_FILE := ⟨fun _ => none, fun _ _ => some []⟩

/-- A polydata block with two vertices, no lines, three triangles as polygons and
no strips. -/
def samplePolyData : vtkPolyData :=
  { Verts := ⟨2, [1, 0, 1, 1]⟩,
    Polys := ⟨3, [3, 0, 1, 2, 3, 1, 2, 3, 3, 2, 3, 0]⟩ }

/-- A stream that delivers the six scalars 1..6 to every read. -/
def sampleSixFile : ADIOS_FILE := ⟨fun _ => none, fun _ _ => some [1, 2, 3, 4, 5, 6]⟩

/-- A file based stream that announces two data objects and holds a three byte
metadata blob at every other path. -/
def sampleMetadataStream : InputStream :=
  { File := ⟨fun path => if path = "number_of_data_objects" then some ⟨2, 0⟩
                         else some ⟨0, 3⟩,
             fun _ _ => some [1, 2, 3]⟩,
    ReadMethod := "BPFile" }

/-- A stand-in for `MeshMetadata::FromStream`: a metadata with as many blocks as the
blob has bytes. -/
def sampleFromStream (bs : BinaryStream) : MeshMetadata :=
  { NumBlocks := bs.Data.length }

/-- A collection codec whose maps hold entries from an earlier time step. -/
def sampleUsedCollection : DataObjectCollectionSchema Unit :=
  { DataObject := (),
    SenderMdMap := ⟨[some { MeshName := "a" }, some { MeshName := "b" }, some {}]⟩,
    ReceiverMdMap := ⟨[some { MeshName := "c" }]⟩ }

/-- Write handles on which every `adios2_set_shape` reports an error and every
other operation succeeds. -/
def sampleShapeFailingHandle : AdiosHandle :=
  ⟨fun op => match op with
    | WriteEvent.set_shape _ _ => true
    | _ => false⟩

/-- A stand-in for `MeshMetadata::ToStream`: a blob of three bytes. -/
def sampleToStream (_md : MeshMetadata) : BinaryStream :=
  { Data := [1, 2, 3], WritePos := 3 }

/-- A sender metadata for one mesh `mesh` of two blocks, both on sender rank 3. -/
def sampleSenderMd : MeshMetadata :=
  { MeshName := "mesh", NumBlocks := 2, BlockNumPoints := [4, 6], BlockNumCells := [1, 2],
    BlockOwner := [3, 3], BlockIds := [0, 1] }

/-- A stand-in for the default block partitioner: the blocks of the sender land on
ranks 0 and 1. -/
def sampleBlockPartitioner : Partitioner :=
  fun senderMd => (0, senderMd.map (fun md => { md with BlockOwner := [0, 1] }))

/-- A partitioner that reports failure and leaves no receiver metadata. -/
def sampleFailingPartitioner : Partitioner := fun _ => (-1, none)

/-- An adaptor right after the metadata of a time step was read: one sender entry, the
receiver entry not set, no partitioner configured. -/
def sampleAdaptor : ADIOS1DataAdaptor Unit :=
  { Schema := { DataObject := (), SenderMdMap := ⟨[some sampleSenderMd]⟩,
                ReceiverMdMap := ⟨[none]⟩ } }

/-- A stand-in for `DataObjectSchema::ReadMesh` that succeeds with an empty composite
object of the size the metadata asks for, reading nothing. -/
def sampleReadMesh (s : Unit) (_doid : Nat) (md : MeshMetadata) (_structure_only : Bool) :
    Int × Unit × Option vtkCompositeDataSet × List (Option ADIOS_SELECTION × String) :=
  (0, s, some (List.replicate md.NumBlocks none), [])

/-- A collection codec that knows sender and receiver metadata of the one mesh `mesh`: the
sender ran its two blocks on rank 3, the receiver lands them on ranks 0 and 1. -/
def sampleOwnerCollection : DataObjectCollectionSchema Unit :=
  { DataObject := (), SenderMdMap := ⟨[some sampleSenderMd]⟩,
    ReceiverMdMap := ⟨[some { sampleSenderMd with BlockOwner := [0, 1] }]⟩ }

/-- The composite object of a rank that holds block 1 of `sampleSenderMd` only. -/
def sampleOwnerComposite : vtkCompositeDataSet := [none, some {}]

/-- Sub-codec operations on a counter: every operation counts itself and returns 0,
except the stretched-Cartesian one, which returns -1. -/
def sampleStretchedFails : SubCodec → Nat → Int × Nat :=
  fun c n => (if c = SubCodec.StretchedCartesian then -1 else 0, n + 1)

/-- Sub-codec operations on a counter that count themselves and return 0. -/
def sampleAllSucceed : SubCodec → Nat → Int × Nat := fun _ n => (0, n + 1)

/-- Stand-ins for the predicates of `sensei::VTKUtils` that look at the block type only:
polydata 0, structured grid 2, rectilinear grid 3, unstructured grid 4, image data 6. -/
def sampleVTKUtils : VTKUtils :=
  { Unstructured := fun md => md.BlockType == 4,
    Structured := fun md => md.BlockType == 2,
    Polydata := fun md => md.BlockType == 0,
    LogicallyCartesian := fun md => md.BlockType == 2 || md.BlockType == 3 ||
      md.BlockType == 6,
    UniformCartesian := fun md => md.BlockType == 6,
    StretchedCartesian := fun md => md.BlockType == 3 }

/-- A guarded block that puts one array on a null handle and leaves with `-1`. -/
def samplePuttingBlock (C : Type) : GuardedBlock C :=
  fun st => (-1, { st with puts := st.puts ++ [(none, {})] })

/-- The mesh of `sampleGhostMd` with a node ghost array and no cell ghost array. -/
def sampleNodeGhostMd : MeshMetadata := { sampleGhostMd with NumGhostCells := 0 }

/-- A library on which every call succeeds. -/
def sampleLibrary : Adios2Library :=
  { adios2_init := some 1, adios2_declare_io := fun _ _ => some 2,
    adios2_open := fun _ _ => some 3 }

/-- A stream that was never opened. -/
def sampleClosedStream : InputStream :=
  { File := sampleEmptyFile, ReadMethod := "" }

/-- A stream that is open on `old.bp` with the engine `BPFile`. -/
def sampleOpenStream : InputStream :=
  { File := sampleEmptyFile, ReadMethod := "", ReadEngine := "BPFile", FileName := "old.bp",
    Adios := some 1, Handles := { io := some 2, engine := some 3 } }

/-- A library on which `adios2_open` fails and the other calls succeed. -/
def sampleOpenFailsLibrary : Adios2Library :=
  { adios2_init := some 1, adios2_declare_io := fun _ _ => some 2,
    adios2_open := fun _ _ => none }

/-- A mesh of four image-data blocks with one point each and the point array `p`, in
the order in which two sender ranks list their blocks: rank 0 holds the blocks with
ids 0 and 2, rank 1 those with ids 1 and 3. -/
def sampleInterleavedMd : MeshMetadata :=
  { MeshName := "mesh", NumBlocks := 4, BlockType := VTK_IMAGE_DATA, NumArrays := 1,
    ArrayName := ["p"], ArrayCentering := [vtkDataObject.POINT], ArrayComponents := [1],
    ArrayType := [VTK_DOUBLE], BlockNumPoints := [1, 1, 1, 1], BlockNumCells := [0, 0, 0, 0],
    BlockOwner := [0, 0, 1, 1], BlockIds := [0, 2, 1, 3] }

/-- A stretched-Cartesian mesh of three blocks with the extents `[0,3] x [0,1] x [0,0]`,
`[3,7] x [0,1] x [0,0]` and `[7,8] x [0,1] x [0,0]`; rank 0 owns blocks 0 and 2. -/
def sampleStretchedMd : MeshMetadata :=
  { MeshName := "mesh", NumBlocks := 3, BlockType := VTK_RECTILINEAR_GRID,
    BlockOwner := [0, 1, 0], BlockIds := [0, 1, 2],
    BlockExtents := [[0, 3, 0, 1, 0, 0], [3, 7, 0, 1, 0, 0], [7, 8, 0, 1, 0, 0]] }

/-! # Properties -/

/-- C1: `VersionSchema::Read` succeeds exactly when the `DataObjectSchema` variable is
present with a stored revision of at least `LowestCompatibleRevision`, which is 3; a
missing variable gives `-1`, a present but older revision gives `-2`, the two codes
differ, and a revision equal to `LowestCompatibleRevision` is accepted. -/
theorem C1_VersionSchema_Read_gating (iStream : InputStream) :
    VersionSchema.new.LowestCompatibleRevision = 3 ∧
    (VersionSchema.new.Read iStream = 0 ↔
      ∃ vinfo, iStream.File.inq_var "DataObjectSchema" = some vinfo ∧
        VersionSchema.new.LowestCompatibleRevision ≤ vinfo.value) ∧
    (iStream.File.inq_var "DataObjectSchema" = none →
      VersionSchema.new.Read iStream = -1) ∧
    (∀ vinfo, iStream.File.inq_var "DataObjectSchema" = some vinfo →
      vinfo.value < VersionSchema.new.LowestCompatibleRevision →
      VersionSchema.new.Read iStream = -2) ∧
    ((-1 : Int) ≠ -2) ∧
    (∀ vinfo, iStream.File.inq_var "DataObjectSchema" = some vinfo →
      vinfo.value = VersionSchema.new.LowestCompatibleRevision →
      VersionSchema.new.Read iStream = 0) := by
  refine ⟨rfl, ?_, ?_, ?_, by decide, ?_⟩
  · cases h : iStream.File.inq_var "DataObjectSchema" with
    | none => simp [VersionSchema.Read, adiosInq, h]
    | some v =>
      by_cases hv : v.value < 3
      · simp [VersionSchema.Read, adiosInq, h, VersionSchema.new, hv]
      · simp [VersionSchema.Read, adiosInq, h, VersionSchema.new, hv]
        omega
  · intro h
    simp [VersionSchema.Read, adiosInq, h]
  · intro v h hv
    simp only [VersionSchema.new] at hv
    simp [VersionSchema.Read, adiosInq, h, VersionSchema.new, hv]
  · intro v h hv
    simp only [VersionSchema.new] at hv
    simp [VersionSchema.Read, adiosInq, h, VersionSchema.new, hv]

/-! ## Arithmetic helpers -/

theorem sum_take_succ (l : List Nat) (j : Nat) :
    (l.take (j + 1)).sum = (l.take j).sum + l.getD j 0 := by
  induction l generalizing j with
  | nil => simp
  | cons a t ih =>
    cases j with
    | zero => simp
    | succ j =>
      simp only [List.take_succ_cons, List.sum_cons, List.getD_cons_succ]
      rw [ih j]
      omega

theorem sum_take_le (l : List Nat) (j : Nat) : (l.take j).sum ≤ l.sum := by
  induction l generalizing j with
  | nil => simp
  | cons a t ih =>
    cases j with
    | zero => simp
    | succ j =>
      simp only [List.take_succ_cons, List.sum_cons]
      have := ih j
      omega

theorem u64_offset_step (c S s : Nat) :
    u64 (u64 (c * S) + u64 (s * c)) = u64 (c * (S + s)) := by
  unfold u64
  rw [← Nat.add_mod, Nat.mul_add, Nat.mul_comm s c]

theorem u64_of_lt {n : Nat} (h : n < 2 ^ 64) : u64 n = n := Nat.mod_eq_of_lt h

theorem u32_of_lt {n : Nat} (h : n < 2 ^ 32) : u32 n = n := Nat.mod_eq_of_lt h

theorem sel_getD (cen : Int) (bnp bnc : List Nat) (j : Nat) :
    (if cen = vtkDataObject.POINT then bnp.getD j 0 else bnc.getD j 0) =
      (if cen = vtkDataObject.POINT then bnp else bnc).getD j 0 := by
  split <;> rfl

/-! ## The block loops of the array codec in closed form -/

theorem DefineVariable_loop_closed (rank : Int) (ans : String) (ty : adios2_type)
    (i c : Nat) (cen : Int) (tot nb : Nat) (bnp bnc : List Nat) (owner : List Int)
    (n j : Nat) (st : ArraySchema.DefineState)
    (h : st.block_offset = u64 (c * (((if cen = vtkDataObject.POINT then bnp else bnc).take j).sum))) :
    (ArraySchema.DefineVariable.loop rank ans ty i c cen tot nb bnp bnc owner n j st).defined =
      st.defined ++ (List.range' j n).filterMap (fun k =>
        if owner[k]? = some rank then
          some ⟨k, u32 (i * nb + k),
            ⟨ans ++ "data", ty,
              u64 ((if cen = vtkDataObject.POINT then bnp else bnc).getD k 0 * c), tot,
              u64 (c * (((if cen = vtkDataObject.POINT then bnp else bnc).take k).sum))⟩⟩
        else none) := by
  induction n generalizing j st with
  | zero => simp [ArraySchema.DefineVariable.loop]
  | succ n ih =>
    rw [ArraySchema.DefineVariable.loop, sel_getD]
    by_cases ho : owner[j]? = some rank
    · simp only [ho, if_true]
      rw [ih]
      · simp [List.range'_succ, List.filterMap_cons, ho, h]
      · simp only [h]
        rw [u64_offset_step, sum_take_succ]
    · simp only [ho, if_false]
      rw [ih]
      · simp [List.range'_succ, List.filterMap_cons, ho]
      · simp only [h]
        rw [u64_offset_step, sum_take_succ]

theorem ReadArray_block_spec (rank : Int) (fh : ADIOS_FILE) (ans name : String)
    (ty : Int) (c : Nat) (cen : Int) (bnp bnc : List Nat) (owner : List Int)
    (j : Nat) (st : ArraySchema.ReadState) :
    (ArraySchema.ReadArray.block rank fh ans name ty c cen bnp bnc owner j st).2.reads =
      st.reads ++ (if owner[j]? = some rank then
          [⟨j, ans ++ "data", st.block_offset,
            u64 ((if cen = vtkDataObject.POINT then bnp else bnc).getD j 0 * c),
            (((vtkDataArray.CreateDataArray ty).SetNumberOfComponents c).SetNumberOfTuples
              (u64 ((if cen = vtkDataObject.POINT then bnp else bnc).getD j 0 * c))).SetName
              name⟩]
        else []) ∧
    ((ArraySchema.ReadArray.block rank fh ans name ty c cen bnp bnc owner j st).1 = 0 →
      (ArraySchema.ReadArray.block rank fh ans name ty c cen bnp bnc owner j st).2.block_offset =
        u64 (st.block_offset +
          u64 ((if cen = vtkDataObject.POINT then bnp else bnc).getD j 0 * c))) := by
  unfold ArraySchema.ReadArray.block
  rw [sel_getD]
  by_cases ho : owner[j]? = some rank
  · simp only [ho, if_true]
    cases fh.read (some (ADIOS_SELECTION.boundingbox st.block_offset
        (u64 ((if cen = vtkDataObject.POINT then bnp else bnc).getD j 0 * c)))) (ans ++ "data") with
    | none => simp
    | some vals =>
      cases GetCurrentDataObject st.dobj st.it with
      | none => simp
      | some ds => simp
  · simp [ho]

theorem ReadArray_loop_closed (rank : Int) (fh : ADIOS_FILE) (ans name : String)
    (ty : Int) (c : Nat) (cen : Int) (bnp bnc : List Nat) (owner : List Int)
    (n j : Nat) (st : ArraySchema.ReadState)
    (h : st.block_offset = u64 (c * (((if cen = vtkDataObject.POINT then bnp else bnc).take j).sum))) :
    ∃ m, m ≤ n ∧
      (ArraySchema.ReadArray.loop rank fh ans name ty c cen bnp bnc owner n j st).2.reads =
        st.reads ++ (List.range' j m).filterMap (fun k =>
          if owner[k]? = some rank then
            some ⟨k, ans ++ "data",
              u64 (c * (((if cen = vtkDataObject.POINT then bnp else bnc).take k).sum)),
              u64 ((if cen = vtkDataObject.POINT then bnp else bnc).getD k 0 * c),
              (((vtkDataArray.CreateDataArray ty).SetNumberOfComponents c).SetNumberOfTuples
                (u64 ((if cen = vtkDataObject.POINT then bnp else bnc).getD k 0 * c))).SetName
                name⟩
          else none) ∧
      ((ArraySchema.ReadArray.loop rank fh ans name ty c cen bnp bnc owner n j st).1 = 0 →
        m = n) := by
  induction n generalizing j st with
  | zero => exact ⟨0, le_refl _, by simp [ArraySchema.ReadArray.loop], fun _ => rfl⟩
  | succ n ih =>
    rw [ArraySchema.ReadArray.loop]
    obtain ⟨hreads, hoff⟩ := ReadArray_block_spec rank fh ans name ty c cen bnp bnc owner j st
    by_cases hr : (ArraySchema.ReadArray.block rank fh ans name ty c cen bnp bnc owner j st).1 = 0
    · simp only [hr, ne_eq, not_true_eq_false, if_false]
      have hoff2 := hoff hr
      rw [h, u64_offset_step, ← sum_take_succ] at hoff2
      obtain ⟨m, hm, hreads2, hret⟩ := ih (j + 1) _ hoff2
      refine ⟨m + 1, by omega, ?_, ?_⟩
      · rw [hreads2, hreads]
        by_cases ho : owner[j]? = some rank
        · simp [List.range'_succ, List.filterMap_cons, ho, h]
        · simp [List.range'_succ, List.filterMap_cons, ho]
      · intro h0
        rw [hret h0]
    · simp only [hr, ne_eq, not_false_eq_true, if_true]
      refine ⟨1, by omega, ?_, ?_⟩
      · rw [hreads]
        by_cases ho : owner[j]? = some rank
        · simp [List.range'_succ, List.filterMap_cons, ho, h]
        · simp [List.range'_succ, List.filterMap_cons, ho]
      · simp

theorem DefineVariable_defined (rank : Int) (ons : String) (i : Nat) (ty : Int) (c : Nat)
    (cen : Int) (npt nct nb : Nat) (bnp bnc : List Nat) (owner : List Int)
    (put_vars : List (Option adios2_variable))
    (hcen : cen = vtkDataObject.POINT ∨ cen = vtkDataObject.CELL) :
    (ArraySchema.DefineVariable rank ons i ty c cen npt nct nb bnp bnc owner put_vars).1 = 0 ∧
    (ArraySchema.DefineVariable rank ons i ty c cen npt nct nb bnp bnc owner put_vars).2.2 =
      (List.range' 0 nb).filterMap (fun k =>
        if owner[k]? = some rank then
          some ⟨k, u32 (i * nb + k),
            ⟨ons ++ "data_array_" ++ toString i ++ "/" ++ "data", adiosType ty,
              u64 ((if cen = vtkDataObject.POINT then bnp else bnc).getD k 0 * c),
              u64 ((if cen = vtkDataObject.POINT then npt else nct) * c),
              u64 (c * (((if cen = vtkDataObject.POINT then bnp else bnc).take k).sum))⟩⟩
        else none) := by
  have hn : ¬(cen ≠ vtkDataObject.POINT ∧ cen ≠ vtkDataObject.CELL) := by
    rcases hcen with h | h <;> simp [h]
  unfold ArraySchema.DefineVariable
  simp only [hn, if_false]
  refine ⟨trivial, ?_⟩
  rw [DefineVariable_loop_closed]
  · simp
  · simp [u64]

theorem ReadArray_reads (rank : Int) (fh : ADIOS_FILE) (ons : String) (i : Nat)
    (name : String) (ty : Int) (c : Nat) (cen : Int) (nb : Nat) (bnp bnc : List Nat)
    (owner : List Int) (dobj : vtkCompositeDataSet) :
    ∃ m, m ≤ nb ∧
      (ArraySchema.ReadArray rank fh ons i name ty c cen nb bnp bnc owner dobj).2.2 =
        (List.range' 0 m).filterMap (fun k =>
          if owner[k]? = some rank then
            some ⟨k, ons ++ "data_array_" ++ toString i ++ "/" ++ "data",
              u64 (c * (((if cen = vtkDataObject.POINT then bnp else bnc).take k).sum)),
              u64 ((if cen = vtkDataObject.POINT then bnp else bnc).getD k 0 * c),
              (((vtkDataArray.CreateDataArray ty).SetNumberOfComponents c).SetNumberOfTuples
                (u64 ((if cen = vtkDataObject.POINT then bnp else bnc).getD k 0 * c))).SetName
                name⟩
          else none) ∧
      ((ArraySchema.ReadArray rank fh ons i name ty c cen nb bnp bnc owner dobj).1 = 0 →
        m = nb) := by
  unfold ArraySchema.ReadArray
  obtain ⟨m, hm, hreads, hret⟩ := ReadArray_loop_closed rank fh
    (ons ++ "data_array_" ++ toString i ++ "/") name ty c cen bnp bnc owner nb 0
    { dobj := dobj } (by simp [u64])
  exact ⟨m, hm, by simpa using hreads, hret⟩

/-- C2: the global offset that `ArraySchema::DefineVariable` declares for block `j`
and the start offset that the per-array `ArraySchema::Read` selects for block `j`
are both `c * (s_0 + ... + s_(j-1))` in `unsigned long long` arithmetic, where `s`
are the block sizes chosen by the centering and `c` is the component count; hence
they agree block by block, whatever the owner lists and ranks of the two sides,
and they are exactly `c * (s_0 + ... + s_(j-1))` when the global extent `c * sum s`
is below `2^64`.  Every locally owned block gets its variable on the write side,
and its read on the read side when the read succeeds. -/
theorem C2_offset_scan_agrees (rankW rankR : Int) (onsW onsR : String) (iW iR : Nat)
    (tyW tyR : Int) (name : String) (c : Nat) (cen : Int) (npt nct nb : Nat)
    (bnp bnc : List Nat) (ownerW ownerR : List Int)
    (put_vars : List (Option adios2_variable)) (fh : ADIOS_FILE)
    (dobj : vtkCompositeDataSet)
    (hcen : cen = vtkDataObject.POINT ∨ cen = vtkDataObject.CELL) :
    (∀ w ∈ (ArraySchema.DefineVariable rankW onsW iW tyW c cen npt nct nb bnp bnc ownerW
        put_vars).2.2,
      w.var.offset =
        u64 (c * (((if cen = vtkDataObject.POINT then bnp else bnc).take w.block).sum))) ∧
    (∀ r ∈ (ArraySchema.ReadArray rankR fh onsR iR name tyR c cen nb bnp bnc ownerR dobj).2.2,
      r.start =
        u64 (c * (((if cen = vtkDataObject.POINT then bnp else bnc).take r.block).sum))) ∧
    (∀ w ∈ (ArraySchema.DefineVariable rankW onsW iW tyW c cen npt nct nb bnp bnc ownerW
        put_vars).2.2,
      ∀ r ∈ (ArraySchema.ReadArray rankR fh onsR iR name tyR c cen nb bnp bnc ownerR
        dobj).2.2,
      w.block = r.block → w.var.offset = r.start) ∧
    (∀ j, j < nb → ownerW[j]? = some rankW →
      ∃ w ∈ (ArraySchema.DefineVariable rankW onsW iW tyW c cen npt nct nb bnp bnc ownerW
        put_vars).2.2, w.block = j) ∧
    ((ArraySchema.ReadArray rankR fh onsR iR name tyR c cen nb bnp bnc ownerR dobj).1 = 0 →
      ∀ j, j < nb → ownerR[j]? = some rankR →
      ∃ r ∈ (ArraySchema.ReadArray rankR fh onsR iR name tyR c cen nb bnp bnc ownerR
        dobj).2.2, r.block = j) ∧
    (c * (if cen = vtkDataObject.POINT then bnp else bnc).sum < 2 ^ 64 →
      (∀ w ∈ (ArraySchema.DefineVariable rankW onsW iW tyW c cen npt nct nb bnp bnc ownerW
          put_vars).2.2,
        w.var.offset =
          c * (((if cen = vtkDataObject.POINT then bnp else bnc).take w.block).sum)) ∧
      (∀ r ∈ (ArraySchema.ReadArray rankR fh onsR iR name tyR c cen nb bnp bnc ownerR
          dobj).2.2,
        r.start =
          c * (((if cen = vtkDataObject.POINT then bnp else bnc).take r.block).sum))) := by
  obtain ⟨-, hW⟩ := DefineVariable_defined rankW onsW iW tyW c cen npt nct nb bnp bnc ownerW
    put_vars hcen
  obtain ⟨m, hm, hR, hret⟩ := ReadArray_reads rankR fh onsR iR name tyR c cen nb bnp bnc
    ownerR dobj
  have hWo : ∀ w ∈ (ArraySchema.DefineVariable rankW onsW iW tyW c cen npt nct nb bnp bnc
      ownerW put_vars).2.2,
      w.var.offset =
        u64 (c * (((if cen = vtkDataObject.POINT then bnp else bnc).take w.block).sum)) := by
    intro w hw
    rw [hW, List.mem_filterMap] at hw
    obtain ⟨k, -, hk⟩ := hw
    split at hk
    · cases hk; rfl
    · cases hk
  have hRo : ∀ r ∈ (ArraySchema.ReadArray rankR fh onsR iR name tyR c cen nb bnp bnc ownerR
      dobj).2.2,
      r.start =
        u64 (c * (((if cen = vtkDataObject.POINT then bnp else bnc).take r.block).sum)) := by
    intro r hr
    rw [hR, List.mem_filterMap] at hr
    obtain ⟨k, -, hk⟩ := hr
    split at hk
    · cases hk; rfl
    · cases hk
  have hlt : c * (if cen = vtkDataObject.POINT then bnp else bnc).sum < 2 ^ 64 →
      ∀ j, u64 (c * (((if cen = vtkDataObject.POINT then bnp else bnc).take j).sum)) =
        c * (((if cen = vtkDataObject.POINT then bnp else bnc).take j).sum) := by
    intro hb j
    apply u64_of_lt
    exact lt_of_le_of_lt (Nat.mul_le_mul_left c (sum_take_le _ j)) hb
  refine ⟨hWo, hRo, ?_, ?_, ?_, ?_⟩
  · intro w hw r hr hb
    rw [hWo w hw, hRo r hr, hb]
  · intro j hj ho
    rw [hW]
    exact ⟨_, List.mem_filterMap.mpr
      ⟨j, List.mem_range'_1.mpr ⟨Nat.zero_le _, by omega⟩, if_pos ho⟩, rfl⟩
  · intro h0 j hj ho
    have hmn := hret h0
    subst hmn
    rw [hR]
    exact ⟨_, List.mem_filterMap.mpr
      ⟨j, List.mem_range'_1.mpr ⟨Nat.zero_le _, by omega⟩, if_pos ho⟩, rfl⟩
  · intro hb
    exact ⟨fun w hw => by rw [hWo w hw, hlt hb], fun r hr => by rw [hRo r hr, hlt hb]⟩

/-- Witness for C2: three blocks of 2, 3 and 4 points, three components; the writer
(rank 0) owns blocks 0 and 2, the reader (rank 1) owns blocks 1 and 2.  The offsets
declared are 0 and 15, the offsets read are 6 and 15, and the two sides agree on block 2. -/
theorem C2_offset_scan_agrees_witness :
    (vtkDataObject.POINT = vtkDataObject.POINT ∨ vtkDataObject.POINT = vtkDataObject.CELL) ∧
    ((ArraySchema.DefineVariable 0 "data_object_0/" 0 VTK_DOUBLE 3 vtkDataObject.POINT 9 5 3
        [2, 3, 4] [1, 2, 2] [0, 1, 0] [none, none, none]).2.2.map
          (fun w => (w.block, w.var.offset)) = [(0, 0), (2, 15)]) ∧
    ((ArraySchema.ReadArray 1 ⟨fun _ => none, fun _ _ => some []⟩ "data_object_0/" 0 "p"
        VTK_DOUBLE 3 vtkDataObject.POINT 3 [2, 3, 4] [1, 2, 2] [0, 1, 1]
        [some {}, some {}, some {}]).2.2.map
          (fun r => (r.block, r.start)) = [(1, 6), (2, 15)]) ∧
    (∀ w ∈ (ArraySchema.DefineVariable 0 "data_object_0/" 0 VTK_DOUBLE 3 vtkDataObject.POINT
        9 5 3 [2, 3, 4] [1, 2, 2] [0, 1, 0] [none, none, none]).2.2,
      ∀ r ∈ (ArraySchema.ReadArray 1 ⟨fun _ => none, fun _ _ => some []⟩ "data_object_0/" 0
        "p" VTK_DOUBLE 3 vtkDataObject.POINT 3 [2, 3, 4] [1, 2, 2] [0, 1, 1]
        [some {}, some {}, some {}]).2.2,
      w.block = r.block → w.var.offset = r.start) :=
  ⟨Or.inl rfl, by decide, by decide,
    (C2_offset_scan_agrees 0 1 "data_object_0/" "data_object_0/" 0 0 VTK_DOUBLE VTK_DOUBLE "p"
      3 vtkDataObject.POINT 9 5 3 [2, 3, 4] [1, 2, 2] [0, 1, 0] [0, 1, 1] [none, none, none]
      ⟨fun _ => none, fun _ _ => some []⟩ [some {}, some {}, some {}] (Or.inl rfl)).2.2.1⟩

/-! ## The calls made by the per-mesh array operations -/

theorem Write_call_calls (rank : Int) (md : MeshMetadata) (dobj : vtkCompositeDataSet)
    (putVars : List (Option adios2_variable)) (c : WriteCall)
    (st : ArraySchema.WriteState) :
    (ArraySchema.Write.call rank md dobj putVars c st).2.calls = st.calls ++ [c] := rfl

theorem Write_loop_calls (rank : Int) (md : MeshMetadata) (dobj : vtkCompositeDataSet)
    (putVars : List (Option adios2_variable)) (n i : Nat) (st : ArraySchema.WriteState) :
    ∃ m, m ≤ n ∧
      (ArraySchema.Write.loop rank md dobj putVars n i st).2.calls =
        st.calls ++ (List.range' i m).map (fun a =>
          (⟨a, md.ArrayName.getD a "", md.ArrayCentering.getD a 0⟩ : WriteCall)) ∧
      ((ArraySchema.Write.loop rank md dobj putVars n i st).1 = 0 → m = n) := by
  induction n generalizing i st with
  | zero => exact ⟨0, le_refl _, by simp [ArraySchema.Write.loop], fun _ => rfl⟩
  | succ n ih =>
    rw [ArraySchema.Write.loop]
    by_cases hr : (ArraySchema.Write.call rank md dobj putVars
        ⟨i, md.ArrayName.getD i "", md.ArrayCentering.getD i 0⟩ st).1 = 0
    · simp only [hr, ne_eq, not_true_eq_false, if_false]
      obtain ⟨m, hm, hc, hret⟩ := ih (i + 1) (ArraySchema.Write.call rank md dobj putVars
        ⟨i, md.ArrayName.getD i "", md.ArrayCentering.getD i 0⟩ st).2
      refine ⟨m + 1, by omega, ?_, fun h0 => by rw [hret h0]⟩
      rw [hc, Write_call_calls]
      simp [List.range'_succ]
    · simp only [hr, ne_eq, not_false_eq_true, if_true]
      refine ⟨1, by omega, ?_, by simp⟩
      rw [Write_call_calls]
      simp [List.range'_succ]

/-- C4 (failing input): the block `samplePolyData` has 2 vertices, 0 lines, 3 polygons
and 0 strips.  The streams that `PolydataCellSchema::Write` produces for it, fed to
the group scan of `PolydataCellSchema::Read`, come back as 2 vertices and no other
cell: the loops that locate the polygons and the strips test for `VTK_VERTEX`, so
the three polygons and their connectivity are lost. -/
theorem C4_polydata_read_loses_polygons :
    PolydataCellSchema.Write.block samplePolyData =
      ([VTK_VERTEX, VTK_VERTEX, VTK_POLYGON, VTK_POLYGON, VTK_POLYGON],
       [1, 0, 1, 1, 3, 0, 1, 2, 3, 1, 2, 3, 3, 2, 3, 0]) ∧
    PolydataCellSchema.Read.block 5 (PolydataCellSchema.Write.block samplePolyData).1
      (PolydataCellSchema.Write.block samplePolyData).2 =
      { Verts := ⟨2, [1, 0, 1, 1]⟩, Lines := ⟨0, []⟩, Polys := ⟨0, []⟩, Strips := ⟨0, []⟩ } ∧
    (PolydataCellSchema.Read.block 5 (PolydataCellSchema.Write.block samplePolyData).1
      (PolydataCellSchema.Write.block samplePolyData).2).Polys.NumberOfCells ≠
      samplePolyData.Polys.NumberOfCells ∧
    PolydataCellSchema.Read.block 5 (PolydataCellSchema.Write.block samplePolyData).1
      (PolydataCellSchema.Write.block samplePolyData).2 ≠ samplePolyData := by
  decide

/-- C5: for a polydata block with `nv` vertices, `nl` lines, `np` polygons and `ns`
strips, `PolydataCellSchema::Write` emits the type tags `nv` times `VTK_VERTEX`, `nl`
times `VTK_LINE`, `np` times `VTK_POLYGON` and `ns` times `VTK_TRIANGLE_STRIP`, in that
order, `nv + nl + np + ns` tags in all; the connectivity stream is the connectivity of
the non-empty groups in the same order, an empty group adding nothing; and when the
cell arrays are well formed (a group without cells has no connectivity) it is the
concatenation of the four connectivity arrays, of length the sum of their lengths. -/
theorem C5_polydata_write_streams (pd : vtkPolyData) :
    (PolydataCellSchema.Write.block pd).1 =
      List.replicate pd.Verts.NumberOfCells VTK_VERTEX ++
      List.replicate pd.Lines.NumberOfCells VTK_LINE ++
      List.replicate pd.Polys.NumberOfCells VTK_POLYGON ++
      List.replicate pd.Strips.NumberOfCells VTK_TRIANGLE_STRIP ∧
    (PolydataCellSchema.Write.block pd).1.length =
      pd.Verts.NumberOfCells + pd.Lines.NumberOfCells + pd.Polys.NumberOfCells +
        pd.Strips.NumberOfCells ∧
    (PolydataCellSchema.Write.block pd).2 =
      (if pd.Verts.NumberOfCells = 0 then [] else pd.Verts.Data) ++
      (if pd.Lines.NumberOfCells = 0 then [] else pd.Lines.Data) ++
      (if pd.Polys.NumberOfCells = 0 then [] else pd.Polys.Data) ++
      (if pd.Strips.NumberOfCells = 0 then [] else pd.Strips.Data) ∧
    ((pd.Verts.NumberOfCells = 0 → pd.Verts.Data = []) →
     (pd.Lines.NumberOfCells = 0 → pd.Lines.Data = []) →
     (pd.Polys.NumberOfCells = 0 → pd.Polys.Data = []) →
     (pd.Strips.NumberOfCells = 0 → pd.Strips.Data = []) →
      (PolydataCellSchema.Write.block pd).2 =
        pd.Verts.Data ++ pd.Lines.Data ++ pd.Polys.Data ++ pd.Strips.Data ∧
      (PolydataCellSchema.Write.block pd).2.length =
        pd.Verts.Data.length + pd.Lines.Data.length + pd.Polys.Data.length +
          pd.Strips.Data.length) := by
  have hc : (PolydataCellSchema.Write.block pd).2 =
      (if pd.Verts.NumberOfCells = 0 then [] else pd.Verts.Data) ++
      (if pd.Lines.NumberOfCells = 0 then [] else pd.Lines.Data) ++
      (if pd.Polys.NumberOfCells = 0 then [] else pd.Polys.Data) ++
      (if pd.Strips.NumberOfCells = 0 then [] else pd.Strips.Data) := by
    unfold PolydataCellSchema.Write.block
    by_cases hv : pd.Verts.NumberOfCells = 0 <;> by_cases hl : pd.Lines.NumberOfCells = 0 <;>
      by_cases hp : pd.Polys.NumberOfCells = 0 <;>
      by_cases hs : pd.Strips.NumberOfCells = 0 <;> simp [hv, hl, hp, hs]
  have ht : (PolydataCellSchema.Write.block pd).1 =
      List.replicate pd.Verts.NumberOfCells VTK_VERTEX ++
      List.replicate pd.Lines.NumberOfCells VTK_LINE ++
      List.replicate pd.Polys.NumberOfCells VTK_POLYGON ++
      List.replicate pd.Strips.NumberOfCells VTK_TRIANGLE_STRIP := by
    unfold PolydataCellSchema.Write.block
    by_cases hv : pd.Verts.NumberOfCells = 0 <;> by_cases hl : pd.Lines.NumberOfCells = 0 <;>
      by_cases hp : pd.Polys.NumberOfCells = 0 <;>
      by_cases hs : pd.Strips.NumberOfCells = 0 <;> simp [hv, hl, hp, hs]
  refine ⟨ht, ?_, hc, ?_⟩
  · rw [ht]
    simp only [List.length_append, List.length_replicate]
  · intro wv wl wp ws
    have hcat : (PolydataCellSchema.Write.block pd).2 =
        pd.Verts.Data ++ pd.Lines.Data ++ pd.Polys.Data ++ pd.Strips.Data := by
      rw [hc]
      by_cases hv : pd.Verts.NumberOfCells = 0 <;> by_cases hl : pd.Lines.NumberOfCells = 0 <;>
        by_cases hp : pd.Polys.NumberOfCells = 0 <;>
        by_cases hs : pd.Strips.NumberOfCells = 0 <;> simp [*]
    refine ⟨hcat, ?_⟩
    rw [hcat]
    simp only [List.length_append]

/-- Witness for C5: `samplePolyData` is well formed and serializes to the type tags
`[VERTEX, VERTEX, POLYGON, POLYGON, POLYGON]` and to its vertex connectivity followed
by its polygon connectivity. -/
theorem C5_polydata_write_streams_witness :
    (PolydataCellSchema.Write.block samplePolyData).1 =
      [VTK_VERTEX, VTK_VERTEX, VTK_POLYGON, VTK_POLYGON, VTK_POLYGON] ∧
    (PolydataCellSchema.Write.block samplePolyData).2 =
      samplePolyData.Verts.Data ++ samplePolyData.Lines.Data ++ samplePolyData.Polys.Data ++
        samplePolyData.Strips.Data :=
  ⟨(C5_polydata_write_streams samplePolyData).1,
   ((C5_polydata_write_streams samplePolyData).2.2.2 (by decide) (by decide) (by decide)
      (by decide)).1⟩

/-! ## The cell locations of the unstructured cell codec -/

/-- C6 (failing input): for a block without cells (`num_cells_local = 0`, empty
connectivity) the location array has no entry, and the code still stores
`p_locs[0] = 0`: position 0 is written although it is not below `num_cells_local`.
On the connectivity `[2,10,11,3,20,21,22]` with two cells the code builds `[0,3]`,
writing positions 0 and 1 and reading position 0 of the connectivity. -/
theorem C6_locations_write_outside_when_no_cells :
    (UnstructuredCellSchema.Read.locations 0 []).p_locs = [] ∧
    (UnstructuredCellSchema.Read.locations 0 []).writes = [0] ∧
    ¬ (∀ w ∈ (UnstructuredCellSchema.Read.locations 0 []).writes, w < 0) ∧
    UnstructuredCellSchema.Read.locations 2 [2, 10, 11, 3, 20, 21, 22] =
      { p_locs := [0, 3], writes := [0, 1], reads := [0] } := by
  decide

/-! ## The shape of the arrays allocated on read -/

/-- C7 (failing input): one locally owned block of 2 points and an array of 3
components.  The per-array `ArraySchema::Read` requests `2 * 3 = 6` scalars, and
allocates for them an array of 3 components and 6 tuples, not 2 tuples: the array
attached to the block holds 18 scalars, of which the transport fills the first 6. -/
theorem C7_read_array_has_too_many_tuples :
    ArraySchema.ReadArray 0 sampleSixFile "data_object_0/" 0 "v" VTK_DOUBLE 3
        vtkDataObject.POINT 1 [2] [1] [0] [some {}] =
      (0,
       [some { PointData := [{ Name := "v", DataType := VTK_DOUBLE, NumberOfComponents := 3,
                               NumberOfTuples := 6,
                               Values := [1, 2, 3, 4, 5, 6, 0, 0, 0, 0, 0, 0, 0, 0, 0, 0, 0, 0] }],
               CellData := [] }],
       [{ block := 0, path := "data_object_0/data_array_0/data", start := 0, count := 6,
          array := { Name := "v", DataType := VTK_DOUBLE, NumberOfComponents := 3,
                     NumberOfTuples := 6,
                     Values := [0, 0, 0, 0, 0, 0, 0, 0, 0, 0, 0, 0, 0, 0, 0, 0, 0, 0] } }]) ∧
    (∀ r ∈ (ArraySchema.ReadArray 0 sampleSixFile "data_object_0/" 0 "v" VTK_DOUBLE 3
        vtkDataObject.POINT 1 [2] [1] [0] [some {}]).2.2,
      r.array.NumberOfTuples ≠ 2 ∧
      r.array.NumberOfTuples * r.array.NumberOfComponents ≠ r.count) := by
  decide

/-! ## The collection codec -/

theorem Collection_DefineVariables_loop {σ : Type}
    (defineObject : σ → Nat → MeshMetadata → Int × σ) (metadata : List MeshMetadata)
    (n i : Nat) (st : σ × List DefineEvent) :
    ∃ m, m ≤ n ∧
      (DataObjectCollectionSchema.DefineVariables.loop defineObject metadata n i st).2.2 =
        st.2 ++ (List.range' i m).flatMap (fun k =>
          [DefineEvent.stream ("data_object_" ++ toString k ++ "/" ++ "metadata"),
           DefineEvent.object k (metadata.getD k {})]) ∧
      (∀ f, i ≤ f → f < i + n → (metadata.getD f {}).GlobalView = false →
        i + m ≤ f ∧
        (DataObjectCollectionSchema.DefineVariables.loop defineObject metadata n i st).1 = -1) := by
  induction n generalizing i st with
  | zero =>
    refine ⟨0, le_refl _, by simp [DataObjectCollectionSchema.DefineVariables.loop], ?_⟩
    intro f h1 h2
    omega
  | succ n ih =>
    obtain ⟨dataObject, log⟩ := st
    rw [DataObjectCollectionSchema.DefineVariables.loop]
    by_cases hg : (metadata.getD i {}).GlobalView = true
    · simp only [hg, Bool.not_true, Bool.false_eq_true, if_false]
      by_cases hr : (defineObject dataObject i (metadata.getD i {})).1 = 0
      · simp only [hr, ne_eq, not_true_eq_false, if_false]
        obtain ⟨m, hm, hlog, hf⟩ := ih (i + 1)
          ((defineObject dataObject i (metadata.getD i {})).2,
            log ++ (BinaryStreamSchema.DefineVariables
              ("data_object_" ++ toString i ++ "/" ++ "metadata")).2 ++
              [DefineEvent.object i (metadata.getD i {})])
        refine ⟨m + 1, by omega, ?_, ?_⟩
        · rw [hlog]
          simp [List.range'_succ, BinaryStreamSchema.DefineVariables]
        · intro f h1 h2 h3
          have hne : f ≠ i := by
            intro he
            rw [he, hg] at h3
            cases h3
          obtain ⟨h4, h5⟩ := hf f (by omega) (by omega) h3
          exact ⟨by omega, h5⟩
      · simp only [hr, ne_eq, not_false_eq_true, if_true]
        refine ⟨1, by omega, ?_, ?_⟩
        · simp [List.range'_succ, BinaryStreamSchema.DefineVariables]
        · intro f h1 h2 h3
          have hne : f ≠ i := by
            intro he
            rw [he, hg] at h3
            cases h3
          exact ⟨by omega, trivial⟩
    · have hg2 : (metadata.getD i {}).GlobalView = false := by simpa using hg
      simp only [hg2, Bool.not_false, if_true]
      refine ⟨0, by omega, by simp, ?_⟩
      intro f h1 h2 h3
      exact ⟨by omega, trivial⟩

/-- C8: when the number of metadata entries fits the `unsigned int` that counts them
and at least one entry has `GlobalView = false`,
`DataObjectCollectionSchema::DefineVariables` returns a non-zero code, and what it
has declared is the four top-level scalars followed by the metadata stream and the
mesh-object variables of the entries `0..m-1` only, where `m` is at most the index of
every entry without global view: nothing is declared for the first such entry or
for any entry after it.  This holds whatever the mesh-object codec does. -/
theorem C8_DefineVariables_requires_global_view {σ : Type}
    (this : DataObjectCollectionSchema σ)
    (defineObject : σ → Nat → MeshMetadata → Int × σ) (metadata : List MeshMetadata)
    (hlen : metadata.length < 2 ^ 32)
    (hex : ∃ md ∈ metadata, md.GlobalView = false) :
    (DataObjectCollectionSchema.DefineVariables this defineObject metadata).1 ≠ 0 ∧
    ∃ m,
      (DataObjectCollectionSchema.DefineVariables this defineObject metadata).2.2 =
        [DefineEvent.scalar "DataObjectSchema" adios2_type.uint32_t,
         DefineEvent.scalar "time_step" adios2_type.uint64_t,
         DefineEvent.scalar "time" adios2_type.double,
         DefineEvent.scalar "number_of_data_objects" adios2_type.int32_t] ++
        (List.range m).flatMap (fun k =>
          [DefineEvent.stream ("data_object_" ++ toString k ++ "/" ++ "metadata"),
           DefineEvent.object k (metadata.getD k {})]) ∧
      ∀ f, f < metadata.length → (metadata.getD f {}).GlobalView = false → m ≤ f := by
  obtain ⟨md, hmem, hfalse⟩ := hex
  obtain ⟨f0, hf0, hget⟩ := List.getElem_of_mem hmem
  have hf0false : (metadata.getD f0 {}).GlobalView = false := by
    rw [List.getD_eq_getElem _ _ hf0, hget]
    exact hfalse
  obtain ⟨m, -, hlog, hf⟩ := Collection_DefineVariables_loop defineObject metadata
    metadata.length 0
    (this.DataObject, (this.Version.DefineVariables).2 ++
      [DefineEvent.scalar "time_step" adios2_type.uint64_t,
       DefineEvent.scalar "time" adios2_type.double] ++
      [DefineEvent.scalar "number_of_data_objects" adios2_type.int32_t])
  unfold DataObjectCollectionSchema.DefineVariables
  simp only [u32_of_lt hlen]
  refine ⟨?_, m, ?_, ?_⟩
  · rw [(hf f0 (Nat.zero_le _) (by omega) hf0false).2]
    decide
  · rw [hlog]
    simp [VersionSchema.DefineVariables, List.range_eq_range']
  · intro f h1 h2
    have := (hf f (Nat.zero_le _) (by omega) h2).1
    omega

/-- Witness for C8: three entries, the second without global view, and a mesh-object
codec that always succeeds: the call fails after declaring the variables of object
0 only. -/
theorem C8_DefineVariables_requires_global_view_witness :
    ([({} : MeshMetadata), { GlobalView := false }, {}].length < 2 ^ 32) ∧
    (∃ md ∈ [({} : MeshMetadata), { GlobalView := false }, {}], md.GlobalView = false) ∧
    (DataObjectCollectionSchema.DefineVariables ({ DataObject := () } :
        DataObjectCollectionSchema Unit) (fun s _ _ => (0, s))
        [{}, { GlobalView := false }, {}]).1 ≠ 0 ∧
    (DataObjectCollectionSchema.DefineVariables ({ DataObject := () } :
        DataObjectCollectionSchema Unit) (fun s _ _ => (0, s))
        [{}, { GlobalView := false }, {}]).2.2 =
      [DefineEvent.scalar "DataObjectSchema" adios2_type.uint32_t,
       DefineEvent.scalar "time_step" adios2_type.uint64_t,
       DefineEvent.scalar "time" adios2_type.double,
       DefineEvent.scalar "number_of_data_objects" adios2_type.int32_t,
       DefineEvent.stream "data_object_0/metadata",
       DefineEvent.object 0 {}] :=
  ⟨by decide, ⟨{ GlobalView := false }, by decide, rfl⟩,
    (C8_DefineVariables_requires_global_view ({ DataObject := () } :
        DataObjectCollectionSchema Unit) (fun s _ _ => (0, s))
        [{}, { GlobalView := false }, {}] (by decide)
        ⟨{ GlobalView := false }, by decide, rfl⟩).1,
    by decide⟩

/-- C9: when the number of objects fits the `unsigned int` that counts them and the
object list and the metadata list differ in length,
`DataObjectCollectionSchema::Write` returns `-1`, leaves the codec as it is and does
nothing to the transport: no version, time step, time, object count, metadata blob
or payload is written. -/
theorem C9_Write_object_count_mismatch {σ : Type} (this : DataObjectCollectionSchema σ)
    (writeObject : σ → Nat → MeshMetadata → vtkCompositeDataSet → Int × σ)
    (ToStream : MeshMetadata → BinaryStream) (handles : AdiosHandle)
    (time_step : Nat) (time : double) (metadata : List MeshMetadata)
    (objects : List vtkCompositeDataSet)
    (hlen : objects.length < 2 ^ 32) (hne : objects.length ≠ metadata.length) :
    DataObjectCollectionSchema.Write this writeObject ToStream handles time_step time
      metadata objects = (-1, this, []) ∧
    (DataObjectCollectionSchema.Write this writeObject ToStream handles time_step time
      metadata objects).1 ≠ 0 ∧
    (DataObjectCollectionSchema.Write this writeObject ToStream handles time_step time
      metadata objects).2.2 = [] := by
  have h : DataObjectCollectionSchema.Write this writeObject ToStream handles time_step
      time metadata objects = (-1, this, []) := by
    unfold DataObjectCollectionSchema.Write
    simp only [u32_of_lt hlen, ne_eq, hne, not_false_eq_true, if_true]
  rw [h]
  exact ⟨rfl, by simp, rfl⟩

/-- Witness for C9: two objects and one metadata entry; nothing is written. -/
theorem C9_Write_object_count_mismatch_witness :
    ([([] : vtkCompositeDataSet), []].length < 2 ^ 32) ∧
    ([([] : vtkCompositeDataSet), []].length ≠ [({} : MeshMetadata)].length) ∧
    (DataObjectCollectionSchema.Write ({ DataObject := () } :
        DataObjectCollectionSchema Unit) (fun s _ _ _ => (0, s)) (fun _ => {})
        ⟨fun _ => false⟩ 7 ⟨0⟩ [{}] [[], []]).2.2 = [] :=
  ⟨by decide, by decide,
    (C9_Write_object_count_mismatch ({ DataObject := () } :
        DataObjectCollectionSchema Unit) (fun s _ _ _ => (0, s)) (fun _ => {})
        ⟨fun _ => false⟩ 7 ⟨0⟩ [{}] [[], []] (by decide) (by decide)).2.2⟩

theorem ReadMeshMetadata_loop (iStream : InputStream)
    (FromStream : BinaryStream → MeshMetadata) (sel : Option ADIOS_SELECTION)
    (n i : Nat) (s : MeshMetadataMap)
    (h0 : (DataObjectCollectionSchema.ReadMeshMetadata.loop iStream FromStream sel n i s).1 = 0) :
    (DataObjectCollectionSchema.ReadMeshMetadata.loop iStream FromStream sel n i s).2.entries =
      s.entries ++ (List.range' i n).map (fun k => some (FromStream
        (BinaryStreamSchema.Read iStream sel
          ("data_object_" ++ toString k ++ "/" ++ "metadata") {}).2.1)) ∧
    ∀ k, i ≤ k → k < i + n →
      (BinaryStreamSchema.Read iStream sel
        ("data_object_" ++ toString k ++ "/" ++ "metadata") {}).1 = 0 := by
  induction n generalizing i s with
  | zero =>
    refine ⟨by simp [DataObjectCollectionSchema.ReadMeshMetadata.loop], ?_⟩
    intro k h1 h2
    omega
  | succ n ih =>
    rw [DataObjectCollectionSchema.ReadMeshMetadata.loop] at h0 ⊢
    by_cases hr : (BinaryStreamSchema.Read iStream sel
        ("data_object_" ++ toString i ++ "/" ++ "metadata") {}).1 = 0
    · simp only [hr, ne_eq, not_true_eq_false, if_false] at h0 ⊢
      obtain ⟨he, hk⟩ := ih (i + 1) _ h0
      refine ⟨?_, ?_⟩
      · rw [he]
        simp [List.range'_succ, MeshMetadataMap.PushBack]
      · intro k h1 h2
        by_cases hki : k = i
        · rw [hki]; exact hr
        · exact hk k (by omega) (by omega)
    · simp only [hr, ne_eq, not_false_eq_true, if_true] at h0
      cases h0

theorem ReadMeshMetadata_code_indep {σ : Type} (this this2 : DataObjectCollectionSchema σ)
    (rank : Int) (iStream : InputStream) (FromStream : BinaryStream → MeshMetadata)
    (selw : Int → Option ADIOS_SELECTION) :
    (DataObjectCollectionSchema.ReadMeshMetadata this rank iStream FromStream selw).1 =
      (DataObjectCollectionSchema.ReadMeshMetadata this2 rank iStream FromStream selw).1 ∧
    (DataObjectCollectionSchema.ReadMeshMetadata this rank iStream FromStream selw).2.SenderMdMap =
      (DataObjectCollectionSchema.ReadMeshMetadata this2 rank iStream FromStream
        selw).2.SenderMdMap ∧
    (DataObjectCollectionSchema.ReadMeshMetadata this rank iStream FromStream selw).2.ReceiverMdMap =
      (DataObjectCollectionSchema.ReadMeshMetadata this2 rank iStream FromStream
        selw).2.ReceiverMdMap := by
  unfold DataObjectCollectionSchema.ReadMeshMetadata
  simp only [MeshMetadataMap.Clear]
  split_ifs <;> simp

theorem ReadMeshMetadata_success {σ : Type} (this : DataObjectCollectionSchema σ)
    (rank : Int) (iStream : InputStream) (FromStream : BinaryStream → MeshMetadata)
    (selw : Int → Option ADIOS_SELECTION) (v : ADIOS_VARINFO)
    (hv : iStream.File.inq_var "number_of_data_objects" = some v)
    (h0 : (DataObjectCollectionSchema.ReadMeshMetadata this rank iStream FromStream selw).1 = 0) :
    (DataObjectCollectionSchema.ReadMeshMetadata this rank iStream FromStream
        selw).2.SenderMdMap.entries =
      (List.range v.value).map (fun k => some (FromStream
        (BinaryStreamSchema.Read iStream
          (if !streamIsFileBased iStream.ReadMethod then selw rank else none)
          ("data_object_" ++ toString k ++ "/" ++ "metadata") {}).2.1)) ∧
    (DataObjectCollectionSchema.ReadMeshMetadata this rank iStream FromStream
        selw).2.ReceiverMdMap.entries = List.replicate v.value none ∧
    ∀ k, k < v.value →
      (BinaryStreamSchema.Read iStream
        (if !streamIsFileBased iStream.ReadMethod then selw rank else none)
        ("data_object_" ++ toString k ++ "/" ++ "metadata") {}).1 = 0 := by
  have hq : adiosInq iStream "number_of_data_objects" 0 = (0, v.value) := by
    simp [adiosInq, hv]
  unfold DataObjectCollectionSchema.ReadMeshMetadata at h0 ⊢
  simp only [hq, MeshMetadataMap.Clear, ne_eq, not_true_eq_false, if_false] at h0 ⊢
  by_cases hsel : (!streamIsFileBased iStream.ReadMethod) = true ∧
      (if (!streamIsFileBased iStream.ReadMethod) = true then selw rank else none) = none
  · rw [if_pos hsel] at h0
    cases h0
  · rw [if_neg hsel] at h0 ⊢
    by_cases hr : (DataObjectCollectionSchema.ReadMeshMetadata.loop iStream FromStream
        (if (!streamIsFileBased iStream.ReadMethod) = true then selw rank else none)
        v.value 0 { entries := [] }).1 = 0
    · rw [if_neg (by simpa using hr)]
      obtain ⟨he, hk⟩ := ReadMeshMetadata_loop iStream FromStream _ v.value 0 _ hr
      refine ⟨?_, ?_, ?_⟩
      · simp only [he, List.nil_append, List.range_eq_range']
      · simp [MeshMetadataMap.Resize]
      · intro k hk2
        exact hk k (Nat.zero_le _) (by omega)
    · rw [if_pos (by simpa using hr)] at h0
      cases h0

/-- C10: after a successful `DataObjectCollectionSchema::ReadMeshMetadata` on a stream
whose `number_of_data_objects` is `n`, the sender map holds exactly `n` entries, entry
`i` being `FromStream` of the blob read at `data_object_<i>/metadata` (each of these
reads having succeeded), in the order `0..n-1`; the receiver map holds `n` entries, all
of them unset; `GetNumberOfObjects` reports `n`; and the outcome is the same from any
other prior state of the codec, so nothing from before the call survives. -/
theorem C10_ReadMeshMetadata_maps {σ : Type} (this this2 : DataObjectCollectionSchema σ)
    (rank : Int) (iStream : InputStream) (FromStream : BinaryStream → MeshMetadata)
    (selw : Int → Option ADIOS_SELECTION) (v : ADIOS_VARINFO)
    (hv : iStream.File.inq_var "number_of_data_objects" = some v)
    (h0 : (DataObjectCollectionSchema.ReadMeshMetadata this rank iStream FromStream selw).1 = 0) :
    (DataObjectCollectionSchema.ReadMeshMetadata this rank iStream FromStream
        selw).2.SenderMdMap.entries =
      (List.range v.value).map (fun k => some (FromStream
        (BinaryStreamSchema.Read iStream
          (if !streamIsFileBased iStream.ReadMethod then selw rank else none)
          ("data_object_" ++ toString k ++ "/" ++ "metadata") {}).2.1)) ∧
    (∀ k, k < v.value →
      (BinaryStreamSchema.Read iStream
        (if !streamIsFileBased iStream.ReadMethod then selw rank else none)
        ("data_object_" ++ toString k ++ "/" ++ "metadata") {}).1 = 0) ∧
    (DataObjectCollectionSchema.ReadMeshMetadata this rank iStream FromStream
        selw).2.SenderMdMap.Size = v.value ∧
    (DataObjectCollectionSchema.ReadMeshMetadata this rank iStream FromStream
        selw).2.ReceiverMdMap.Size = v.value ∧
    (DataObjectCollectionSchema.ReadMeshMetadata this rank iStream FromStream
        selw).2.ReceiverMdMap.entries = List.replicate v.value none ∧
    (DataObjectCollectionSchema.ReadMeshMetadata this rank iStream FromStream
        selw).2.GetNumberOfObjects = (0, v.value) ∧
    (DataObjectCollectionSchema.ReadMeshMetadata this2 rank iStream FromStream selw).1 = 0 ∧
    (DataObjectCollectionSchema.ReadMeshMetadata this2 rank iStream FromStream
        selw).2.SenderMdMap =
      (DataObjectCollectionSchema.ReadMeshMetadata this rank iStream FromStream
        selw).2.SenderMdMap ∧
    (DataObjectCollectionSchema.ReadMeshMetadata this2 rank iStream FromStream
        selw).2.ReceiverMdMap =
      (DataObjectCollectionSchema.ReadMeshMetadata this rank iStream FromStream
        selw).2.ReceiverMdMap := by
  obtain ⟨hs, hr, hk⟩ := ReadMeshMetadata_success this rank iStream FromStream selw v hv h0
  obtain ⟨hc, hs2, hr2⟩ := ReadMeshMetadata_code_indep this2 this rank iStream FromStream selw
  refine ⟨hs, hk, ?_, ?_, hr, ?_, ?_, hs2, hr2⟩
  · simp [MeshMetadataMap.Size, hs]
  · simp [MeshMetadataMap.Size, hr]
  · simp [DataObjectCollectionSchema.GetNumberOfObjects, MeshMetadataMap.Size, hs]
  · rw [hc]; exact h0

/-- Witness for C10: `sampleMetadataStream` announces two objects; starting from a
codec whose maps hold three and one entries, the call succeeds, the sender map holds
the two metadata read from the stream and the receiver map two unset entries. -/
theorem C10_ReadMeshMetadata_maps_witness :
    sampleMetadataStream.File.inq_var "number_of_data_objects" = some ⟨2, 0⟩ ∧
    (DataObjectCollectionSchema.ReadMeshMetadata sampleUsedCollection 0 sampleMetadataStream
      sampleFromStream (fun _ => none)).1 = 0 ∧
    (DataObjectCollectionSchema.ReadMeshMetadata sampleUsedCollection 0 sampleMetadataStream
      sampleFromStream (fun _ => none)).2.SenderMdMap.entries =
      [some { NumBlocks := 3 }, some { NumBlocks := 3 }] ∧
    (DataObjectCollectionSchema.ReadMeshMetadata sampleUsedCollection 0 sampleMetadataStream
      sampleFromStream (fun _ => none)).2.ReceiverMdMap.entries = [none, none] ∧
    (DataObjectCollectionSchema.ReadMeshMetadata sampleUsedCollection 0 sampleMetadataStream
      sampleFromStream (fun _ => none)).2.GetNumberOfObjects = (0, 2) :=
  ⟨by decide, by decide, by decide,
    (C10_ReadMeshMetadata_maps sampleUsedCollection sampleUsedCollection 0
      sampleMetadataStream sampleFromStream (fun _ => none) ⟨2, 0⟩ (by decide)
      (by decide)).2.2.2.2.1,
    (C10_ReadMeshMetadata_maps sampleUsedCollection sampleUsedCollection 0
      sampleMetadataStream sampleFromStream (fun _ => none) ⟨2, 0⟩ (by decide)
      (by decide)).2.2.2.2.2.1⟩

/-! ## The cell locations for blocks with at least one cell -/

theorem RunsAt_cons {conn : List Int} {p : Int} {c : List Int} {cs : List (List Int)}
    (h : RunsAt conn p (c :: cs)) :
    0 ≤ p ∧ p < conn.length ∧ deref conn p = c.length ∧ RunsAt conn (p + c.length + 1) cs := by
  obtain ⟨pre, post, hconn, hp⟩ := h
  have hp0 : 0 ≤ p := by rw [← hp]; exact Int.natCast_nonneg _
  have hpn : p.toNat = pre.length := by rw [← hp]; simp
  have hconn2 : conn = pre ++ ((c.length : Int) :: (c ++ connectivityOf cs ++ post)) := by
    rw [hconn]
    simp [connectivityOf]
  refine ⟨hp0, ?_, ?_, ?_⟩
  · rw [hconn2, ← hp, List.length_append, List.length_cons]
    push_cast
    omega
  · unfold deref
    rw [if_pos hp0, hpn, hconn2, List.getD_eq_getElem?_getD,
      List.getElem?_append_right (le_refl _)]
    simp
  · refine ⟨pre ++ (c.length : Int) :: c, post, ?_, ?_⟩
    · rw [hconn]
      simp [connectivityOf]
    · rw [← hp]
      simp
      omega

theorem locations_loop_runs (conn : List Int) (cs : List (List Int)) :
    ∀ (i : Nat) (done : List Int) (c : List Int) (p : Int) (w : List Nat) (r : List Int),
      done.length = i → RunsAt conn p (c :: cs) →
      UnstructuredCellSchema.Read.locations.loop conn cs.length (i + 1)
        { p_locs := done ++ [p] ++ List.replicate cs.length 0, writes := w, reads := r } =
      { p_locs := done ++ cellStarts p (c :: cs),
        writes := w ++ List.range' (i + 1) cs.length,
        reads := r ++ (cellStarts p (c :: cs)).dropLast } := by
  induction cs with
  | nil =>
    intro i done c p w r _ _
    simp [UnstructuredCellSchema.Read.locations.loop, cellStarts]
  | cons c2 cs ih =>
    intro i done c p w r hlen hruns
    obtain ⟨-, -, hderef, hnext⟩ := RunsAt_cons hruns
    have hprev : (done ++ [p] ++ List.replicate (cs.length + 1) 0).getD (i + 1 - 1) 0 = p := by
      rw [Nat.add_sub_cancel, List.append_assoc,
        List.getD_append_right _ _ _ _ (by omega), hlen, Nat.sub_self]
      rfl
    have hset : (done ++ [p] ++ List.replicate (cs.length + 1) 0).set (i + 1)
        (p + deref conn p + 1) =
        (done ++ [p]) ++ [p + c.length + 1] ++ List.replicate cs.length 0 := by
      rw [List.set_append_right _ _ (by simp; omega)]
      simp [hlen, List.replicate_succ, hderef]
    rw [List.length_cons, UnstructuredCellSchema.Read.locations.loop]
    simp only []
    rw [hprev, hset, ih (i + 1) (done ++ [p]) c2 (p + c.length + 1) (w ++ [i + 1]) (r ++ [p])
      (by simp [hlen]) hnext]
    have hne : cellStarts (p + c.length + 1) (c2 :: cs) ≠ [] := by simp [cellStarts]
    simp [cellStarts, List.range'_succ, List.dropLast_cons_of_ne_nil, hne]

theorem cellStarts_in_bounds (conn : List Int) (cells : List (List Int)) :
    ∀ p, RunsAt conn p cells → ∀ x ∈ cellStarts p cells, 0 ≤ x ∧ x < conn.length := by
  induction cells with
  | nil => intro p _ x hx; simp [cellStarts] at hx
  | cons c cs ih =>
    intro p hruns x hx
    obtain ⟨h0, hlt, -, hnext⟩ := RunsAt_cons hruns
    simp only [cellStarts, List.mem_cons] at hx
    rcases hx with hx | hx
    · rw [hx]; exact ⟨h0, hlt⟩
    · exact ih _ hnext x hx

/-- The cell locations built by `UnstructuredCellSchema::Read` for a block with at least
one cell whose connectivity buffer holds one run `count, id_1, ..., id_count` per cell:
the result has one entry per cell, the start of that cell, with `loc[0] = 0` and each
next entry larger by the count of the cell plus one; positions `0..n-1` are written,
each once, and every position read from the connectivity buffer lies inside it. -/
theorem locations_of_runs (c : List Int) (cs : List (List Int)) :
    (UnstructuredCellSchema.Read.locations (c :: cs).length (connectivityOf (c :: cs))).p_locs =
      cellStarts 0 (c :: cs) ∧
    (UnstructuredCellSchema.Read.locations (c :: cs).length (connectivityOf (c :: cs))).writes =
      List.range (c :: cs).length ∧
    (UnstructuredCellSchema.Read.locations (c :: cs).length (connectivityOf (c :: cs))).reads =
      (cellStarts 0 (c :: cs)).dropLast ∧
    ∀ x ∈ (UnstructuredCellSchema.Read.locations (c :: cs).length
        (connectivityOf (c :: cs))).reads,
      0 ≤ x ∧ x < (connectivityOf (c :: cs)).length := by
  have hruns : RunsAt (connectivityOf (c :: cs)) 0 (c :: cs) := ⟨[], [], by simp, rfl⟩
  have h := locations_loop_runs (connectivityOf (c :: cs)) cs 0 [] c 0 [0] [] rfl hruns
  have hb := cellStarts_in_bounds _ _ 0 hruns
  unfold UnstructuredCellSchema.Read.locations
  simp only [List.length_cons, Nat.add_sub_cancel, List.replicate_succ, List.set_cons_zero]
  simp only [List.nil_append, Nat.zero_add] at h
  have h2 : (0 : Int) :: List.replicate cs.length 0 = [0] ++ List.replicate cs.length 0 := rfl
  rw [h2, h]
  refine ⟨rfl, ?_, by simp, ?_⟩
  · simp [List.range_eq_range', List.range'_succ]
  · intro x hx
    exact hb x (List.mem_of_mem_dropLast (by simpa using hx))

/-! ## The binary stream codec -/

theorem toSize_toInt32 {n : Nat} (h : n < 2 ^ 31) : toSize (toInt32 n) = n := by
  unfold toSize toInt32
  have h1 : n % 2 ^ 32 = n := Nat.mod_eq_of_lt (by omega)
  rw [h1, if_pos h]
  have h2 : ((n : Int) % 2 ^ 64) = n := Int.emod_eq_of_lt (by omega) (by omega)
  rw [h2]
  simp

/-- C18 (failing input): one object whose metadata blob cannot be written (the transport
reports an error for `adios2_set_shape`, so `BinaryStreamSchema::Write` returns `-1`),
with a mesh-object codec that succeeds.  `DataObjectCollectionSchema::Write` does not
look at the code returned for the blob: it goes on to write the payload of object 0
and returns 0. -/
theorem C18_Write_ignores_blob_write_failure :
    (BinaryStreamSchema.Write sampleShapeFailingHandle "data_object_0/metadata"
      (sampleToStream {})).1 = -1 ∧
    (DataObjectCollectionSchema.Write ({ DataObject := () } : DataObjectCollectionSchema Unit)
      (fun s _ _ _ => (0, s)) sampleToStream sampleShapeFailingHandle 7 ⟨0⟩ [{}] [[]]).1 = 0 ∧
    (DataObjectCollectionSchema.Write ({ DataObject := () } : DataObjectCollectionSchema Unit)
      (fun s _ _ _ => (0, s)) sampleToStream sampleShapeFailingHandle 7 ⟨0⟩ [{}] [[]]).2.2 =
      [WriteEvent.put "DataObjectSchema" (PutData.uint 3),
       WriteEvent.put "time_step" (PutData.uint 7),
       WriteEvent.put "time" (PutData.real ⟨0⟩),
       WriteEvent.put "number_of_data_objects" (PutData.uint 1),
       WriteEvent.set_shape "data_object_0/metadata" 3,
       WriteEvent.object 0 {} []] := by
  decide

/-- C19: `BinaryStreamSchema::Read(path)`.  When the variable at `path` is absent the
call returns `-1`, leaves the destination blob as it was and schedules no read.  When
it is present with stored extent `n` (below `2^31`, the range of the `int` that holds
it) and the transport read succeeds, the call returns 0 with the blob resized to
exactly `n` bytes, read cursor 0, write cursor `n`, having scheduled exactly one read,
of `path` with the given selection; the blob holds the bytes delivered when there are
`n` of them.  When the variable is present and the transport read fails, the call
returns `-1`. -/
theorem C19_BinaryStream_Read (iStream : InputStream) (sel : Option ADIOS_SELECTION)
    (path : String) (str : BinaryStream) :
    (iStream.File.inq_var path = none →
      BinaryStreamSchema.Read iStream sel path str = (-1, str, [])) ∧
    (∀ vinfo vals, iStream.File.inq_var path = some vinfo → vinfo.dims0 < 2 ^ 31 →
      iStream.File.read sel path = some vals →
      (BinaryStreamSchema.Read iStream sel path str).1 = 0 ∧
      (BinaryStreamSchema.Read iStream sel path str).2.1.Size = vinfo.dims0 ∧
      (BinaryStreamSchema.Read iStream sel path str).2.1.ReadPos = 0 ∧
      (BinaryStreamSchema.Read iStream sel path str).2.1.WritePos = vinfo.dims0 ∧
      (BinaryStreamSchema.Read iStream sel path str).2.2 = [(sel, path)] ∧
      (vals.length = vinfo.dims0 →
        (BinaryStreamSchema.Read iStream sel path str).2.1.Data = vals)) ∧
    (∀ vinfo, iStream.File.inq_var path = some vinfo →
      iStream.File.read sel path = none →
      (BinaryStreamSchema.Read iStream sel path str).1 = -1 ∧
      (BinaryStreamSchema.Read iStream sel path str).1 ≠ 0) := by
  refine ⟨?_, ?_, ?_⟩
  · intro h
    simp [BinaryStreamSchema.Read, h]
  · intro vinfo vals h hn hr
    have hsz := toSize_toInt32 hn
    simp only [BinaryStreamSchema.Read, h, hr, hsz]
    refine ⟨trivial, ?_, ?_, ?_, trivial, ?_⟩
    · simp [BinaryStream.Size, BinaryStream.Deliver, BinaryStream.SetWritePos,
        BinaryStream.SetReadPos, BinaryStream.Resize]
      omega
    · simp [BinaryStream.Deliver, BinaryStream.SetWritePos, BinaryStream.SetReadPos]
    · simp [BinaryStream.Deliver, BinaryStream.SetWritePos]
    · intro hl
      simp [BinaryStream.Deliver, BinaryStream.SetWritePos, BinaryStream.SetReadPos,
        BinaryStream.Resize, hl]
  · intro vinfo h hr
    simp [BinaryStreamSchema.Read, h, hr]

/-- Witness for C19: on `sampleMetadataStream` the blob of object 0 has extent 3 and the
read delivers three bytes. -/
theorem C19_BinaryStream_Read_witness :
    sampleMetadataStream.File.inq_var "data_object_0/metadata" = some ⟨0, 3⟩ ∧
    (3 : Nat) < 2 ^ 31 ∧
    sampleMetadataStream.File.read none "data_object_0/metadata" = some [1, 2, 3] ∧
    (BinaryStreamSchema.Read sampleMetadataStream none "data_object_0/metadata" {}).1 = 0 ∧
    (BinaryStreamSchema.Read sampleMetadataStream none "data_object_0/metadata" {}).2.1.Data =
      [1, 2, 3] :=
  ⟨by decide, by decide, by decide,
    ((C19_BinaryStream_Read sampleMetadataStream none "data_object_0/metadata" {}).2.1
      ⟨0, 3⟩ [1, 2, 3] (by decide) (by decide) (by decide)).1,
    ((C19_BinaryStream_Read sampleMetadataStream none "data_object_0/metadata" {}).2.1
      ⟨0, 3⟩ [1, 2, 3] (by decide) (by decide) (by decide)).2.2.2.2.2 (by decide)⟩

/-! ## The receiver metadata of the adaptor -/

/-- C11: `ADIOS1DataAdaptor::GetMeshMetadata(id)`.  When a receiver entry exists for `id`
(`GetReceiverMeshMetadata` succeeds) the call returns 0 with exactly that entry,
leaves the adaptor as it is, and neither fetches sender metadata nor runs a
partitioner.  When no receiver entry exists, no partitioner is configured and the
sender metadata of `id` is available, the call returns 0 with the metadata that the
default `BlockPartitioner` computes from the sender metadata of `id`, after fetching
that sender metadata and running that partitioner once. -/
theorem C11_GetMeshMetadata {σ : Type} (this : ADIOS1DataAdaptor σ)
    (BlockPartitioner : Partitioner) (id : Nat) (metadata : Option MeshMetadata) :
    ((this.GetReceiverMeshMetadata id metadata).1 = 0 →
      this.GetMeshMetadata BlockPartitioner id metadata =
        (0, (this.GetReceiverMeshMetadata id metadata).2, this, [])) ∧
    (∀ md, this.Schema.ReceiverMdMap.GetMeshMetadata id = some md →
      this.GetReceiverMeshMetadata id metadata = (0, some md) ∧
      this.GetMeshMetadata BlockPartitioner id metadata = (0, some md, this, [])) ∧
    ((this.GetReceiverMeshMetadata id metadata).1 ≠ 0 → this.GetPartitioner = none →
      ∀ senderMd, this.Schema.SenderMdMap.GetMeshMetadata id = some senderMd →
        (this.GetMeshMetadata BlockPartitioner id metadata).1 = 0 ∧
        (this.GetMeshMetadata BlockPartitioner id metadata).2.1 =
          (BlockPartitioner (some senderMd)).2 ∧
        (this.GetMeshMetadata BlockPartitioner id metadata).2.2.2 =
          [AdaptorEvent.GetSenderMeshMetadata id,
           AdaptorEvent.GetPartition true (some senderMd)] ++
          (if (BlockPartitioner (some senderMd)).1 ≠ 0 then [AdaptorEvent.CloseStream]
           else [])) := by
  refine ⟨?_, ?_, ?_⟩
  · intro h
    simp [ADIOS1DataAdaptor.GetMeshMetadata, h]
  · intro md h
    have hr : this.GetReceiverMeshMetadata id metadata = (0, some md) := by
      simp [ADIOS1DataAdaptor.GetReceiverMeshMetadata,
        DataObjectCollectionSchema.GetReceiverMeshMetadata, h]
    exact ⟨hr, by simp [ADIOS1DataAdaptor.GetMeshMetadata, hr]⟩
  · intro h hp senderMd hs
    have hsend : this.GetSenderMeshMetadata id none = (0, some senderMd) := by
      simp [ADIOS1DataAdaptor.GetSenderMeshMetadata,
        DataObjectCollectionSchema.GetSenderMeshMetadata, hs]
    by_cases hg : (BlockPartitioner (some senderMd)).1 = 0
    · simp [ADIOS1DataAdaptor.GetMeshMetadata, h, hp, hsend, hg]
    · simp [ADIOS1DataAdaptor.GetMeshMetadata, h, hp, hsend, hg]

/-- Witness for C11: on `sampleAdaptor`, which has a sender entry, no receiver entry
and no partitioner, the call returns the layout of the default partitioner. -/
theorem C11_GetMeshMetadata_witness :
    (sampleAdaptor.GetReceiverMeshMetadata 0 none).1 ≠ 0 ∧
    sampleAdaptor.GetPartitioner = none ∧
    sampleAdaptor.Schema.SenderMdMap.GetMeshMetadata 0 = some sampleSenderMd ∧
    (sampleAdaptor.GetMeshMetadata sampleBlockPartitioner 0 none).1 = 0 ∧
    (sampleAdaptor.GetMeshMetadata sampleBlockPartitioner 0 none).2.1 =
      (sampleBlockPartitioner (some sampleSenderMd)).2 :=
  ⟨by decide, rfl, by decide,
    ((C11_GetMeshMetadata sampleAdaptor sampleBlockPartitioner 0 none).2.2 (by decide) rfl
      sampleSenderMd (by decide)).1,
    ((C11_GetMeshMetadata sampleAdaptor sampleBlockPartitioner 0 none).2.2 (by decide) rfl
      sampleSenderMd (by decide)).2.1⟩

/-- C12 (failing input): `sampleAdaptor` has a sender entry for object 0, no receiver
entry and no partitioner.  `GetMeshMetadata(0)` returns the layout computed by the
default partitioner, and the receiver map of the adaptor is what it was: the entry of
object 0 is still not set, `GetReceiverMeshMetadata(0)` still fails, a second
`GetMeshMetadata(0)` fetches the sender metadata and runs the partitioner again, and
`ReadObject` of the mesh fails for want of receiver metadata, without reading.  Had the
computed layout been stored with `SetReceiverMeshMetadata`, `ReadObject` would find it. -/
theorem C12_GetMeshMetadata_does_not_cache :
    (sampleAdaptor.GetMeshMetadata sampleBlockPartitioner 0 none).1 = 0 ∧
    (sampleAdaptor.GetMeshMetadata sampleBlockPartitioner 0 none).2.1 =
      some { sampleSenderMd with BlockOwner := [0, 1] } ∧
    (sampleAdaptor.GetMeshMetadata sampleBlockPartitioner 0 none).2.2.1.Schema.ReceiverMdMap =
      ⟨[none]⟩ ∧
    ((sampleAdaptor.GetMeshMetadata sampleBlockPartitioner 0
      none).2.2.1.GetReceiverMeshMetadata 0 none).1 = -1 ∧
    (((sampleAdaptor.GetMeshMetadata sampleBlockPartitioner 0
      none).2.2.1).GetMeshMetadata sampleBlockPartitioner 0 none).2.2.2 =
      [AdaptorEvent.GetSenderMeshMetadata 0,
       AdaptorEvent.GetPartition true (some sampleSenderMd)] ∧
    (((sampleAdaptor.GetMeshMetadata sampleBlockPartitioner 0
      none).2.2.1).Schema.ReadObject sampleReadMesh "mesh" false).1 = -1 ∧
    (((sampleAdaptor.GetMeshMetadata sampleBlockPartitioner 0
      none).2.2.1).Schema.ReadObject sampleReadMesh "mesh" false).2.2.2 = [] ∧
    ((sampleAdaptor.Schema.SetReceiverMeshMetadata 0
      { sampleSenderMd with BlockOwner := [0, 1] }).2.ReadObject sampleReadMesh "mesh"
      false).1 = 0 := by
  decide

/-! ## Reading an object by name -/

theorem GetMeshId_none_of_unknown (m : MeshMetadataMap) (name : String)
    (h : ∀ md, some md ∈ m.entries → md.MeshName ≠ name) : m.GetMeshId name = none := by
  unfold MeshMetadataMap.GetMeshId
  rw [List.findIdx?_eq_none_iff]
  intro e he
  cases e with
  | none => rfl
  | some md => simpa using h md he

/-- C13: `DataObjectCollectionSchema::ReadObject(name, structure_only)`.  For a name that
is not the name of a mesh in the sender metadata map the call returns `-1`, leaves the
codec as it is and schedules no read.  On every failing path (unknown name, receiver
metadata not set, failure of `DataObjectSchema::ReadMesh`) the mesh handed back is the
null pointer; in general a non-zero return code comes with the null pointer.  The first
statement is also given for every name whose lookup `GetMeshId` in the sender map
fails. -/
theorem C13_ReadObject_failures {σ : Type} (this : DataObjectCollectionSchema σ)
    (readMesh : σ → Nat → MeshMetadata → Bool →
      Int × σ × Option vtkCompositeDataSet × List (Option ADIOS_SELECTION × String))
    (object_name : String) (structure_only : Bool) :
    ((∀ md, some md ∈ this.SenderMdMap.entries → md.MeshName ≠ object_name) →
      this.ReadObject readMesh object_name structure_only = (-1, this, none, [])) ∧
    (∀ doid, this.SenderMdMap.GetMeshId object_name = some doid →
      this.ReceiverMdMap.GetMeshMetadata doid = none →
      this.ReadObject readMesh object_name structure_only = (-1, this, none, [])) ∧
    (∀ doid md, this.SenderMdMap.GetMeshId object_name = some doid →
      this.ReceiverMdMap.GetMeshMetadata doid = some md →
      (readMesh this.DataObject doid md structure_only).1 ≠ 0 →
      (this.ReadObject readMesh object_name structure_only).1 = -1 ∧
      (this.ReadObject readMesh object_name structure_only).2.2.1 = none) ∧
    ((this.ReadObject readMesh object_name structure_only).1 ≠ 0 →
      (this.ReadObject readMesh object_name structure_only).1 = -1 ∧
      (this.ReadObject readMesh object_name structure_only).2.2.1 = none) ∧
    (this.SenderMdMap.GetMeshId object_name = none →
      this.ReadObject readMesh object_name structure_only = (-1, this, none, [])) := by
  have hnone : this.SenderMdMap.GetMeshId object_name = none →
      this.ReadObject readMesh object_name structure_only = (-1, this, none, []) := by
    intro hid
    simp [DataObjectCollectionSchema.ReadObject, DataObjectCollectionSchema.GetObjectId, hid]
  refine ⟨?_, ?_, ?_, ?_, hnone⟩
  · intro h
    exact hnone (GetMeshId_none_of_unknown _ _ h)
  · intro doid hid hmd
    simp [DataObjectCollectionSchema.ReadObject, DataObjectCollectionSchema.GetObjectId, hid,
      hmd]
  · intro doid md hid hmd hr
    simp [DataObjectCollectionSchema.ReadObject, DataObjectCollectionSchema.GetObjectId, hid,
      hmd, hr]
  · cases hid : this.SenderMdMap.GetMeshId object_name with
    | none =>
      simp [DataObjectCollectionSchema.ReadObject, DataObjectCollectionSchema.GetObjectId, hid]
    | some doid =>
      cases hmd : this.ReceiverMdMap.GetMeshMetadata doid with
      | none =>
        simp [DataObjectCollectionSchema.ReadObject, DataObjectCollectionSchema.GetObjectId,
          hid, hmd]
      | some md =>
        by_cases hr : (readMesh this.DataObject doid md structure_only).1 = 0
        · simp [DataObjectCollectionSchema.ReadObject, DataObjectCollectionSchema.GetObjectId,
            hid, hmd, hr]
        · simp [DataObjectCollectionSchema.ReadObject, DataObjectCollectionSchema.GetObjectId,
            hid, hmd, hr]

/-- Witness for C13: the sender map of `sampleAdaptor` knows the mesh `mesh` only; reading
`other` fails with the null pointer and without a read. -/
theorem C13_ReadObject_failures_witness :
    (∀ md, some md ∈ sampleAdaptor.Schema.SenderMdMap.entries → md.MeshName ≠ "other") ∧
    sampleAdaptor.Schema.ReadObject sampleReadMesh "other" false =
      (-1, sampleAdaptor.Schema, none, []) :=
  have h : ∀ md, some md ∈ sampleAdaptor.Schema.SenderMdMap.entries →
      md.MeshName ≠ "other" := by
    intro md hmd
    simp only [sampleAdaptor, List.mem_singleton, Option.some.injEq] at hmd
    subst hmd
    decide
  ⟨h, (C13_ReadObject_failures sampleAdaptor.Schema sampleReadMesh "other" false).1 h⟩

/-! ## Arrays filled with the owning rank -/

theorem FillComponent_new (n : Nat) (name : String) (v : Int) :
    ((vtkIntArray.New.SetNumberOfTuples n).SetName name).FillComponent 0 v =
      { Name := name, DataType := VTK_INT, NumberOfComponents := 1, NumberOfTuples := n,
        Values := List.replicate n v } := by
  simp only [vtkIntArray.New, vtkDataArray.SetNumberOfTuples, vtkDataArray.SetName,
    vtkDataArray.FillComponent, List.nil_append, Nat.mul_one, List.take_replicate,
    Nat.min_self, List.length_replicate, Nat.mod_one, if_true]
  congr 1
  apply List.ext_getElem
  · simp
  · intro k h1 h2
    simp

theorem GetArray_AddArray (dsa : List vtkDataArray) (a : vtkDataArray) :
    GetArray (AddArray dsa a) a.Name = some a := by
  unfold GetArray AddArray
  rw [List.find?_append]
  have h : (dsa.filter (fun b => !(b.Name == a.Name))).find? (fun b => b.Name == a.Name)
      = none := by
    rw [List.find?_eq_none]
    intro b hb
    have := (List.mem_filter.mp hb).2
    simpa using this
  rw [h]
  simp

/-- The block at position `k` after the loop of `AddBlockOwnerArray` ran `n` times from
block `j`: blocks `j ≤ k < j + n` that are not empty gained the array, every other
position is as before. -/
theorem AddBlockOwnerArray_loop_getD (name : String) (array_cen : Int) (md : MeshMetadata)
    (n : Nat) : ∀ (j : Nat) (dobj : vtkCompositeDataSet) (k : Nat),
    (DataObjectCollectionSchema.AddBlockOwnerArray.loop name array_cen md n j j dobj).getD k
        none =
      if j ≤ k ∧ k < j + n then
        (dobj.getD k none).map (fun ds =>
          if array_cen = vtkDataObject.POINT then
            { ds with
              PointData := AddArray ds.PointData (((vtkIntArray.New.SetNumberOfTuples
                (u64 (md.BlockNumPoints.getD k 0))).SetName name).FillComponent 0
                (md.BlockOwner.getD k 0)) }
          else
            { ds with
              CellData := AddArray ds.CellData (((vtkIntArray.New.SetNumberOfTuples
                (u64 (md.BlockNumCells.getD k 0))).SetName name).FillComponent 0
                (md.BlockOwner.getD k 0)) })
      else dobj.getD k none := by
  induction n with
  | zero =>
    intro j dobj k
    have : ¬ (j ≤ k ∧ k < j + 0) := by omega
    rw [DataObjectCollectionSchema.AddBlockOwnerArray.loop, if_neg this]
  | succ n ih =>
    intro j dobj k
    rw [DataObjectCollectionSchema.AddBlockOwnerArray.loop]
    simp only [GetCurrentDataObject]
    rw [ih]
    by_cases hk : k = j
    · subst hk
      have h1 : ¬ (k + 1 ≤ k ∧ k < k + 1 + n) := by omega
      have h2 : k ≤ k ∧ k < k + (n + 1) := by omega
      rw [if_neg h1, if_pos h2]
      cases hd : dobj.getD k none with
      | none => simp only [hd, Option.map_none']
      | some ds =>
        have hlt : k < dobj.length := by
          by_contra hge
          rw [List.getD_eq_default _ _ (by omega)] at hd
          cases hd
        have hget : ∀ x : Option vtkDataSet, (dobj.set k x).getD k none = x := by
          intro x
          simp [List.getD_eq_getElem?_getD, List.getElem?_set, hlt]
        simp only [Option.map_some', hget]
        by_cases hc : array_cen = vtkDataObject.POINT
        · simp only [hc, if_true]
        · simp only [hc, if_false]
    · have hset : ∀ x, (dobj.set j x).getD k none = dobj.getD k none := by
        intro x
        simp [List.getD_eq_getElem?_getD, List.getElem?_set, Ne.symm hk]
      have hd1 : (match dobj.getD j none with
          | some ds => dobj.set j (some (if array_cen = vtkDataObject.POINT then
              { ds with
                PointData := AddArray ds.PointData (((vtkIntArray.New.SetNumberOfTuples
                  (u64 (if array_cen = vtkDataObject.POINT
                    then md.BlockNumPoints.getD j 0 else md.BlockNumCells.getD j 0))).SetName
                  name).FillComponent 0 (md.BlockOwner.getD j 0)) }
              else
              { ds with
                CellData := AddArray ds.CellData (((vtkIntArray.New.SetNumberOfTuples
                  (u64 (if array_cen = vtkDataObject.POINT
                    then md.BlockNumPoints.getD j 0 else md.BlockNumCells.getD j 0))).SetName
                  name).FillComponent 0 (md.BlockOwner.getD j 0)) }))
          | none => dobj).getD k none = dobj.getD k none := by
        cases dobj.getD j none with
        | none => rfl
        | some ds => exact hset _
      rw [hd1]
      have hiff : (j + 1 ≤ k ∧ k < j + 1 + n) ↔ (j ≤ k ∧ k < j + (n + 1)) := by omega
      simp only [hiff]

/-- What `AddBlockOwnerArray` leaves in block `j < NumBlocks` when the block is not empty:
the attribute set chosen by the centering holds, under `name`, an integer array with one
component, the block's number of points (or cells) as number of tuples, and every entry
equal to `BlockOwner[j]`. -/
theorem AddBlockOwnerArray_block (name : String) (centering : Int) (md : MeshMetadata)
    (dobj : vtkCompositeDataSet) (j : Nat) (ds : vtkDataSet)
    (hds : dobj.getD j none = some ds) (hj : j < u32 md.NumBlocks) :
    ∃ ds1, (DataObjectCollectionSchema.AddBlockOwnerArray name centering md dobj).2.getD j
        none = some ds1 ∧
      GetArray (if centering = vtkDataObject.POINT then ds1.PointData else ds1.CellData)
        name =
        some { Name := name, DataType := VTK_INT, NumberOfComponents := 1,
               NumberOfTuples := u64 (if centering = vtkDataObject.POINT
                 then md.BlockNumPoints.getD j 0 else md.BlockNumCells.getD j 0),
               Values := List.replicate (u64 (if centering = vtkDataObject.POINT
                 then md.BlockNumPoints.getD j 0 else md.BlockNumCells.getD j 0))
                 (md.BlockOwner.getD j 0) } := by
  unfold DataObjectCollectionSchema.AddBlockOwnerArray
  simp only
  rw [AddBlockOwnerArray_loop_getD]
  have hr : 0 ≤ j ∧ j < 0 + u32 md.NumBlocks := by omega
  rw [if_pos hr, hds]
  simp only [Option.map_some', FillComponent_new]
  by_cases hc : centering = vtkDataObject.POINT
  · simp only [hc, if_true]
    exact ⟨_, rfl, GetArray_AddArray _ _⟩
  · simp only [hc, if_false]
    exact ⟨_, rfl, GetArray_AddArray _ _⟩

/-- Blocks that `AddBlockOwnerArray` does not reach, and empty blocks, stay as they are. -/
theorem AddBlockOwnerArray_frame (name : String) (centering : Int) (md : MeshMetadata)
    (dobj : vtkCompositeDataSet) (j : Nat)
    (hj : u32 md.NumBlocks ≤ j ∨ dobj.getD j none = none) :
    (DataObjectCollectionSchema.AddBlockOwnerArray name centering md dobj).2.getD j none =
      dobj.getD j none := by
  unfold DataObjectCollectionSchema.AddBlockOwnerArray
  simp only
  rw [AddBlockOwnerArray_loop_getD]
  by_cases hr : 0 ≤ j ∧ j < 0 + u32 md.NumBlocks
  · rw [if_pos hr]
    rcases hj with hj | hj
    · omega
    · rw [hj]; rfl
  · rw [if_neg hr]

/-- The owner branch of `DataObjectCollectionSchema::ReadArray` in closed form. -/
theorem ReadArray_owner_eq {σ : Type} (this : DataObjectCollectionSchema σ)
    (rank : Int) (iStream : InputStream) (object_name : String) (association : Int)
    (array_name : String) (cds : vtkCompositeDataSet) (doid : Nat) (md omd : MeshMetadata)
    (h : foundIn "BlockOwner".data array_name.data = true)
    (hid : this.SenderMdMap.GetMeshId object_name = some doid)
    (hmd : this.ReceiverMdMap.GetMeshMetadata doid = some md)
    (homd : (if foundAtStart "Sender".data array_name.data = true
      then this.SenderMdMap.GetMeshMetadata doid else some md) = some omd) :
    this.ReadArray rank iStream object_name association array_name (some cds) =
      (0, some (DataObjectCollectionSchema.AddBlockOwnerArray array_name association omd
        cds).2, []) := by
  have hcode : ∀ x, (DataObjectCollectionSchema.AddBlockOwnerArray array_name association x
      cds).1 = 0 := fun _ => rfl
  simp only [DataObjectCollectionSchema.ReadArray, DataObjectCollectionSchema.GetObjectId,
    hid, hmd, h, homd, hcode, if_true, ne_eq, not_true_eq_false, if_false]

/-- C14: `DataObjectCollectionSchema::ReadArray` with an array name that contains
`BlockOwner`.  No read is issued on the transport, whatever the return code.  When the
call returns 0, the mesh name resolved to an id, the object is a composite data set,
receiver metadata exists, and with `omd` the sender metadata if the name starts with
`Sender` and the receiver metadata otherwise: every non-empty block `j < omd.NumBlocks`
holds afterwards, in its point data for point centering and in its cell data otherwise,
an integer array of that name with `BlockNumPoints[j]` (`BlockNumCells[j]`) tuples, as an
`unsigned long long`, all equal to `BlockOwner[j]`; empty blocks and blocks from
`omd.NumBlocks` on are unchanged. -/
theorem C14_ReadArray_block_owner {σ : Type} (this : DataObjectCollectionSchema σ)
    (rank : Int) (iStream : InputStream) (object_name : String) (association : Int)
    (array_name : String) (dobj : Option vtkCompositeDataSet)
    (h : foundIn "BlockOwner".data array_name.data = true) :
    (this.ReadArray rank iStream object_name association array_name dobj).2.2 = [] ∧
    ((this.ReadArray rank iStream object_name association array_name dobj).1 = 0 →
      ∃ doid md omd cds res,
        this.SenderMdMap.GetMeshId object_name = some doid ∧
        dobj = some cds ∧
        this.ReceiverMdMap.GetMeshMetadata doid = some md ∧
        (if foundAtStart "Sender".data array_name.data = true
          then this.SenderMdMap.GetMeshMetadata doid else some md) = some omd ∧
        (this.ReadArray rank iStream object_name association array_name dobj).2.1 =
          some res ∧
        (∀ j ds, cds.getD j none = some ds → j < u32 omd.NumBlocks →
          ∃ ds1, res.getD j none = some ds1 ∧
            GetArray (if association = vtkDataObject.POINT then ds1.PointData
              else ds1.CellData) array_name =
              some { Name := array_name, DataType := VTK_INT, NumberOfComponents := 1,
                     NumberOfTuples := u64 (if association = vtkDataObject.POINT
                       then omd.BlockNumPoints.getD j 0 else omd.BlockNumCells.getD j 0),
                     Values := List.replicate (u64 (if association = vtkDataObject.POINT
                       then omd.BlockNumPoints.getD j 0 else omd.BlockNumCells.getD j 0))
                       (omd.BlockOwner.getD j 0) }) ∧
        (∀ j, u32 omd.NumBlocks ≤ j ∨ cds.getD j none = none →
          res.getD j none = cds.getD j none)) := by
  cases hid : this.SenderMdMap.GetMeshId object_name with
  | none =>
    simp [DataObjectCollectionSchema.ReadArray, DataObjectCollectionSchema.GetObjectId, hid]
  | some doid =>
    cases dobj with
    | none =>
      simp [DataObjectCollectionSchema.ReadArray, DataObjectCollectionSchema.GetObjectId, hid]
    | some cds =>
      cases hmd : this.ReceiverMdMap.GetMeshMetadata doid with
      | none =>
        simp [DataObjectCollectionSchema.ReadArray, DataObjectCollectionSchema.GetObjectId,
          hid, hmd]
      | some md =>
        cases homd : (if foundAtStart "Sender".data array_name.data = true
            then this.SenderMdMap.GetMeshMetadata doid else some md) with
        | none =>
          simp only [DataObjectCollectionSchema.ReadArray,
            DataObjectCollectionSchema.GetObjectId, hid, hmd, h, homd, if_true, ne_eq,
            not_true_eq_false, if_false]
          simp
        | some omd =>
          rw [ReadArray_owner_eq this rank iStream object_name association array_name cds
            doid md omd h hid hmd homd]
          refine ⟨rfl, fun _ => ⟨doid, md, omd, cds, _, rfl, rfl, hmd, homd, rfl, ?_, ?_⟩⟩
          · intro j ds hds hj
            exact AddBlockOwnerArray_block array_name association omd cds j ds hds hj
          · intro j hj
            exact AddBlockOwnerArray_frame array_name association omd cds j hj

/-- Witness for C14: `SenderBlockOwner` on a rank that holds block 1 of two blocks. -/
theorem C14_ReadArray_block_owner_witness :
    foundIn "BlockOwner".data "SenderBlockOwner".data = true ∧
    (sampleOwnerCollection.ReadArray 0 sampleMetadataStream "mesh" vtkDataObject.POINT
      "SenderBlockOwner" (some sampleOwnerComposite)).2.2 = [] ∧
    (sampleOwnerCollection.ReadArray 0 sampleMetadataStream "mesh" vtkDataObject.POINT
      "SenderBlockOwner" (some sampleOwnerComposite)).2.1 =
      some [none, some { PointData := [
        { Name := "SenderBlockOwner", DataType := VTK_INT, NumberOfTuples := 6,
          Values := [3, 3, 3, 3, 3, 3] }] }] :=
  ⟨by decide,
    (C14_ReadArray_block_owner sampleOwnerCollection 0 sampleMetadataStream "mesh"
      vtkDataObject.POINT "SenderBlockOwner" (some sampleOwnerComposite) (by decide)).1,
    by decide⟩

/-! ## Writing the arrays of a mesh -/

theorem WriteArray_loop_step (rank : Int) (i : Nat) (name : String) (cen : Int)
    (dobj : vtkCompositeDataSet) (nb : Nat) (owner : List Int)
    (putVars : List (Option adios2_variable)) (n j : Nat) (puts : List BlockPut) :
    ArraySchema.WriteArray.loop rank i name cen dobj nb owner putVars (n + 1) j j puts =
      if owner[j]? = some rank then
        match arrayOfBlock dobj cen name j with
        | none => (-1, puts)
        | some da =>
          ArraySchema.WriteArray.loop rank i name cen dobj nb owner putVars n (j + 1) (j + 1)
            (puts ++ [⟨j, u32 (i * nb + j), putVars.getD (u32 (i * nb + j)) none, da⟩])
      else
        ArraySchema.WriteArray.loop rank i name cen dobj nb owner putVars n (j + 1) (j + 1)
          puts := by
  rw [ArraySchema.WriteArray.loop]
  unfold arrayOfBlock
  by_cases ho : owner[j]? = some rank
  · simp only [ho, if_true]
    cases hd : GetCurrentDataObject dobj j with
    | none => rfl
    | some ds =>
      simp only [Option.some_bind]
  · simp only [ho, if_false]

/-- The per-array write loop fails as soon as an owned block has no array to write. -/
theorem WriteArray_loop_fail (rank : Int) (i : Nat) (name : String) (cen : Int)
    (dobj : vtkCompositeDataSet) (nb : Nat) (owner : List Int)
    (putVars : List (Option adios2_variable)) (n : Nat) :
    ∀ (j : Nat) (puts : List BlockPut),
      (∃ k, j ≤ k ∧ k < j + n ∧ owner[k]? = some rank ∧ arrayOfBlock dobj cen name k = none) →
      (ArraySchema.WriteArray.loop rank i name cen dobj nb owner putVars n j j puts).1 = -1 := by
  induction n with
  | zero =>
    intro j puts ⟨k, h1, h2, _⟩
    omega
  | succ n ih =>
    intro j puts ⟨k, h1, h2, ho, ha⟩
    rw [WriteArray_loop_step]
    by_cases hk : k = j
    · subst hk
      simp only [ho, if_true, ha]
    · have hex : ∃ k, j + 1 ≤ k ∧ k < j + 1 + n ∧ owner[k]? = some rank ∧
          arrayOfBlock dobj cen name k = none := ⟨k, by omega, by omega, ho, ha⟩
      by_cases hoj : owner[j]? = some rank
      · simp only [hoj, if_true]
        cases arrayOfBlock dobj cen name j with
        | none => rfl
        | some da => exact ih (j + 1) _ hex
      · simp only [hoj, if_false]
        exact ih (j + 1) _ hex

/-- The per-array write loop in closed form when every owned block has its array: one
put per owned block, in block order. -/
theorem WriteArray_loop_closed (rank : Int) (i : Nat) (name : String) (cen : Int)
    (dobj : vtkCompositeDataSet) (nb : Nat) (owner : List Int)
    (putVars : List (Option adios2_variable)) (n : Nat) :
    ∀ (j : Nat) (puts : List BlockPut),
      (∀ k, j ≤ k → k < j + n → owner[k]? = some rank →
        arrayOfBlock dobj cen name k ≠ none) →
      ArraySchema.WriteArray.loop rank i name cen dobj nb owner putVars n j j puts =
        (0, puts ++ (List.range' j n).filterMap (fun k =>
          if owner[k]? = some rank then
            (arrayOfBlock dobj cen name k).map (fun da =>
              (⟨k, u32 (i * nb + k), putVars.getD (u32 (i * nb + k)) none, da⟩ : BlockPut))
          else none)) := by
  induction n with
  | zero =>
    intro j puts _
    simp [ArraySchema.WriteArray.loop]
  | succ n ih =>
    intro j puts hall
    rw [WriteArray_loop_step]
    have hrest : ∀ k, j + 1 ≤ k → k < j + 1 + n → owner[k]? = some rank →
        arrayOfBlock dobj cen name k ≠ none :=
      fun k h1 h2 ho => hall k (by omega) (by omega) ho
    by_cases hoj : owner[j]? = some rank
    · simp only [hoj, if_true]
      cases ha : arrayOfBlock dobj cen name j with
      | none => exact absurd ha (hall j (le_refl _) (by omega) hoj)
      | some da =>
        simp only []
        rw [ih (j + 1) _ hrest]
        simp [List.range'_succ, List.filterMap_cons, hoj, ha]
    · simp only [hoj, if_false]
      rw [ih (j + 1) _ hrest]
      simp [List.range'_succ, List.filterMap_cons, hoj]

/-- The per-array write returns 0 or -1; it returns 0 exactly when every owned block has
the array. -/
theorem WriteArray_code (rank : Int) (i : Nat) (name : String) (cen : Int)
    (dobj : vtkCompositeDataSet) (nb : Nat) (owner : List Int)
    (putVars : List (Option adios2_variable)) :
    ((ArraySchema.WriteArray rank i name cen dobj nb owner putVars).1 = 0 ↔
      ∀ k, k < nb → owner[k]? = some rank → arrayOfBlock dobj cen name k ≠ none) ∧
    ((ArraySchema.WriteArray rank i name cen dobj nb owner putVars).1 ≠ 0 →
      (ArraySchema.WriteArray rank i name cen dobj nb owner putVars).1 = -1) := by
  unfold ArraySchema.WriteArray
  by_cases hall : ∀ k, k < nb → owner[k]? = some rank → arrayOfBlock dobj cen name k ≠ none
  · have hc := WriteArray_loop_closed rank i name cen dobj nb owner putVars nb 0 []
      (fun k _ h2 ho => hall k (by omega) ho)
    rw [hc]
    exact ⟨⟨fun _ => hall, fun _ => rfl⟩, fun h => absurd rfl h⟩
  · have hex : ∃ k, 0 ≤ k ∧ k < 0 + nb ∧ owner[k]? = some rank ∧
        arrayOfBlock dobj cen name k = none := by
      push_neg at hall
      obtain ⟨k, h1, h2, h3⟩ := hall
      exact ⟨k, Nat.zero_le _, by omega, h2, h3⟩
    have hf := WriteArray_loop_fail rank i name cen dobj nb owner putVars nb 0 [] hex
    rw [hf]
    exact ⟨⟨fun h => absurd h (by decide), fun h => absurd h hall⟩, fun _ => rfl⟩

theorem u32_index_ne (a nb k k2 : Nat) (hnb : nb ≤ 2 ^ 32) (h1 : k < k2) (h2 : k2 < nb) :
    u32 (a + k2) ≠ u32 (a + k) := by
  unfold u32
  norm_num at hnb ⊢
  omega

theorem DefineVariable_loop_length (rank : Int) (ans : String) (ty : adios2_type)
    (i c : Nat) (cen : Int) (tot nb : Nat) (bnp bnc : List Nat) (owner : List Int)
    (n : Nat) : ∀ (j : Nat) (st : ArraySchema.DefineState),
    (ArraySchema.DefineVariable.loop rank ans ty i c cen tot nb bnp bnc owner n j
      st).put_vars.length = st.put_vars.length := by
  induction n with
  | zero => intro j st; rfl
  | succ n ih =>
    intro j st
    rw [ArraySchema.DefineVariable.loop, ih]
    by_cases ho : owner[j]? = some rank
    · simp [ho]
    · simp [ho]

/-- A position of the handle table that no owned block of the rest of the loop maps to
keeps its content. -/
theorem DefineVariable_loop_frame (rank : Int) (ans : String) (ty : adios2_type)
    (i c : Nat) (cen : Int) (tot nb : Nat) (bnp bnc : List Nat) (owner : List Int)
    (idx : Nat) (n : Nat) : ∀ (j : Nat) (st : ArraySchema.DefineState),
    (∀ k, j ≤ k → k < j + n → owner[k]? = some rank → u32 (i * nb + k) ≠ idx) →
    (ArraySchema.DefineVariable.loop rank ans ty i c cen tot nb bnp bnc owner n j
      st).put_vars.getD idx none = st.put_vars.getD idx none := by
  induction n with
  | zero => intro j st _; rfl
  | succ n ih =>
    intro j st hne
    rw [ArraySchema.DefineVariable.loop,
      ih (j + 1) _ (fun k h1 h2 ho => hne k (by omega) (by omega) ho)]
    by_cases ho : owner[j]? = some rank
    · have hj := hne j (le_refl _) (by omega) ho
      simp [ho, List.getD_eq_getElem?_getD, List.getElem?_set, hj]
    · simp [ho]

/-- The handle table after the block loop of `DefineVariable`: the position
`i*num_blocks + k` of an owned block `k` holds the handle declared for that block, when
the position is inside the table. -/
theorem DefineVariable_loop_table (rank : Int) (ans : String) (ty : adios2_type)
    (i c : Nat) (cen : Int) (tot nb : Nat) (bnp bnc : List Nat) (owner : List Int)
    (hnb : nb ≤ 2 ^ 32) (k : Nat) (hko : owner[k]? = some rank) (n : Nat) :
    ∀ (j : Nat) (st : ArraySchema.DefineState),
    st.block_offset =
      u64 (c * (((if cen = vtkDataObject.POINT then bnp else bnc).take j).sum)) →
    j ≤ k → k < j + n → j + n ≤ nb → u32 (i * nb + k) < st.put_vars.length →
    (ArraySchema.DefineVariable.loop rank ans ty i c cen tot nb bnp bnc owner n j
      st).put_vars.getD (u32 (i * nb + k)) none =
      some ⟨ans ++ "data", ty,
        u64 ((if cen = vtkDataObject.POINT then bnp else bnc).getD k 0 * c), tot,
        u64 (c * (((if cen = vtkDataObject.POINT then bnp else bnc).take k).sum))⟩ := by
  induction n with
  | zero => intro j st _ h1 h2; omega
  | succ n ih =>
    intro j st h h1 h2 h3 hlen
    rw [ArraySchema.DefineVariable.loop, sel_getD]
    by_cases hk : k = j
    · subst hk
      rw [DefineVariable_loop_frame _ _ _ _ _ _ _ _ _ _ _ _ _ _ _
        (fun k2 g1 g2 _ => u32_index_ne (i * nb) nb k k2 hnb (by omega) (by omega))]
      simp [hko, h, List.getD_eq_getElem?_getD, List.getElem?_set, hlen]
    · apply ih (j + 1)
      · by_cases ho : owner[j]? = some rank
        · simp only [ho, if_true, h]
          rw [u64_offset_step, sum_take_succ]
        · simp only [ho, if_false, h]
          rw [u64_offset_step, sum_take_succ]
      · omega
      · omega
      · omega
      · by_cases ho : owner[j]? = some rank
        · simpa [ho] using hlen
        · simpa [ho] using hlen

/-- The handle table returned by `ArraySchema::DefineVariable`: for an owned block `k`
the position `i*num_blocks + k`, when inside the table, holds the handle that was
declared for block `k`. -/
theorem DefineVariable_table (rank : Int) (ons : String) (i : Nat) (ty : Int) (c : Nat)
    (cen : Int) (npt nct nb : Nat) (bnp bnc : List Nat) (owner : List Int)
    (put_vars : List (Option adios2_variable))
    (hcen : cen = vtkDataObject.POINT ∨ cen = vtkDataObject.CELL) (hnb : nb ≤ 2 ^ 32)
    (k : Nat) (hk : k < nb) (hko : owner[k]? = some rank)
    (hlen : u32 (i * nb + k) < put_vars.length) :
    (ArraySchema.DefineVariable rank ons i ty c cen npt nct nb bnp bnc owner
      put_vars).2.1.getD (u32 (i * nb + k)) none =
      some ⟨ons ++ "data_array_" ++ toString i ++ "/" ++ "data", adiosType ty,
        u64 ((if cen = vtkDataObject.POINT then bnp else bnc).getD k 0 * c),
        u64 ((if cen = vtkDataObject.POINT then npt else nct) * c),
        u64 (c * (((if cen = vtkDataObject.POINT then bnp else bnc).take k).sum))⟩ := by
  have hn : ¬(cen ≠ vtkDataObject.POINT ∧ cen ≠ vtkDataObject.CELL) := by
    rcases hcen with h | h <;> simp [h]
  unfold ArraySchema.DefineVariable
  simp only [hn, if_false]
  rw [DefineVariable_loop_table rank _ _ i c cen _ nb bnp bnc owner hnb k hko nb 0 _
    (by simp [u64]) (Nat.zero_le _) (by omega) (by omega) hlen]

theorem Write_call_good (rank : Int) (md : MeshMetadata) (dobj : vtkCompositeDataSet)
    (putVars : List (Option adios2_variable)) (c : WriteCall) (st : ArraySchema.WriteState)
    (h0 : (ArraySchema.Write.call rank md dobj putVars c st).1 = 0)
    (hg : (∀ d ∈ st.calls, (ArraySchema.WriteArray rank d.i d.array_name d.array_cen dobj
        (u32 md.NumBlocks) md.BlockOwner putVars).1 = 0) ∧
      st.puts = st.calls.flatMap (fun d => (ArraySchema.WriteArray rank d.i d.array_name
        d.array_cen dobj (u32 md.NumBlocks) md.BlockOwner putVars).2)) :
    (∀ d ∈ (ArraySchema.Write.call rank md dobj putVars c st).2.calls,
      (ArraySchema.WriteArray rank d.i d.array_name d.array_cen dobj
        (u32 md.NumBlocks) md.BlockOwner putVars).1 = 0) ∧
    (ArraySchema.Write.call rank md dobj putVars c st).2.puts =
      (ArraySchema.Write.call rank md dobj putVars c st).2.calls.flatMap (fun d =>
        (ArraySchema.WriteArray rank d.i d.array_name d.array_cen dobj (u32 md.NumBlocks)
          md.BlockOwner putVars).2) := by
  unfold ArraySchema.Write.call at h0 ⊢
  simp only at h0 ⊢
  refine ⟨?_, ?_⟩
  · intro d hd
    rcases List.mem_append.mp hd with hd | hd
    · exact hg.1 d hd
    · rw [List.mem_singleton.mp hd]; exact h0
  · rw [hg.2]
    simp [List.flatMap_append]

/-- A successful run of the loop over the data arrays of the per-mesh `Write`: every
call made returned 0 and the puts are those of the calls, in order. -/
theorem Write_loop_good (rank : Int) (md : MeshMetadata) (dobj : vtkCompositeDataSet)
    (putVars : List (Option adios2_variable)) (n : Nat) :
    ∀ (i : Nat) (st : ArraySchema.WriteState),
    (ArraySchema.Write.loop rank md dobj putVars n i st).1 = 0 →
    ((∀ d ∈ st.calls, (ArraySchema.WriteArray rank d.i d.array_name d.array_cen dobj
        (u32 md.NumBlocks) md.BlockOwner putVars).1 = 0) ∧
      st.puts = st.calls.flatMap (fun d => (ArraySchema.WriteArray rank d.i d.array_name
        d.array_cen dobj (u32 md.NumBlocks) md.BlockOwner putVars).2)) →
    (∀ d ∈ (ArraySchema.Write.loop rank md dobj putVars n i st).2.calls,
      (ArraySchema.WriteArray rank d.i d.array_name d.array_cen dobj
        (u32 md.NumBlocks) md.BlockOwner putVars).1 = 0) ∧
    (ArraySchema.Write.loop rank md dobj putVars n i st).2.puts =
      (ArraySchema.Write.loop rank md dobj putVars n i st).2.calls.flatMap (fun d =>
        (ArraySchema.WriteArray rank d.i d.array_name d.array_cen dobj (u32 md.NumBlocks)
          md.BlockOwner putVars).2) := by
  induction n with
  | zero => intro i st _ hg; exact hg
  | succ n ih =>
    intro i st h0 hg
    rw [ArraySchema.Write.loop] at h0 ⊢
    by_cases hr : (ArraySchema.Write.call rank md dobj putVars
        ⟨i, md.ArrayName.getD i "", md.ArrayCentering.getD i 0⟩ st).1 = 0
    · simp only [hr, ne_eq, not_true_eq_false, if_false] at h0 ⊢
      exact ih (i + 1) _ h0 (Write_call_good rank md dobj putVars _ st hr hg)
    · simp only [hr, ne_eq, not_false_eq_true, if_true] at h0
      exact absurd h0 (by decide)

/-- A successful per-mesh `ArraySchema::Write`: every per-array call made returned 0, the
puts issued are those of the calls in order, and the calls start with one call per data
array. -/
theorem Write_good (this : ArraySchema) (rank : Int) (md : MeshMetadata)
    (dobj : vtkCompositeDataSet) (h0 : (ArraySchema.Write this rank md dobj).1 = 0) :
    (∀ d ∈ (ArraySchema.Write this rank md dobj).2.2,
      (ArraySchema.WriteArray rank d.i d.array_name d.array_cen dobj
        (u32 md.NumBlocks) md.BlockOwner (this.getPutVars md.MeshName)).1 = 0) ∧
    (ArraySchema.Write this rank md dobj).2.1 =
      (ArraySchema.Write this rank md dobj).2.2.flatMap (fun d =>
        (ArraySchema.WriteArray rank d.i d.array_name d.array_cen dobj (u32 md.NumBlocks)
          md.BlockOwner (this.getPutVars md.MeshName)).2) ∧
    (∀ a, a < u32 md.NumArrays →
      (⟨a, md.ArrayName.getD a "", md.ArrayCentering.getD a 0⟩ : WriteCall) ∈
        (ArraySchema.Write this rank md dobj).2.2) := by
  obtain ⟨m, hm, hc, hret⟩ := Write_loop_calls rank md dobj (this.getPutVars md.MeshName)
    (u32 md.NumArrays) 0 {}
  have hinit : (∀ d ∈ ({} : ArraySchema.WriteState).calls,
      (ArraySchema.WriteArray rank d.i d.array_name d.array_cen dobj
        (u32 md.NumBlocks) md.BlockOwner (this.getPutVars md.MeshName)).1 = 0) ∧
      ({} : ArraySchema.WriteState).puts = ({} : ArraySchema.WriteState).calls.flatMap
        (fun d => (ArraySchema.WriteArray rank d.i d.array_name
          d.array_cen dobj (u32 md.NumBlocks) md.BlockOwner
          (this.getPutVars md.MeshName)).2) :=
    ⟨fun d hd => absurd hd (List.not_mem_nil d), rfl⟩
  unfold ArraySchema.Write at h0 ⊢
  simp only at h0 ⊢
  by_cases hl : (ArraySchema.Write.loop rank md dobj (this.getPutVars md.MeshName)
      (u32 md.NumArrays) 0 {}).1 = 0
  · have hg := Write_loop_good rank md dobj (this.getPutVars md.MeshName)
      (u32 md.NumArrays) 0 {} hl hinit
    have hmem : ∀ a, a < u32 md.NumArrays →
        (⟨a, md.ArrayName.getD a "", md.ArrayCentering.getD a 0⟩ : WriteCall) ∈
          (ArraySchema.Write.loop rank md dobj (this.getPutVars md.MeshName)
            (u32 md.NumArrays) 0 {}).2.calls := by
      intro a ha
      rw [hc, hret hl]
      simp only [List.nil_append, List.mem_map]
      exact ⟨a, by simp [List.mem_range'_1, ha], rfl⟩
    simp only [hl, ne_eq, not_true_eq_false, if_false] at h0 ⊢
    by_cases hgc : md.NumGhostCells ≠ 0
    · simp only [hgc, ne_eq, not_false_eq_true, if_true] at h0 ⊢
      by_cases h1 : (ArraySchema.Write.call rank md dobj (this.getPutVars md.MeshName)
          ⟨u32 md.NumArrays, "vtkGhostType", vtkDataObject.CELL⟩
          (ArraySchema.Write.loop rank md dobj (this.getPutVars md.MeshName)
            (u32 md.NumArrays) 0 {}).2).1 = 0
      · have hg1 := Write_call_good rank md dobj _ _ _ h1 hg
        simp only [h1, not_true_eq_false, if_false] at h0 ⊢
        by_cases hgn : md.NumGhostNodes ≠ 0
        · simp only [hgn, ne_eq, not_false_eq_true, if_true] at h0 ⊢
          by_cases h2 : (ArraySchema.Write.call rank md dobj (this.getPutVars md.MeshName)
              ⟨u32 (u32 md.NumArrays + 1), "vtkGhostType", vtkDataObject.POINT⟩
              (ArraySchema.Write.call rank md dobj (this.getPutVars md.MeshName)
                ⟨u32 md.NumArrays, "vtkGhostType", vtkDataObject.CELL⟩
                (ArraySchema.Write.loop rank md dobj (this.getPutVars md.MeshName)
                  (u32 md.NumArrays) 0 {}).2).2).1 = 0
          · have hg2 := Write_call_good rank md dobj _ _ _ h2 hg1
            simp only [h2, not_true_eq_false, if_false]
            refine ⟨hg2.1, hg2.2, fun a ha => ?_⟩
            rw [Write_call_calls, Write_call_calls]
            exact List.mem_append_left _ (List.mem_append_left _ (hmem a ha))
          · simp only [h2, not_false_eq_true, if_true] at h0
            exact absurd h0 (by decide)
        · simp only [hgn, if_false, not_true_eq_false] at h0 ⊢
          refine ⟨hg1.1, hg1.2, fun a ha => ?_⟩
          rw [Write_call_calls]
          exact List.mem_append_left _ (hmem a ha)
      · simp only [h1, not_false_eq_true, if_true] at h0
        exact absurd h0 (by decide)
    · simp only [hgc, if_false, not_true_eq_false] at h0 ⊢
      by_cases hgn : md.NumGhostNodes ≠ 0
      · simp only [hgn, ne_eq, not_false_eq_true, if_true] at h0 ⊢
        by_cases h2 : (ArraySchema.Write.call rank md dobj (this.getPutVars md.MeshName)
            ⟨u32 md.NumArrays, "vtkGhostType", vtkDataObject.POINT⟩
            (ArraySchema.Write.loop rank md dobj (this.getPutVars md.MeshName)
              (u32 md.NumArrays) 0 {}).2).1 = 0
        · have hg2 := Write_call_good rank md dobj _ _ _ h2 hg
          simp only [h2, not_true_eq_false, if_false]
          refine ⟨hg2.1, hg2.2, fun a ha => ?_⟩
          rw [Write_call_calls]
          exact List.mem_append_left _ (hmem a ha)
        · simp only [h2, not_false_eq_true, if_true] at h0
          exact absurd h0 (by decide)
      · simp only [hgn, if_false, not_true_eq_false] at h0 ⊢
        exact ⟨hg.1, hg.2, hmem⟩
  · simp only [hl, ne_eq, not_false_eq_true, if_true] at h0
    exact absurd h0 (by decide)

theorem Write_code (this : ArraySchema) (rank : Int) (md : MeshMetadata)
    (dobj : vtkCompositeDataSet) :
    (ArraySchema.Write this rank md dobj).1 = 0 ∨
      (ArraySchema.Write this rank md dobj).1 = -1 := by
  unfold ArraySchema.Write
  simp only
  split_ifs <;> simp

/-- C15: `ArraySchema::Write`.  The per-array `Write` (slot `i`, name, centering) returns
`-1` whenever some block `j < num_blocks` owned by the local rank is null or lacks an array
of that name in the attribute set selected by the centering; when it returns 0 it has
issued exactly one deferred put per owned block, in block order, for block `k` on the
handle found at position `i*num_blocks + k` of the handle table, with the array of that
block as data.  That position is where `ArraySchema::DefineVariable` of slot `i` stores
the handle it declares for block `k`: when the position is inside the table, the table
returned by `DefineVariable` holds there the handle declared for block `k`.  The per-mesh
`Write` returns `-1` whenever an owned block lacks one of the data arrays named by the
metadata; when it returns 0 every per-array call it made returned 0 and its puts are
those of its calls in order. -/
theorem C15_ArraySchema_Write (this : ArraySchema) (rank : Int) (md : MeshMetadata)
    (dobj : vtkCompositeDataSet) (i : Nat) (array_name : String) (array_cen : Int)
    (num_blocks : Nat) (block_owner : List Int) (putVars : List (Option adios2_variable)) :
    ((∃ j, j < num_blocks ∧ block_owner[j]? = some rank ∧
        arrayOfBlock dobj array_cen array_name j = none) →
      (ArraySchema.WriteArray rank i array_name array_cen dobj num_blocks block_owner
        putVars).1 = -1) ∧
    ((ArraySchema.WriteArray rank i array_name array_cen dobj num_blocks block_owner
        putVars).1 = 0 →
      (∀ k, k < num_blocks → block_owner[k]? = some rank →
        arrayOfBlock dobj array_cen array_name k ≠ none) ∧
      (ArraySchema.WriteArray rank i array_name array_cen dobj num_blocks block_owner
        putVars).2 =
        (List.range' 0 num_blocks).filterMap (fun k =>
          if block_owner[k]? = some rank then
            (arrayOfBlock dobj array_cen array_name k).map (fun da =>
              (⟨k, u32 (i * num_blocks + k), putVars.getD (u32 (i * num_blocks + k)) none,
                da⟩ : BlockPut))
          else none)) ∧
    (∀ (ons : String) (ty : Int) (c : Nat) (cen : Int) (npt nct : Nat) (bnp bnc : List Nat)
        (pv : List (Option adios2_variable)) (k : Nat),
      (cen = vtkDataObject.POINT ∨ cen = vtkDataObject.CELL) → num_blocks ≤ 2 ^ 32 →
      k < num_blocks → block_owner[k]? = some rank → u32 (i * num_blocks + k) < pv.length →
      ∃ v, (⟨k, u32 (i * num_blocks + k), v⟩ : BlockVar) ∈
          (ArraySchema.DefineVariable rank ons i ty c cen npt nct num_blocks bnp bnc
            block_owner pv).2.2 ∧
        (ArraySchema.DefineVariable rank ons i ty c cen npt nct num_blocks bnp bnc
          block_owner pv).2.1.getD (u32 (i * num_blocks + k)) none = some v) ∧
    ((∃ a j, a < u32 md.NumArrays ∧ j < u32 md.NumBlocks ∧ md.BlockOwner[j]? = some rank ∧
        arrayOfBlock dobj (md.ArrayCentering.getD a 0) (md.ArrayName.getD a "") j = none) →
      (ArraySchema.Write this rank md dobj).1 = -1) ∧
    ((ArraySchema.Write this rank md dobj).1 = 0 →
      (∀ d ∈ (ArraySchema.Write this rank md dobj).2.2,
        (ArraySchema.WriteArray rank d.i d.array_name d.array_cen dobj
          (u32 md.NumBlocks) md.BlockOwner (this.getPutVars md.MeshName)).1 = 0) ∧
      (ArraySchema.Write this rank md dobj).2.1 =
        (ArraySchema.Write this rank md dobj).2.2.flatMap (fun d =>
          (ArraySchema.WriteArray rank d.i d.array_name d.array_cen dobj (u32 md.NumBlocks)
            md.BlockOwner (this.getPutVars md.MeshName)).2)) := by
  have hcode := WriteArray_code rank i array_name array_cen dobj num_blocks block_owner
    putVars
  refine ⟨?_, ?_, ?_, ?_, ?_⟩
  · rintro ⟨j, hj, ho, ha⟩
    apply hcode.2
    intro h0
    exact (hcode.1.mp h0) j hj ho ha
  · intro h0
    have hall := hcode.1.mp h0
    refine ⟨hall, ?_⟩
    unfold ArraySchema.WriteArray
    rw [WriteArray_loop_closed rank i array_name array_cen dobj num_blocks block_owner
      putVars num_blocks 0 [] (fun k _ h2 ho => hall k (by omega) ho)]
    rfl
  · intro ons ty c cen npt nct bnp bnc pv k hcen hnb hk hko hlen
    refine ⟨_, ?_, DefineVariable_table rank ons i ty c cen npt nct num_blocks bnp bnc
      block_owner pv hcen hnb k hk hko hlen⟩
    rw [(DefineVariable_defined rank ons i ty c cen npt nct num_blocks bnp bnc block_owner
      pv hcen).2]
    exact List.mem_filterMap.mpr ⟨k, by simp [List.mem_range'_1, hk], if_pos hko⟩
  · rintro ⟨a, j, ha, hj, ho, hn⟩
    rcases Write_code this rank md dobj with h0 | h1
    · exfalso
      have hg := Write_good this rank md dobj h0
      have hz := hg.1 _ (hg.2.2 a ha)
      exact ((WriteArray_code rank a (md.ArrayName.getD a "") (md.ArrayCentering.getD a 0)
        dobj (u32 md.NumBlocks) md.BlockOwner (this.getPutVars md.MeshName)).1.mp hz)
        j hj ho hn
    · exact h1
  · intro h0
    have hg := Write_good this rank md dobj h0
    exact ⟨hg.1, hg.2.1⟩

/-! ## The composite operations of DataObjectSchema -/

theorem invoke_eq_invokeInOrder {σ : Type} (op : SubCodec → σ → Int × σ) (c : SubCodec) :
    invoke op c = invokeInOrder op [c] := by
  funext st
  simp only [invokeInOrder]
  split
  · rfl
  · rename_i h
    exact Prod.ext (by simpa using h) rfl

theorem logicalOr_invokeInOrder {σ : Type} (op : SubCodec → σ → Int × σ)
    (as bs : List SubCodec) :
    logicalOr (invokeInOrder op as) (invokeInOrder op bs) = invokeInOrder op (as ++ bs) := by
  funext st
  induction as generalizing st with
  | nil => simp [logicalOr, invokeInOrder]
  | cons a as ih =>
    simp only [List.cons_append, invokeInOrder]
    by_cases h : (invoke op a st).1 = true
    · simp [logicalOr, invokeInOrder, h]
    · have ih2 := ih (invoke op a st).2
      simp only [logicalOr] at ih2 ⊢
      simp only [invokeInOrder, h]
      simpa using ih2

theorem logicalAnd_invokeInOrder {σ : Type} (op : SubCodec → σ → Int × σ) (c : Bool)
    (cs : List SubCodec) :
    logicalAnd c (invokeInOrder op cs) = invokeInOrder op (if c then cs else []) := by
  funext st
  cases c <;> simp [logicalAnd, invokeInOrder]

theorem invokeInOrder_cons {σ : Type} (op : SubCodec → σ → Int × σ) (c : SubCodec)
    (cs : List SubCodec) (st : σ × List (SubCodec × Int)) :
    invokeInOrder op (c :: cs) st =
      if (invoke op c st).1 = true then invoke op c st
      else invokeInOrder op cs (invoke op c st).2 := by
  simp only [invokeInOrder]

/-- What a run of `invokeInOrder` adds to the record: the members invoked are an initial
part of the list, in order; when the run ends without failure it is the whole list and
every code is 0; when it ends with failure the last invocation returned non-zero and
every one before it returned 0. -/
theorem invokeInOrder_spec {σ : Type} (op : SubCodec → σ → Int × σ) (cs : List SubCodec) :
    ∀ st : σ × List (SubCodec × Int),
    ∃ ext, (invokeInOrder op cs st).2.2 = st.2 ++ ext ∧
      (∃ rest, ext.map Prod.fst ++ rest = cs) ∧
      ((invokeInOrder op cs st).1 = false →
        ext.map Prod.fst = cs ∧ ∀ e ∈ ext, e.2 = 0) ∧
      ((invokeInOrder op cs st).1 = true →
        ∃ pre last, ext = pre ++ [last] ∧ last.2 ≠ 0 ∧ ∀ e ∈ pre, e.2 = 0) := by
  induction cs with
  | nil =>
    intro st
    exact ⟨[], by simp [invokeInOrder], ⟨[], rfl⟩, fun _ => ⟨rfl, by simp⟩,
      fun h => by simp [invokeInOrder] at h⟩
  | cons c cs ih =>
    intro st
    simp only [invokeInOrder]
    by_cases h : (invoke op c st).1 = true
    · simp only [h, if_true]
      have hne : (op c st.1).1 ≠ 0 := by simpa [invoke] using h
      refine ⟨[(c, (op c st.1).1)], rfl, ⟨cs, rfl⟩, fun hf => by simp at hf,
        fun _ => ⟨[], (c, (op c st.1).1), rfl, hne, by simp⟩⟩
    · simp only [h, if_false, Bool.false_eq_true]
      have h0 : (op c st.1).1 = 0 := by simpa [invoke] using h
      obtain ⟨ext, hlog, ⟨rest, hrest⟩, hok, hfail⟩ := ih (invoke op c st).2
      refine ⟨(c, (op c st.1).1) :: ext, ?_, ⟨rest, ?_⟩, ?_, ?_⟩
      · rw [hlog]
        simp [invoke]
      · simp [hrest]
      · intro hf
        obtain ⟨h1, h2⟩ := hok hf
        refine ⟨by simp [h1], ?_⟩
        intro e he
        rcases List.mem_cons.mp he with he | he
        · rw [he]; exact h0
        · exact h2 e he
      · intro ht
        obtain ⟨pre, last, h1, h2, h3⟩ := hfail ht
        refine ⟨(c, (op c st.1).1) :: pre, last, by simp [h1], h2, ?_⟩
        intro e he
        rcases List.mem_cons.mp he with he | he
        · rw [he]; exact h0
        · exact h3 e he

/-- `DataObjectSchema::DefineVariables` runs its seven members in order and stops after
the first that fails. -/
theorem DefineVariables_in_order {σ : Type} (op : SubCodec → σ → Int × σ) (s : σ) :
    DataObjectSchema.DefineVariables op s =
      (if (invokeInOrder op [SubCodec.DataArrays, SubCodec.Points,
          SubCodec.UnstructuredCells, SubCodec.PolydataCells, SubCodec.UniformCartesian,
          SubCodec.StretchedCartesian, SubCodec.LogicallyCartesian] (s, [])).1 = true
        then -1 else 0,
       (invokeInOrder op [SubCodec.DataArrays, SubCodec.Points,
          SubCodec.UnstructuredCells, SubCodec.PolydataCells, SubCodec.UniformCartesian,
          SubCodec.StretchedCartesian, SubCodec.LogicallyCartesian] (s, [])).2) := by
  unfold DataObjectSchema.DefineVariables
  simp only [invoke_eq_invokeInOrder, logicalOr_invokeInOrder, List.cons_append,
    List.nil_append]
  split <;> rfl

/-- `DataObjectSchema::Write` runs its seven members in order and stops after the first
that fails. -/
theorem Write_in_order {σ : Type} (op : SubCodec → σ → Int × σ) (s : σ) :
    DataObjectSchema.Write op s =
      (if (invokeInOrder op [SubCodec.DataArrays, SubCodec.Points,
          SubCodec.UnstructuredCells, SubCodec.PolydataCells, SubCodec.UniformCartesian,
          SubCodec.StretchedCartesian, SubCodec.LogicallyCartesian] (s, [])).1 = true
        then -1 else 0,
       (invokeInOrder op [SubCodec.DataArrays, SubCodec.Points,
          SubCodec.UnstructuredCells, SubCodec.PolydataCells, SubCodec.UniformCartesian,
          SubCodec.StretchedCartesian, SubCodec.LogicallyCartesian] (s, [])).2) := by
  unfold DataObjectSchema.Write
  simp only [invoke_eq_invokeInOrder, logicalOr_invokeInOrder, List.cons_append,
    List.nil_append]
  split <;> rfl

/-- `DataObjectSchema::ReadMesh` runs `InitializeDataObject`, then, unless
`structure_only`, the point and cell reads, then the three coordinate and extent reads,
and stops after the first that fails. -/
theorem ReadMesh_in_order {σ : Type} (op : SubCodec → σ → Int × σ) (s : σ)
    (structure_only : Bool) :
    DataObjectSchema.ReadMesh op s structure_only =
      (if (invokeInOrder op (SubCodec.InitializeDataObject ::
          ((if structure_only then [] else [SubCodec.Points, SubCodec.UnstructuredCells,
            SubCodec.PolydataCells]) ++
          [SubCodec.UniformCartesian, SubCodec.StretchedCartesian,
            SubCodec.LogicallyCartesian])) (s, [])).1 = true
        then -1 else 0,
       (invokeInOrder op (SubCodec.InitializeDataObject ::
          ((if structure_only then [] else [SubCodec.Points, SubCodec.UnstructuredCells,
            SubCodec.PolydataCells]) ++
          [SubCodec.UniformCartesian, SubCodec.StretchedCartesian,
            SubCodec.LogicallyCartesian])) (s, [])).2) := by
  unfold DataObjectSchema.ReadMesh
  rw [invokeInOrder_cons]
  simp only [logicalOr_invokeInOrder, logicalAnd_invokeInOrder,
    invoke_eq_invokeInOrder op SubCodec.Points,
    invoke_eq_invokeInOrder op SubCodec.UnstructuredCells,
    invoke_eq_invokeInOrder op SubCodec.PolydataCells,
    invoke_eq_invokeInOrder op SubCodec.UniformCartesian,
    invoke_eq_invokeInOrder op SubCodec.StretchedCartesian,
    invoke_eq_invokeInOrder op SubCodec.LogicallyCartesian,
    List.cons_append, List.nil_append]
  by_cases h0 : (invoke op SubCodec.InitializeDataObject (s, [])).1 = true
  · simp only [h0, if_true]
  · simp only [h0, if_false, Bool.false_eq_true]
    cases structure_only
    · simp only [Bool.not_false, if_true, Bool.false_eq_true, if_false, List.cons_append,
        List.nil_append]
      split_ifs <;> rfl
    · simp only [Bool.not_true, if_true, Bool.false_eq_true, if_false, List.cons_append,
        List.nil_append]
      split_ifs <;> rfl

/-- The record of a run of `invokeInOrder` from an empty record: the members invoked are
an initial part of the list, the whole list when no member fails; the run fails exactly
when some recorded code is non-zero; every invocation but the last returned 0. -/
theorem invokeInOrder_record {σ : Type} (op : SubCodec → σ → Int × σ)
    (cs : List SubCodec) (s : σ) :
    (∃ rest, (invokeInOrder op cs (s, [])).2.2.map Prod.fst ++ rest = cs) ∧
    ((invokeInOrder op cs (s, [])).1 = false →
      (invokeInOrder op cs (s, [])).2.2.map Prod.fst = cs) ∧
    ((invokeInOrder op cs (s, [])).1 = true ↔
      ∃ e ∈ (invokeInOrder op cs (s, [])).2.2, e.2 ≠ 0) ∧
    (∀ e ∈ (invokeInOrder op cs (s, [])).2.2.dropLast, e.2 = 0) := by
  obtain ⟨ext, hlog, hrest, hok, hfail⟩ := invokeInOrder_spec op cs (s, [])
  simp only [List.nil_append] at hlog
  rw [hlog]
  refine ⟨hrest, fun h => (hok h).1, ?_, ?_⟩
  · constructor
    · intro h
      obtain ⟨pre, last, h1, h2, _⟩ := hfail h
      exact ⟨last, by simp [h1], h2⟩
    · rintro ⟨e, he, hne⟩
      by_contra hf
      have hf2 : (invokeInOrder op cs (s, [])).1 = false := by simpa using hf
      exact hne ((hok hf2).2 e he)
  · intro e he
    cases hb : (invokeInOrder op cs (s, [])).1 with
    | false => exact (hok hb).2 e (List.mem_of_mem_dropLast he)
    | true =>
      obtain ⟨pre, last, h1, _, h3⟩ := hfail hb
      rw [h1, List.dropLast_concat] at he
      exact h3 e he

/-- A composite operation that is an in-order run: it returns non-zero exactly when some
recorded code is non-zero, every invocation but the last returned 0, and the return code
is 0 or -1. -/
theorem composite_of_in_order {σ : Type} (op : SubCodec → σ → Int × σ)
    (cs : List SubCodec) (s : σ) (r : Int × σ × List (SubCodec × Int))
    (h : r = (if (invokeInOrder op cs (s, [])).1 = true then -1 else 0,
      (invokeInOrder op cs (s, [])).2)) :
    (r.1 ≠ 0 ↔ ∃ e ∈ r.2.2, e.2 ≠ 0) ∧ (∀ e ∈ r.2.2.dropLast, e.2 = 0) ∧
    (r.1 = 0 ∨ r.1 = -1) ∧ (∃ rest, r.2.2.map Prod.fst ++ rest = cs) ∧
    (r.1 = 0 → r.2.2.map Prod.fst = cs) := by
  obtain ⟨h1, h2, h3, h4⟩ := invokeInOrder_record op cs s
  subst h
  simp only
  cases hb : (invokeInOrder op cs (s, [])).1 with
  | false =>
    simp only [Bool.false_eq_true, if_false]
    refine ⟨⟨fun hne => absurd rfl hne, fun hex => ?_⟩, h4, Or.inl trivial, h1, fun _ => h2 hb⟩
    have := h3.mpr hex
    rw [hb] at this
    cases this
  | true =>
    simp only [if_true]
    refine ⟨⟨fun _ => h3.mp hb, fun _ => by decide⟩, h4, Or.inr trivial, h1, fun h0 => ?_⟩
    exact absurd h0 (by decide)

/-- C16: `DataObjectSchema::ReadMesh` and `structure_only`.  With `structure_only = true`
the call is the in-order run of `InitializeDataObject` and the uniform-Cartesian,
stretched-Cartesian and logically-Cartesian reads, stopping after the first failure: no
point, unstructured-cell or polygonal-cell read is invoked, and on success exactly those
four were invoked, in that order.  With `structure_only = false` it is the in-order run
of `InitializeDataObject`, the point, unstructured-cell and polygonal-cell reads and
then the three coordinate and extent reads. -/
theorem C16_ReadMesh_structure_only {σ : Type} (op : SubCodec → σ → Int × σ) (s : σ) :
    DataObjectSchema.ReadMesh op s true =
      (if (invokeInOrder op [SubCodec.InitializeDataObject, SubCodec.UniformCartesian,
          SubCodec.StretchedCartesian, SubCodec.LogicallyCartesian] (s, [])).1 = true
        then -1 else 0,
       (invokeInOrder op [SubCodec.InitializeDataObject, SubCodec.UniformCartesian,
          SubCodec.StretchedCartesian, SubCodec.LogicallyCartesian] (s, [])).2) ∧
    (∀ e ∈ (DataObjectSchema.ReadMesh op s true).2.2,
      e.1 ≠ SubCodec.Points ∧ e.1 ≠ SubCodec.UnstructuredCells ∧
      e.1 ≠ SubCodec.PolydataCells) ∧
    ((DataObjectSchema.ReadMesh op s true).1 = 0 →
      (DataObjectSchema.ReadMesh op s true).2.2.map Prod.fst =
        [SubCodec.InitializeDataObject, SubCodec.UniformCartesian,
          SubCodec.StretchedCartesian, SubCodec.LogicallyCartesian]) ∧
    DataObjectSchema.ReadMesh op s false =
      (if (invokeInOrder op [SubCodec.InitializeDataObject, SubCodec.Points,
          SubCodec.UnstructuredCells, SubCodec.PolydataCells, SubCodec.UniformCartesian,
          SubCodec.StretchedCartesian, SubCodec.LogicallyCartesian] (s, [])).1 = true
        then -1 else 0,
       (invokeInOrder op [SubCodec.InitializeDataObject, SubCodec.Points,
          SubCodec.UnstructuredCells, SubCodec.PolydataCells, SubCodec.UniformCartesian,
          SubCodec.StretchedCartesian, SubCodec.LogicallyCartesian] (s, [])).2) ∧
    (∃ rest, (DataObjectSchema.ReadMesh op s false).2.2.map Prod.fst ++ rest =
      [SubCodec.InitializeDataObject, SubCodec.Points, SubCodec.UnstructuredCells,
        SubCodec.PolydataCells, SubCodec.UniformCartesian, SubCodec.StretchedCartesian,
        SubCodec.LogicallyCartesian]) ∧
    ((DataObjectSchema.ReadMesh op s false).1 = 0 →
      (DataObjectSchema.ReadMesh op s false).2.2.map Prod.fst =
        [SubCodec.InitializeDataObject, SubCodec.Points, SubCodec.UnstructuredCells,
          SubCodec.PolydataCells, SubCodec.UniformCartesian, SubCodec.StretchedCartesian,
          SubCodec.LogicallyCartesian]) ∧
    (DataObjectSchema.ReadMesh sampleAllSucceed 0 true).2.2 =
      [(SubCodec.InitializeDataObject, 0), (SubCodec.UniformCartesian, 0),
        (SubCodec.StretchedCartesian, 0), (SubCodec.LogicallyCartesian, 0)] := by
  have ht : DataObjectSchema.ReadMesh op s true = _ := ReadMesh_in_order op s true
  have hf : DataObjectSchema.ReadMesh op s false = _ := ReadMesh_in_order op s false
  simp only [if_true, Bool.false_eq_true, if_false, List.nil_append, List.cons_append]
    at ht hf
  obtain ⟨_, _, _, ht4, ht5⟩ := composite_of_in_order op _ s _ ht
  obtain ⟨_, _, _, hf4, hf5⟩ := composite_of_in_order op _ s _ hf
  refine ⟨ht, ?_, ht5, hf, hf4, hf5, by decide⟩
  intro e he
  obtain ⟨rest, hrest⟩ := ht4
  have hmem : e.1 ∈ (DataObjectSchema.ReadMesh op s true).2.2.map Prod.fst ++ rest :=
    List.mem_append_left _ (List.mem_map_of_mem _ he)
  rw [hrest] at hmem
  simp only [List.mem_cons, List.mem_singleton, List.not_mem_nil, or_false] at hmem
  rcases hmem with h | h | h | h <;> rw [h] <;> decide

/-- C17: failure of the composite operations.  Each of
`DataObjectSchema::DefineVariables`, `DataObjectSchema::Write` and
`DataObjectSchema::ReadMesh` returns non-zero (and then `-1`) if and only if some member
it invoked (for `ReadMesh` also `InitializeDataObject`) returned non-zero, and every
invocation it made except the last one returned 0: nothing is invoked after the first
failure.  The members invoked are an initial part of the operation's order. -/
theorem C17_composite_failure {σ : Type} (op : SubCodec → σ → Int × σ) (s : σ)
    (structure_only : Bool) :
    (((DataObjectSchema.DefineVariables op s).1 ≠ 0 ↔
        ∃ e ∈ (DataObjectSchema.DefineVariables op s).2.2, e.2 ≠ 0) ∧
      (∀ e ∈ (DataObjectSchema.DefineVariables op s).2.2.dropLast, e.2 = 0) ∧
      ((DataObjectSchema.DefineVariables op s).1 = 0 ∨
        (DataObjectSchema.DefineVariables op s).1 = -1) ∧
      ∃ rest, (DataObjectSchema.DefineVariables op s).2.2.map Prod.fst ++ rest =
        [SubCodec.DataArrays, SubCodec.Points, SubCodec.UnstructuredCells,
          SubCodec.PolydataCells, SubCodec.UniformCartesian, SubCodec.StretchedCartesian,
          SubCodec.LogicallyCartesian]) ∧
    (((DataObjectSchema.Write op s).1 ≠ 0 ↔
        ∃ e ∈ (DataObjectSchema.Write op s).2.2, e.2 ≠ 0) ∧
      (∀ e ∈ (DataObjectSchema.Write op s).2.2.dropLast, e.2 = 0) ∧
      ((DataObjectSchema.Write op s).1 = 0 ∨ (DataObjectSchema.Write op s).1 = -1) ∧
      ∃ rest, (DataObjectSchema.Write op s).2.2.map Prod.fst ++ rest =
        [SubCodec.DataArrays, SubCodec.Points, SubCodec.UnstructuredCells,
          SubCodec.PolydataCells, SubCodec.UniformCartesian, SubCodec.StretchedCartesian,
          SubCodec.LogicallyCartesian]) ∧
    (((DataObjectSchema.ReadMesh op s structure_only).1 ≠ 0 ↔
        ∃ e ∈ (DataObjectSchema.ReadMesh op s structure_only).2.2, e.2 ≠ 0) ∧
      (∀ e ∈ (DataObjectSchema.ReadMesh op s structure_only).2.2.dropLast, e.2 = 0) ∧
      ((DataObjectSchema.ReadMesh op s structure_only).1 = 0 ∨
        (DataObjectSchema.ReadMesh op s structure_only).1 = -1) ∧
      ∃ rest, (DataObjectSchema.ReadMesh op s structure_only).2.2.map Prod.fst ++ rest =
        SubCodec.InitializeDataObject ::
          ((if structure_only then [] else [SubCodec.Points, SubCodec.UnstructuredCells,
            SubCodec.PolydataCells]) ++
          [SubCodec.UniformCartesian, SubCodec.StretchedCartesian,
            SubCodec.LogicallyCartesian])) ∧
    DataObjectSchema.Write sampleStretchedFails 0 =
      (-1, 6, [(SubCodec.DataArrays, 0), (SubCodec.Points, 0),
        (SubCodec.UnstructuredCells, 0), (SubCodec.PolydataCells, 0),
        (SubCodec.UniformCartesian, 0), (SubCodec.StretchedCartesian, -1)]) := by
  obtain ⟨d1, d2, d3, d4, _⟩ := composite_of_in_order op _ s _ (DefineVariables_in_order op s)
  obtain ⟨w1, w2, w3, w4, _⟩ := composite_of_in_order op _ s _ (Write_in_order op s)
  obtain ⟨r1, r2, r3, r4, _⟩ := composite_of_in_order op _ s _
    (ReadMesh_in_order op s structure_only)
  exact ⟨⟨d1, d2, d3, d4⟩, ⟨w1, w2, w3, w4⟩, ⟨r1, r2, r3, r4⟩, by decide⟩

/-! ## Geometry codecs on a mesh of another kind -/

/-- C20: for each of the six geometry codecs (`PointSchema`, `UnstructuredCellSchema`,
`PolydataCellSchema`, `LogicallyCartesianSchema`, `UniformCartesianSchema`,
`StretchedCartesianSchema`) and each of `DefineVariables`, `Write` and `Read`: when the
kind test of the codec is false on the metadata, the operation returns 0 and leaves the
state as it was, whatever the guarded block does: no variable is declared, no put and no
read is issued, the handle maps of the codec and the composite object are unchanged.
On metadata of image-data kind a polygonal-cell `Write` whose block would put an array
and fail returns 0 with no put, while the same block under the uniform-Cartesian codec
runs. -/
theorem C20_kind_mismatch_is_no_op (u : VTKUtils) (md : MeshMetadata) (ons : String) :
    ((u.Unstructured md || u.Structured md || u.Polydata md) = false →
      (∀ body st, PointSchema.DefineVariables u body ons md st = (0, st)) ∧
      (∀ body st, PointSchema.Write u body md st = (0, st)) ∧
      (∀ body st, PointSchema.Read u body ons md st = (0, st))) ∧
    (u.Unstructured md = false →
      (∀ body st, UnstructuredCellSchema.DefineVariables u body ons md st = (0, st)) ∧
      (∀ body st, UnstructuredCellSchema.Write u body md st = (0, st)) ∧
      (∀ body st, UnstructuredCellSchema.Read u body ons md st = (0, st))) ∧
    (u.Polydata md = false →
      (∀ body st, PolydataCellSchema.DefineVariables u body ons md st = (0, st)) ∧
      (∀ body st, PolydataCellSchema.Write u body md st = (0, st)) ∧
      (∀ body st, PolydataCellSchema.Read u body ons md st = (0, st))) ∧
    (u.LogicallyCartesian md = false →
      (∀ body st, LogicallyCartesianSchema.DefineVariables u body ons md st = (0, st)) ∧
      (∀ body st, LogicallyCartesianSchema.Write u body md st = (0, st)) ∧
      (∀ body st, LogicallyCartesianSchema.Read u body ons md st = (0, st))) ∧
    (u.UniformCartesian md = false →
      (∀ body st, UniformCartesianSchema.DefineVariables u body ons md st = (0, st)) ∧
      (∀ body st, UniformCartesianSchema.Write u body md st = (0, st)) ∧
      (∀ body st, UniformCartesianSchema.Read u body ons md st = (0, st))) ∧
    (u.StretchedCartesian md = false →
      (∀ body st, StretchedCartesianSchema.DefineVariables u body ons md st = (0, st)) ∧
      (∀ body st, StretchedCartesianSchema.Write u body md st = (0, st)) ∧
      (∀ body st, StretchedCartesianSchema.Read u body ons md st = (0, st))) ∧
    (PolydataCellSchema.Write sampleVTKUtils (fun _ => samplePuttingBlock _)
        { BlockType := 6 } { codec := {} }).1 = 0 ∧
    (PolydataCellSchema.Write sampleVTKUtils (fun _ => samplePuttingBlock _)
        { BlockType := 6 } { codec := {} }).2.puts = [] ∧
    (UniformCartesianSchema.Write sampleVTKUtils (fun _ => samplePuttingBlock _)
        { BlockType := 6 } { codec := {} }).1 = -1 ∧
    (UniformCartesianSchema.Write sampleVTKUtils (fun _ => samplePuttingBlock _)
        { BlockType := 6 } { codec := {} }).2.puts = [(none, {})] := by
  refine ⟨?_, ?_, ?_, ?_, ?_, ?_, by decide, by decide, by decide, by decide⟩
  · intro h
    refine ⟨fun body st => ?_, fun body st => ?_, fun body st => ?_⟩
    · simp [PointSchema.DefineVariables, h]
    · simp [PointSchema.Write, h]
    · simp [PointSchema.Read, h]
  · intro h
    refine ⟨fun body st => ?_, fun body st => ?_, fun body st => ?_⟩
    · simp [UnstructuredCellSchema.DefineVariables, h]
    · simp [UnstructuredCellSchema.Write, h]
    · simp [UnstructuredCellSchema.Read, h]
  · intro h
    refine ⟨fun body st => ?_, fun body st => ?_, fun body st => ?_⟩
    · simp [PolydataCellSchema.DefineVariables, h]
    · simp [PolydataCellSchema.Write, h]
    · simp [PolydataCellSchema.Read, h]
  · intro h
    refine ⟨fun body st => ?_, fun body st => ?_, fun body st => ?_⟩
    · simp [LogicallyCartesianSchema.DefineVariables, h]
    · simp [LogicallyCartesianSchema.Write, h]
    · simp [LogicallyCartesianSchema.Read, h]
  · intro h
    refine ⟨fun body st => ?_, fun body st => ?_, fun body st => ?_⟩
    · simp [UniformCartesianSchema.DefineVariables, h]
    · simp [UniformCartesianSchema.Write, h]
    · simp [UniformCartesianSchema.Read, h]
  · intro h
    refine ⟨fun body st => ?_, fun body st => ?_, fun body st => ?_⟩
    · simp [StretchedCartesianSchema.DefineVariables, h]
    · simp [StretchedCartesianSchema.Write, h]
    · simp [StretchedCartesianSchema.Read, h]

/-! ## The order of the members in the composite operations -/

theorem invokeInOrder_first {σ : Type} (op : SubCodec → σ → Int × σ) (c : SubCodec)
    (cs : List SubCodec) (s : σ) :
    ((invokeInOrder op (c :: cs) (s, [])).2.2.map Prod.fst).head? = some c := by
  rw [invokeInOrder_cons]
  by_cases h : (invoke op c (s, [])).1 = true
  · rw [if_pos h]
    simp [invoke]
  · rw [if_neg h]
    obtain ⟨ext, hlog, _⟩ := invokeInOrder_spec op cs (invoke op c (s, [])).2
    rw [hlog]
    simp [invoke]

/-- C21 (counterexample): with member operations that all succeed,
`DataObjectSchema::DefineVariables` and `DataObjectSchema::Write` invoke the data-array
codec first, before the point codec and every other geometry, coordinate and extent
codec; so it is not invoked after all of them. -/
theorem C21_data_arrays_are_not_last :
    (DataObjectSchema.DefineVariables sampleAllSucceed 0).2.2.map Prod.fst =
      [SubCodec.DataArrays, SubCodec.Points, SubCodec.UnstructuredCells,
        SubCodec.PolydataCells, SubCodec.UniformCartesian, SubCodec.StretchedCartesian,
        SubCodec.LogicallyCartesian] ∧
    (DataObjectSchema.Write sampleAllSucceed 0).2.2.map Prod.fst =
      [SubCodec.DataArrays, SubCodec.Points, SubCodec.UnstructuredCells,
        SubCodec.PolydataCells, SubCodec.UniformCartesian, SubCodec.StretchedCartesian,
        SubCodec.LogicallyCartesian] ∧
    ¬ (∀ c ∈ (DataObjectSchema.DefineVariables sampleAllSucceed 0).2.2.map Prod.fst,
        c ≠ SubCodec.DataArrays →
        List.indexOf c ((DataObjectSchema.DefineVariables sampleAllSucceed 0).2.2.map
            Prod.fst) <
          List.indexOf SubCodec.DataArrays
            ((DataObjectSchema.DefineVariables sampleAllSucceed 0).2.2.map Prod.fst)) ∧
    ¬ (∀ c ∈ (DataObjectSchema.Write sampleAllSucceed 0).2.2.map Prod.fst,
        c ≠ SubCodec.DataArrays →
        List.indexOf c ((DataObjectSchema.Write sampleAllSucceed 0).2.2.map Prod.fst) <
          List.indexOf SubCodec.DataArrays
            ((DataObjectSchema.Write sampleAllSucceed 0).2.2.map Prod.fst)) := by
  decide

/-- C21 (amended): for every mesh and whatever the member operations do,
`DataObjectSchema::DefineVariables` and `DataObjectSchema::Write` process the members in
the fixed order data arrays, points, unstructured cells, polygonal cells, uniform
Cartesian, stretched Cartesian, logically Cartesian: the members invoked are an initial
part of that list, the whole list when the operation returns 0, and every invocation
is preceded by that of the data-array codec, which is the first. -/
theorem C21_sub_codec_order {σ : Type} (op : SubCodec → σ → Int × σ) (s : σ) :
    ((∃ rest, (DataObjectSchema.DefineVariables op s).2.2.map Prod.fst ++ rest =
        [SubCodec.DataArrays, SubCodec.Points, SubCodec.UnstructuredCells,
          SubCodec.PolydataCells, SubCodec.UniformCartesian, SubCodec.StretchedCartesian,
          SubCodec.LogicallyCartesian]) ∧
      ((DataObjectSchema.DefineVariables op s).1 = 0 →
        (DataObjectSchema.DefineVariables op s).2.2.map Prod.fst =
          [SubCodec.DataArrays, SubCodec.Points, SubCodec.UnstructuredCells,
            SubCodec.PolydataCells, SubCodec.UniformCartesian, SubCodec.StretchedCartesian,
            SubCodec.LogicallyCartesian]) ∧
      ((DataObjectSchema.DefineVariables op s).2.2.map Prod.fst).head? =
        some SubCodec.DataArrays) ∧
    ((∃ rest, (DataObjectSchema.Write op s).2.2.map Prod.fst ++ rest =
        [SubCodec.DataArrays, SubCodec.Points, SubCodec.UnstructuredCells,
          SubCodec.PolydataCells, SubCodec.UniformCartesian, SubCodec.StretchedCartesian,
          SubCodec.LogicallyCartesian]) ∧
      ((DataObjectSchema.Write op s).1 = 0 →
        (DataObjectSchema.Write op s).2.2.map Prod.fst =
          [SubCodec.DataArrays, SubCodec.Points, SubCodec.UnstructuredCells,
            SubCodec.PolydataCells, SubCodec.UniformCartesian, SubCodec.StretchedCartesian,
            SubCodec.LogicallyCartesian]) ∧
      ((DataObjectSchema.Write op s).2.2.map Prod.fst).head? = some SubCodec.DataArrays) := by
  have hd := DefineVariables_in_order op s
  have hw := Write_in_order op s
  obtain ⟨_, _, _, d4, d5⟩ := composite_of_in_order op _ s _ hd
  obtain ⟨_, _, _, w4, w5⟩ := composite_of_in_order op _ s _ hw
  refine ⟨⟨d4, d5, ?_⟩, ⟨w4, w5, ?_⟩⟩
  · rw [hd]
    exact invokeInOrder_first op _ _ s
  · rw [hw]
    exact invokeInOrder_first op _ _ s

/-! ## The ghost arrays in the handle table -/

/-- C24 (failing input): `sampleGhostMd` has two blocks, one data array and both ghost
flags set.  `ArraySchema::DefineVariables` succeeds and leaves the handle table of the
mesh with 4 entries, `num_blocks * (NumArrays + 1)`, not the 6 entries
`num_blocks * (NumArrays + 2)`: in `md->NumGhostCells ? 1 : 0 + md->NumGhostNodes ? 1 : 0`
the second flag is only looked at when the first is not set. -/
theorem C24_one_ghost_slot_for_two_flags :
    sampleGhostMd.NumGhostCells ≠ 0 ∧ sampleGhostMd.NumGhostNodes ≠ 0 ∧
    (ArraySchema.DefineVariables {} 0 "data_object_0/" sampleGhostMd).1 = 0 ∧
    ((ArraySchema.DefineVariables {} 0 "data_object_0/" sampleGhostMd).2.1.getPutVars
      sampleGhostMd.MeshName).length = 4 ∧
    sampleGhostMd.NumBlocks * (sampleGhostMd.NumArrays + 1) = 4 ∧
    sampleGhostMd.NumBlocks * (sampleGhostMd.NumArrays + 2) = 6 := by
  decide

/-- C26 (failing input): on `sampleGhostMd` (two blocks owned by rank 0, one data array,
both ghost flags set) `ArraySchema::DefineVariables` resizes the handle table to 4
entries and stores handles at the positions 0, 1 (data array), 2, 3 (cell ghost array)
and 4, 5 (node ghost array): the last two stores are outside the table. -/
theorem C26_node_ghost_handles_outside_table :
    (ArraySchema.DefineVariables {} 0 "data_object_0/" sampleGhostMd).1 = 0 ∧
    ((ArraySchema.DefineVariables {} 0 "data_object_0/" sampleGhostMd).2.1.getPutVars
      sampleGhostMd.MeshName).length = 4 ∧
    (ArraySchema.DefineVariables {} 0 "data_object_0/" sampleGhostMd).2.2.1.map
      (fun v => (v.block, v.index)) = [(0, 0), (1, 1), (0, 2), (1, 3), (0, 4), (1, 5)] ∧
    (ArraySchema.DefineVariables {} 0 "data_object_0/" sampleGhostMd).2.2.2 =
      [⟨0, VTK_DOUBLE, 1, vtkDataObject.POINT⟩,
       ⟨1, VTK_UNSIGNED_CHAR, 1, vtkDataObject.CELL⟩,
       ⟨2, VTK_UNSIGNED_CHAR, 1, vtkDataObject.POINT⟩] := by
  decide

/-- C27 (failing input): `sampleNodeGhostMd` has one data array, a node ghost array and
no cell ghost array.  `ArraySchema::DefineVariables` declares the node ghost array in
slot 1 (`data_array_1`) and the per-mesh `ArraySchema::Write` writes it from slot 1,
while `ArraySchema::Read` of the point centered `vtkGhostType` looks in slot 2
(`data_array_2`). -/
theorem C27_node_ghost_slot_differs_on_read :
    sampleNodeGhostMd.NumGhostCells = 0 ∧ sampleNodeGhostMd.NumGhostNodes ≠ 0 ∧
    (ArraySchema.DefineVariables {} 0 "data_object_0/" sampleNodeGhostMd).1 = 0 ∧
    (ArraySchema.DefineVariables {} 0 "data_object_0/" sampleNodeGhostMd).2.2.2 =
      [⟨0, VTK_DOUBLE, 1, vtkDataObject.POINT⟩,
       ⟨1, VTK_UNSIGNED_CHAR, 1, vtkDataObject.POINT⟩] ∧
    ((ArraySchema.DefineVariables {} 0 "data_object_0/" sampleNodeGhostMd).2.2.1.map
      (fun v => v.var.path)).eraseDups =
      ["data_object_0/data_array_0/data", "data_object_0/data_array_1/data"] ∧
    (ArraySchema.Write {} 0 sampleNodeGhostMd sampleGhostObj).1 = 0 ∧
    (ArraySchema.Write {} 0 sampleNodeGhostMd sampleGhostObj).2.2 =
      [⟨0, "p", vtkDataObject.POINT⟩, ⟨1, "vtkGhostType", vtkDataObject.POINT⟩] ∧
    (ArraySchema.Read 0 sampleEmptyFile "data_object_0/" "vtkGhostType" vtkDataObject.POINT
      sampleNodeGhostMd sampleGhostObj).2.2.2 =
      some ⟨2, "vtkGhostType", VTK_UNSIGNED_CHAR, 1, vtkDataObject.POINT⟩ ∧
    (ArraySchema.Read 0 sampleEmptyFile "data_object_0/" "vtkGhostType" vtkDataObject.POINT
      sampleNodeGhostMd sampleGhostObj).2.2.1.map (fun r => r.path) =
      ["data_object_0/data_array_2/data", "data_object_0/data_array_2/data"] := by
  decide

/-! ## A partitioner that fails -/

/-- C29 (failing input): `sampleAdaptor` has sender metadata for object 0, no receiver
entry and no partitioner, and the default partitioner reports failure, leaving no
receiver metadata.  `GetMeshMetadata(0)` logs the failure, closes the stream and still
returns 0, with the null metadata that the partitioner left; the same holds when the
failing partitioner is the configured one. -/
theorem C29_GetMeshMetadata_succeeds_after_failed_partition :
    (sampleAdaptor.GetReceiverMeshMetadata 0 none).1 ≠ 0 ∧
    (sampleFailingPartitioner (some sampleSenderMd)).1 ≠ 0 ∧
    (sampleAdaptor.GetMeshMetadata sampleFailingPartitioner 0 none).1 = 0 ∧
    (sampleAdaptor.GetMeshMetadata sampleFailingPartitioner 0 none).2.1 = none ∧
    (sampleAdaptor.GetMeshMetadata sampleFailingPartitioner 0 none).2.2.2 =
      [AdaptorEvent.GetSenderMeshMetadata 0,
       AdaptorEvent.GetPartition true (some sampleSenderMd), AdaptorEvent.CloseStream] ∧
    (sampleAdaptor.GetMeshMetadata sampleFailingPartitioner 0 none).2.2.1.StreamOpen =
      false ∧
    (({ sampleAdaptor with GetPartitioner := some sampleFailingPartitioner } :
      ADIOS1DataAdaptor Unit).GetMeshMetadata sampleBlockPartitioner 0 none).1 = 0 ∧
    (({ sampleAdaptor with GetPartitioner := some sampleFailingPartitioner } :
      ADIOS1DataAdaptor Unit).GetMeshMetadata sampleBlockPartitioner 0 none).2.1 = none := by
  decide

/-! ## Opening and closing the input stream -/

theorem Close_Close (this : InputStream) : this.Close.Close = this.Close := by
  unfold InputStream.Close
  by_cases h : this.Handles.engine = none
  · simp [h]
  · simp [h]

/-- C30 (failing input): `sampleOpenStream` is open with the engine `BPFile`.  On a
library where every call succeeds, `Open(comm, "SST", "new.bp")` returns 0 with
`FileName` equal to `new.bp`, but `ReadEngine` is the empty string: the engine name is
stored before `Close()` runs, and `Close()` resets it when an engine was open.  On a
stream that was never opened the same call leaves `ReadEngine` equal to `SST`.  `Close`
is idempotent on every stream and leaves the engine handle null; it leaves the io handle
of a stream whose engine handle is null as it is, so after an `Open` that failed in
`adios2_open` the io handle is still set after `Close`. -/
theorem C30_Open_on_open_stream_loses_engine_name :
    (sampleOpenStream.Open sampleLibrary "SST" "new.bp").1 = 0 ∧
    (sampleOpenStream.Open sampleLibrary "SST" "new.bp").2.FileName = "new.bp" ∧
    (sampleOpenStream.Open sampleLibrary "SST" "new.bp").2.ReadEngine = "" ∧
    (sampleOpenStream.Open sampleLibrary "SST" "new.bp").2.Handles = ⟨some 2, some 3⟩ ∧
    (sampleClosedStream.Open sampleLibrary "SST" "new.bp").1 = 0 ∧
    (sampleClosedStream.Open sampleLibrary "SST" "new.bp").2.ReadEngine = "SST" ∧
    (∀ this : InputStream, this.Close.Close = this.Close) ∧
    (∀ this : InputStream, this.Close.Handles.engine = none) ∧
    (∀ this : InputStream, this.Handles.engine = none →
      this.Close.Handles.io = this.Handles.io) ∧
    (sampleClosedStream.Open sampleOpenFailsLibrary "SST" "new.bp").1 = -1 ∧
    (sampleClosedStream.Open sampleOpenFailsLibrary "SST" "new.bp").2.Close.Handles =
      ⟨some 2, none⟩ := by
  refine ⟨by decide, by decide, by decide, by decide, by decide, by decide, Close_Close,
    ?_, ?_, by decide, by decide⟩
  · intro this
    unfold InputStream.Close
    by_cases h : this.Handles.engine = none
    · simp [h]
    · simp [h]
  · intro this h
    simp [InputStream.Close, h]

/-! ## Reading an array by name -/

/-- The search of the by-name `ArraySchema::Read` finds nothing exactly when no
descriptor in its range has the requested name and centering. -/
theorem Read_find_none (name : String) (centering : Int) (md : MeshMetadata) (n : Nat) :
    ∀ i0, (∀ i, i0 ≤ i → i < i0 + n →
        ¬ (md.ArrayName.getD i "" = name ∧ md.ArrayCentering.getD i 0 = centering)) →
      ArraySchema.Read.find name centering md n i0 = none := by
  induction n with
  | zero => intro i0 _; rfl
  | succ n ih =>
    intro i0 h
    rw [ArraySchema.Read.find]
    have h0 := h i0 (le_refl _) (by omega)
    have hc : centering ≠ md.ArrayCentering.getD i0 0 ∨ name ≠ md.ArrayName.getD i0 "" := by
      by_contra hcon
      push_neg at hcon
      exact h0 ⟨hcon.2.symm, hcon.1.symm⟩
    simp only [hc, if_true]
    exact ih (i0 + 1) (fun i h1 h2 => h i (by omega) (by omega))

/-- The search of the by-name `ArraySchema::Read` stops at the first descriptor with the
requested name and centering. -/
theorem Read_find_first (name : String) (centering : Int) (md : MeshMetadata) (n : Nat) :
    ∀ i0 i, i0 ≤ i → i < i0 + n →
      md.ArrayName.getD i "" = name → md.ArrayCentering.getD i 0 = centering →
      (∀ k, i0 ≤ k → k < i →
        ¬ (md.ArrayName.getD k "" = name ∧ md.ArrayCentering.getD k 0 = centering)) →
      ArraySchema.Read.find name centering md n i0 =
        some ⟨i, md.ArrayName.getD i "", md.ArrayType.getD i 0, md.ArrayComponents.getD i 0,
          md.ArrayCentering.getD i 0⟩ := by
  induction n with
  | zero => intro i0 i h1 h2; omega
  | succ n ih =>
    intro i0 i h1 h2 hn hc hfirst
    rw [ArraySchema.Read.find]
    by_cases hi : i = i0
    · subst hi
      have hcond : ¬ (centering ≠ md.ArrayCentering.getD i 0 ∨
          name ≠ md.ArrayName.getD i "") := by
        rw [hn, hc]; simp
      simp only [hcond, if_false]
    · have h0 := hfirst i0 (le_refl _) (by omega)
      have hcond : centering ≠ md.ArrayCentering.getD i0 0 ∨
          name ≠ md.ArrayName.getD i0 "" := by
        by_contra hcon
        push_neg at hcon
        exact h0 ⟨hcon.2.symm, hcon.1.symm⟩
      simp only [hcond, if_true]
      exact ih (i0 + 1) i (by omega) (by omega) hn hc
        (fun k k1 k2 => hfirst k (by omega) k2)

/-- C28: the by-name `ArraySchema::Read` for a name other than `vtkGhostType`.  When no
descriptor `i < NumArrays` has the requested name and centering, the call returns 0,
issues no read and returns the composite object as it was, without a per-array call.
When descriptors match, the per-array read is made for the smallest matching index
only: the call, its result and its reads are those of the per-array `Read` of that
slot. -/
theorem C28_Read_unknown_array (rank : Int) (fh : ADIOS_FILE) (ons : String)
    (name : String) (centering : Int) (md : MeshMetadata) (dobj : vtkCompositeDataSet)
    (hname : name ≠ "vtkGhostType") :
    ((∀ i, i < u32 md.NumArrays →
        ¬ (md.ArrayName.getD i "" = name ∧ md.ArrayCentering.getD i 0 = centering)) →
      ArraySchema.Read rank fh ons name centering md dobj = (0, dobj, [], none)) ∧
    (∀ i, i < u32 md.NumArrays →
      md.ArrayName.getD i "" = name → md.ArrayCentering.getD i 0 = centering →
      (∀ k, k < i →
        ¬ (md.ArrayName.getD k "" = name ∧ md.ArrayCentering.getD k 0 = centering)) →
      ArraySchema.Read rank fh ons name centering md dobj =
        ((ArraySchema.ReadArray rank fh ons i name (md.ArrayType.getD i 0)
            (md.ArrayComponents.getD i 0) centering (u32 md.NumBlocks) md.BlockNumPoints
            md.BlockNumCells md.BlockOwner dobj).1,
         (ArraySchema.ReadArray rank fh ons i name (md.ArrayType.getD i 0)
            (md.ArrayComponents.getD i 0) centering (u32 md.NumBlocks) md.BlockNumPoints
            md.BlockNumCells md.BlockOwner dobj).2.1,
         (ArraySchema.ReadArray rank fh ons i name (md.ArrayType.getD i 0)
            (md.ArrayComponents.getD i 0) centering (u32 md.NumBlocks) md.BlockNumPoints
            md.BlockNumCells md.BlockOwner dobj).2.2,
         some ⟨i, name, md.ArrayType.getD i 0, md.ArrayComponents.getD i 0, centering⟩) ∧
      ∀ r ∈ (ArraySchema.Read rank fh ons name centering md dobj).2.2.1,
        r.path = ons ++ "data_array_" ++ toString i ++ "/" ++ "data") := by
  refine ⟨?_, ?_⟩
  · intro hno
    have hf := Read_find_none name centering md (u32 md.NumArrays) 0
      (fun i _ h2 => hno i (by omega))
    simp [ArraySchema.Read, ArraySchema.Read.select, hname, hf]
  · intro i hi hn hc hfirst
    have hf := Read_find_first name centering md (u32 md.NumArrays) 0 i (Nat.zero_le _)
      (by omega) hn hc (fun k _ k2 => hfirst k k2)
    obtain ⟨m, _, hreads, _⟩ := ReadArray_reads rank fh ons i name (md.ArrayType.getD i 0)
      (md.ArrayComponents.getD i 0) centering (u32 md.NumBlocks) md.BlockNumPoints
      md.BlockNumCells md.BlockOwner dobj
    simp only [ArraySchema.Read, ArraySchema.Read.select, hname, if_false, hf, hn, hc,
      true_and]
    intro r hr
    rw [hreads, List.mem_filterMap] at hr
    obtain ⟨k, -, hk⟩ := hr
    split at hk
    · cases hk; rfl
    · cases hk

/-- Witness for C28: `sampleGhostMd` has the point array `p` only; a read of the cell
array `q` returns 0 without a read and leaves the object as it is. -/
theorem C28_Read_unknown_array_witness :
    "q" ≠ "vtkGhostType" ∧
    ArraySchema.Read 0 sampleSixFile "data_object_0/" "q" vtkDataObject.CELL sampleGhostMd
      sampleGhostObj = (0, sampleGhostObj, [], none) :=
  ⟨by decide,
    (C28_Read_unknown_array 0 sampleSixFile "data_object_0/" "q" vtkDataObject.CELL
      sampleGhostMd sampleGhostObj (by decide)).1 (by decide)⟩

/-! ## The ranges of the blocks in the global extent of an array -/

theorem totals_closed (md : MeshMetadata) (n : Nat) :
    ∀ (j : Nat) (t : Nat × Nat),
      t = (u64 ((md.BlockNumPoints.take j).sum), u64 ((md.BlockNumCells.take j).sum)) →
      ArraySchema.DefineVariables.totals md n j t =
        (u64 ((md.BlockNumPoints.take (j + n)).sum),
         u64 ((md.BlockNumCells.take (j + n)).sum)) := by
  induction n with
  | zero => intro j t h; simpa [ArraySchema.DefineVariables.totals] using h
  | succ n ih =>
    intro j t h
    rw [ArraySchema.DefineVariables.totals, ih (j + 1)]
    · have : j + 1 + n = j + (n + 1) := by omega
      rw [this]
    · rw [h]
      simp only [u64, sum_take_succ, Nat.add_mod, Nat.mod_mod]

theorem sum_take_mono (l : List Nat) {k n : Nat} (h : k ≤ n) :
    (l.take k).sum ≤ (l.take n).sum := by
  have := sum_take_le (l.take n) k
  rwa [List.take_take, Nat.min_eq_left h] at this

theorem sum_range_getD (l : List Nat) (c n : Nat) :
    ((List.range n).map (fun j => l.getD j 0 * c)).sum = c * (l.take n).sum := by
  induction n with
  | zero => simp
  | succ n ih =>
    rw [List.range_succ, List.map_append, List.sum_append, ih, sum_take_succ]
    simp [Nat.mul_add, Nat.mul_comm]

/-- The three sizes of the variable that `ArraySchema::DefineVariable`, called from
`DefineVariables`, declares for a block, when the global extent fits in 64 bits. -/
theorem DefineVariable_sizes_exact (c : Nat) (sel : List Nat) (nb k : Nat) (hk : k < nb)
    (hfit : c * (sel.take nb).sum < 2 ^ 64) :
    u64 (c * (sel.take k).sum) = c * (sel.take k).sum ∧
    u64 (sel.getD k 0 * c) = sel.getD k 0 * c ∧
    u64 (u64 ((sel.take nb).sum) * c) = c * (sel.take nb).sum ∧
    c * (sel.take k).sum + sel.getD k 0 * c = c * (sel.take (k + 1)).sum ∧
    c * (sel.take (k + 1)).sum ≤ c * (sel.take nb).sum := by
  have h1 : (sel.take (k + 1)).sum ≤ (sel.take nb).sum := sum_take_mono sel (by omega)
  have h2 := sum_take_succ sel k
  have h3 : c * (sel.take (k + 1)).sum ≤ c * (sel.take nb).sum := Nat.mul_le_mul_left c h1
  have h4 : c * (sel.take (k + 1)).sum = c * (sel.take k).sum + sel.getD k 0 * c := by
    rw [h2, Nat.mul_add, Nat.mul_comm c (sel.getD k 0)]
  refine ⟨u64_of_lt (by omega), u64_of_lt (by omega), ?_, h4.symm, h3⟩
  rcases Nat.eq_zero_or_pos c with hc | hc
  · subst hc; simp [u64]
  · have h5 : (sel.take nb).sum ≤ c * (sel.take nb).sum := Nat.le_mul_of_pos_left _ hc
    rw [u64_of_lt (n := (sel.take nb).sum) (by omega), Nat.mul_comm]
    exact u64_of_lt hfit

/-- C25: the ranges that `ArraySchema::DefineVariable` assigns to the blocks of one array
when `ArraySchema::DefineVariables` calls it (with the totals it has added up), for
valid centering and a global extent `c * (s_0 + ... + s_(n-1))` below `2^64`, where `s`
are the block sizes chosen by the centering, `c` the component count and `n` the number
of blocks.  The variable declared for block `j` has offset `c * (s_0 + ... + s_(j-1))`,
local extent `s_j * c` and that global extent; its range ends where the range of block
`j + 1` starts and lies inside the global extent; the variables are declared in block
order, the range of an earlier block ends at or before the start of a later one; the
first range starts at 0, the last ends at the global extent, and the local extents of
all blocks add up to the global extent.  Every owned block gets its variable. -/
theorem C25_block_ranges_tile (rank : Int) (ons : String) (i : Nat) (ty : Int) (c : Nat)
    (cen : Int) (md : MeshMetadata) (pv : List (Option adios2_variable))
    (hcen : cen = vtkDataObject.POINT ∨ cen = vtkDataObject.CELL)
    (hfit : c * ((if cen = vtkDataObject.POINT then md.BlockNumPoints
      else md.BlockNumCells).take (u32 md.NumBlocks)).sum < 2 ^ 64) :
    (∀ w ∈ (ArraySchema.DefineVariable rank ons i ty c cen
        (ArraySchema.DefineVariables.totals md (u32 md.NumBlocks) 0 (0, 0)).1
        (ArraySchema.DefineVariables.totals md (u32 md.NumBlocks) 0 (0, 0)).2
        (u32 md.NumBlocks) md.BlockNumPoints md.BlockNumCells md.BlockOwner pv).2.2,
      w.block < u32 md.NumBlocks ∧
      w.var.offset = c * ((if cen = vtkDataObject.POINT then md.BlockNumPoints
        else md.BlockNumCells).take w.block).sum ∧
      w.var.local_extent = (if cen = vtkDataObject.POINT then md.BlockNumPoints
        else md.BlockNumCells).getD w.block 0 * c ∧
      w.var.global_extent = c * ((if cen = vtkDataObject.POINT then md.BlockNumPoints
        else md.BlockNumCells).take (u32 md.NumBlocks)).sum ∧
      w.var.offset + w.var.local_extent = c * ((if cen = vtkDataObject.POINT
        then md.BlockNumPoints else md.BlockNumCells).take (w.block + 1)).sum ∧
      w.var.offset + w.var.local_extent ≤ w.var.global_extent) ∧
    (∀ w ∈ (ArraySchema.DefineVariable rank ons i ty c cen
        (ArraySchema.DefineVariables.totals md (u32 md.NumBlocks) 0 (0, 0)).1
        (ArraySchema.DefineVariables.totals md (u32 md.NumBlocks) 0 (0, 0)).2
        (u32 md.NumBlocks) md.BlockNumPoints md.BlockNumCells md.BlockOwner pv).2.2,
      ∀ v ∈ (ArraySchema.DefineVariable rank ons i ty c cen
        (ArraySchema.DefineVariables.totals md (u32 md.NumBlocks) 0 (0, 0)).1
        (ArraySchema.DefineVariables.totals md (u32 md.NumBlocks) 0 (0, 0)).2
        (u32 md.NumBlocks) md.BlockNumPoints md.BlockNumCells md.BlockOwner pv).2.2,
      w.block < v.block → w.var.offset + w.var.local_extent ≤ v.var.offset) ∧
    List.Pairwise (fun w v : BlockVar => w.block < v.block)
      (ArraySchema.DefineVariable rank ons i ty c cen
        (ArraySchema.DefineVariables.totals md (u32 md.NumBlocks) 0 (0, 0)).1
        (ArraySchema.DefineVariables.totals md (u32 md.NumBlocks) 0 (0, 0)).2
        (u32 md.NumBlocks) md.BlockNumPoints md.BlockNumCells md.BlockOwner pv).2.2 ∧
    (∀ j, j < u32 md.NumBlocks → md.BlockOwner[j]? = some rank →
      ∃ w ∈ (ArraySchema.DefineVariable rank ons i ty c cen
        (ArraySchema.DefineVariables.totals md (u32 md.NumBlocks) 0 (0, 0)).1
        (ArraySchema.DefineVariables.totals md (u32 md.NumBlocks) 0 (0, 0)).2
        (u32 md.NumBlocks) md.BlockNumPoints md.BlockNumCells md.BlockOwner pv).2.2,
        w.block = j) ∧
    c * ((if cen = vtkDataObject.POINT then md.BlockNumPoints
      else md.BlockNumCells).take 0).sum = 0 ∧
    ((List.range (u32 md.NumBlocks)).map (fun j =>
      (if cen = vtkDataObject.POINT then md.BlockNumPoints
        else md.BlockNumCells).getD j 0 * c)).sum =
      c * ((if cen = vtkDataObject.POINT then md.BlockNumPoints
        else md.BlockNumCells).take (u32 md.NumBlocks)).sum := by
  have htot := totals_closed md (u32 md.NumBlocks) 0 (0, 0) (by simp [u64])
  simp only [Nat.zero_add] at htot
  obtain ⟨-, hD⟩ := DefineVariable_defined rank ons i ty c cen
    (ArraySchema.DefineVariables.totals md (u32 md.NumBlocks) 0 (0, 0)).1
    (ArraySchema.DefineVariables.totals md (u32 md.NumBlocks) 0 (0, 0)).2
    (u32 md.NumBlocks) md.BlockNumPoints md.BlockNumCells md.BlockOwner pv hcen
  have hsel : (if cen = vtkDataObject.POINT
      then (ArraySchema.DefineVariables.totals md (u32 md.NumBlocks) 0 (0, 0)).1
      else (ArraySchema.DefineVariables.totals md (u32 md.NumBlocks) 0 (0, 0)).2) =
      u64 (((if cen = vtkDataObject.POINT then md.BlockNumPoints
        else md.BlockNumCells).take (u32 md.NumBlocks)).sum) := by
    rw [htot]
    split <;> rfl
  rw [hsel] at hD
  have hmem : ∀ w ∈ (ArraySchema.DefineVariable rank ons i ty c cen
      (ArraySchema.DefineVariables.totals md (u32 md.NumBlocks) 0 (0, 0)).1
      (ArraySchema.DefineVariables.totals md (u32 md.NumBlocks) 0 (0, 0)).2
      (u32 md.NumBlocks) md.BlockNumPoints md.BlockNumCells md.BlockOwner pv).2.2,
      w.block < u32 md.NumBlocks ∧
      w.var.offset = c * ((if cen = vtkDataObject.POINT then md.BlockNumPoints
        else md.BlockNumCells).take w.block).sum ∧
      w.var.local_extent = (if cen = vtkDataObject.POINT then md.BlockNumPoints
        else md.BlockNumCells).getD w.block 0 * c ∧
      w.var.global_extent = c * ((if cen = vtkDataObject.POINT then md.BlockNumPoints
        else md.BlockNumCells).take (u32 md.NumBlocks)).sum := by
    intro w hw
    rw [hD, List.mem_filterMap] at hw
    obtain ⟨k, hk, hw⟩ := hw
    have hk2 : k < u32 md.NumBlocks := by
      have := List.mem_range'_1.mp hk
      omega
    obtain ⟨e1, e2, e3, -, -⟩ := DefineVariable_sizes_exact c _ _ k hk2 hfit
    split at hw
    · cases hw
      exact ⟨hk2, e1, e2, e3⟩
    · cases hw
  refine ⟨?_, ?_, ?_, ?_, by simp, sum_range_getD _ c _⟩
  · intro w hw
    obtain ⟨hb, ho, hl, hg⟩ := hmem w hw
    obtain ⟨-, -, -, e4, e5⟩ := DefineVariable_sizes_exact c _ _ w.block hb hfit
    refine ⟨hb, ho, hl, hg, ?_, ?_⟩
    · rw [ho, hl, e4]
    · rw [ho, hl, hg, e4]; exact e5
  · intro w hw v hv hlt
    obtain ⟨hb, ho, hl, -⟩ := hmem w hw
    obtain ⟨-, hov, -, -⟩ := hmem v hv
    obtain ⟨-, -, -, e4, -⟩ := DefineVariable_sizes_exact c _ _ w.block hb hfit
    rw [ho, hl, hov, e4]
    exact Nat.mul_le_mul_left c (sum_take_mono _ (by omega))
  · rw [hD]
    refine List.Pairwise.filterMap _ ?_ (List.pairwise_lt_range' 0 _)
    intro a a2 hlt b hb b2 hb2
    split at hb
    · split at hb2
      · simp only [Option.mem_def, Option.some.injEq] at hb hb2
        rw [← hb, ← hb2]
        exact hlt
      · cases hb2
    · cases hb
  · intro j hj ho
    rw [hD]
    exact ⟨_, List.mem_filterMap.mpr
      ⟨j, List.mem_range'_1.mpr ⟨Nat.zero_le _, by omega⟩, if_pos ho⟩, rfl⟩

/-- Witness for C25: the point array of `sampleGhostMd` (blocks of 4 and 6 points, one
component, both owned by rank 0) gets the ranges `[0, 4)` and `[4, 10)` of the global
extent 10. -/
theorem C25_block_ranges_tile_witness :
    (vtkDataObject.POINT = vtkDataObject.POINT ∨ vtkDataObject.POINT = vtkDataObject.CELL) ∧
    1 * ((if vtkDataObject.POINT = vtkDataObject.POINT then sampleGhostMd.BlockNumPoints
      else sampleGhostMd.BlockNumCells).take (u32 sampleGhostMd.NumBlocks)).sum < 2 ^ 64 ∧
    (ArraySchema.DefineVariable 0 "data_object_0/" 0 VTK_DOUBLE 1 vtkDataObject.POINT
      (ArraySchema.DefineVariables.totals sampleGhostMd (u32 sampleGhostMd.NumBlocks) 0
        (0, 0)).1
      (ArraySchema.DefineVariables.totals sampleGhostMd (u32 sampleGhostMd.NumBlocks) 0
        (0, 0)).2
      (u32 sampleGhostMd.NumBlocks) sampleGhostMd.BlockNumPoints sampleGhostMd.BlockNumCells
      sampleGhostMd.BlockOwner [none, none]).2.2.map
        (fun w => (w.block, w.var.offset, w.var.local_extent, w.var.global_extent)) =
      [(0, 0, 4, 10), (1, 4, 6, 10)] ∧
    List.Pairwise (fun w v : BlockVar => w.block < v.block)
      (ArraySchema.DefineVariable 0 "data_object_0/" 0 VTK_DOUBLE 1 vtkDataObject.POINT
        (ArraySchema.DefineVariables.totals sampleGhostMd (u32 sampleGhostMd.NumBlocks) 0
          (0, 0)).1
        (ArraySchema.DefineVariables.totals sampleGhostMd (u32 sampleGhostMd.NumBlocks) 0
          (0, 0)).2
        (u32 sampleGhostMd.NumBlocks) sampleGhostMd.BlockNumPoints
        sampleGhostMd.BlockNumCells sampleGhostMd.BlockOwner [none, none]).2.2 :=
  ⟨Or.inl rfl, by decide, by decide,
    (C25_block_ranges_tile 0 "data_object_0/" 0 VTK_DOUBLE 1 vtkDataObject.POINT
      sampleGhostMd [none, none] (Or.inl rfl) (by decide)).2.2.1⟩

/-! ## The composite object made for reading -/

/-- C23 (failing input): `sampleInterleavedMd` lists four image-data blocks, the first
two owned by rank 0, with block ids 0, 2, 1, 3.  On rank 0
`DataObjectSchema::InitializeDataObject` returns four positions of which 0 and 2 hold a
block and 1 and 3 are empty: block `i` is stored at position `BlockIds[i]`, not at
position `i`.  The position-by-position traversal of `ArraySchema::Read` then finds no
block for the owned block 1 and returns `-1`.  With the ids 0, 1, 2, 3 the owned blocks
are at positions 0 and 1 and the same read returns 0. -/
theorem C23_owned_block_is_stored_at_its_id :
    (DataObjectSchema.InitializeDataObject 0 sampleInterleavedMd).1 = 0 ∧
    (DataObjectSchema.InitializeDataObject 0 sampleInterleavedMd).2 =
      some [some { DataObjectType := VTK_IMAGE_DATA }, none,
            some { DataObjectType := VTK_IMAGE_DATA }, none] ∧
    sampleInterleavedMd.BlockOwner = [0, 0, 1, 1] ∧
    (ArraySchema.Read 0 sampleSixFile "data_object_0/" "p" vtkDataObject.POINT
      sampleInterleavedMd
      [some { DataObjectType := VTK_IMAGE_DATA }, none,
       some { DataObjectType := VTK_IMAGE_DATA }, none]).1 = -1 ∧
    (DataObjectSchema.InitializeDataObject 0
      { sampleInterleavedMd with BlockIds := [0, 1, 2, 3] }).2 =
      some [some { DataObjectType := VTK_IMAGE_DATA },
            some { DataObjectType := VTK_IMAGE_DATA }, none, none] ∧
    (ArraySchema.Read 0 sampleSixFile "data_object_0/" "p" vtkDataObject.POINT
      sampleInterleavedMd
      [some { DataObjectType := VTK_IMAGE_DATA },
       some { DataObjectType := VTK_IMAGE_DATA }, none, none]).1 = 0 := by
  decide

/-! ## The offsets of the stretched-Cartesian coordinate arrays -/

theorem lengthBefore_succ (md : MeshMetadata) (lo hi j : Nat) :
    u64 (lengthBefore md lo hi j + blockLength md lo hi j) = lengthBefore md lo hi (j + 1) := by
  unfold lengthBefore u64
  rw [List.range_succ, List.map_append, List.sum_append]
  simp [Nat.add_mod]

theorem Stretched_totals_closed (md : MeshMetadata) (n : Nat) :
    ∀ (j : Nat) (t : Nat × Nat × Nat),
      t = (lengthBefore md 0 1 j, lengthBefore md 2 3 j, lengthBefore md 4 5 j) →
      StretchedCartesianSchema.DefineVariables.totals md n j t =
        (lengthBefore md 0 1 (j + n), lengthBefore md 2 3 (j + n),
         lengthBefore md 4 5 (j + n)) := by
  induction n with
  | zero => intro j t h; simpa [StretchedCartesianSchema.DefineVariables.totals] using h
  | succ n ih =>
    intro j t h
    rw [StretchedCartesianSchema.DefineVariables.totals, ih (j + 1)]
    · have : j + 1 + n = j + (n + 1) := by omega
      rw [this]
    · rw [h]
      simp only [← lengthBefore_succ]
      rfl

/-- The variables that the block loop of `StretchedCartesianSchema::DefineVariables`
declares, in closed form: for each owned block the x, y and z variable, with the
length of the block as local extent and the sum of the lengths of the blocks before it
as offset. -/
theorem Stretched_define_loop_closed (rank : Int) (ons : String) (md : MeshMetadata)
    (pt : adios2_type) (xg yg zg : Nat) (n : Nat) :
    ∀ (j : Nat) (st : StretchedCartesianSchema.DefineState),
      st.x_block_offset = lengthBefore md 0 1 j →
      st.y_block_offset = lengthBefore md 2 3 j →
      st.z_block_offset = lengthBefore md 4 5 j →
      (StretchedCartesianSchema.DefineVariables.loop rank ons md pt xg yg zg n j
        st).defined =
        st.defined ++ (List.range' j n).flatMap (fun k =>
          if md.BlockOwner[k]? = some rank then
            [(⟨k, k, ⟨ons ++ "x_coords", pt, blockLength md 0 1 k, xg,
                lengthBefore md 0 1 k⟩⟩ : BlockVar),
             ⟨k, k, ⟨ons ++ "y_coords", pt, blockLength md 2 3 k, yg,
                lengthBefore md 2 3 k⟩⟩,
             ⟨k, k, ⟨ons ++ "z_coords", pt, blockLength md 4 5 k, zg,
                lengthBefore md 4 5 k⟩⟩]
          else []) := by
  induction n with
  | zero => intro j st _ _ _; simp [StretchedCartesianSchema.DefineVariables.loop]
  | succ n ih =>
    intro j st hx hy hz
    rw [StretchedCartesianSchema.DefineVariables.loop]
    by_cases ho : md.BlockOwner[j]? = some rank
    · simp only [ho, if_true]
      rw [ih (j + 1)]
      · simp only [List.range'_succ, List.flatMap_cons, ho, if_true, hx, hy, hz,
          List.append_assoc]
        rfl
      · simp only [hx]; exact lengthBefore_succ md 0 1 j
      · simp only [hy]; exact lengthBefore_succ md 2 3 j
      · simp only [hz]; exact lengthBefore_succ md 4 5 j
    · simp only [ho, if_false]
      rw [ih (j + 1)]
      · simp [List.range'_succ, List.flatMap_cons, ho]
      · simp only [hx]; exact lengthBefore_succ md 0 1 j
      · simp only [hy]; exact lengthBefore_succ md 2 3 j
      · simp only [hz]; exact lengthBefore_succ md 4 5 j

theorem Stretched_read_body_spec (rank : Int) (fh : ADIOS_FILE) (ons : String)
    (md : MeshMetadata) (j : Nat) (st : StretchedCartesianSchema.ReadState) :
    (StretchedCartesianSchema.Read.body rank fh ons md j st).2.reads =
      st.reads ++ (if md.BlockOwner[j]? = some rank then
        [(⟨j, ons ++ "x_coords", st.xc_offset, blockLength md 0 1 j,
            (((vtkDataArray.CreateDataArray md.CoordinateType).SetNumberOfComponents
              1).SetNumberOfTuples (blockLength md 0 1 j)).SetName "x_coords"⟩ : BlockRead),
         ⟨j, ons ++ "y_coords", st.yc_offset, blockLength md 2 3 j,
            (((vtkDataArray.CreateDataArray md.CoordinateType).SetNumberOfComponents
              1).SetNumberOfTuples (blockLength md 2 3 j)).SetName "y_coords"⟩,
         ⟨j, ons ++ "z_coords", st.zc_offset, blockLength md 4 5 j,
            (((vtkDataArray.CreateDataArray md.CoordinateType).SetNumberOfComponents
              1).SetNumberOfTuples (blockLength md 4 5 j)).SetName "z_coords"⟩]
        else []) ∧
    ((StretchedCartesianSchema.Read.body rank fh ons md j st).1 = 0 →
      (StretchedCartesianSchema.Read.body rank fh ons md j st).2.xc_offset =
        u64 (st.xc_offset + blockLength md 0 1 j) ∧
      (StretchedCartesianSchema.Read.body rank fh ons md j st).2.yc_offset =
        u64 (st.yc_offset + blockLength md 2 3 j) ∧
      (StretchedCartesianSchema.Read.body rank fh ons md j st).2.zc_offset =
        u64 (st.zc_offset + blockLength md 4 5 j)) := by
  unfold StretchedCartesianSchema.Read.body
  by_cases ho : md.BlockOwner[j]? = some rank
  · simp only [ho, if_true]
    split
    · split
      · refine ⟨rfl, fun h => ?_⟩
        simp at h
      · exact ⟨rfl, fun _ => ⟨rfl, rfl, rfl⟩⟩
    · refine ⟨rfl, fun h => ?_⟩
      simp at h
  · simp [ho, blockLength]

/-- The reads that the block loop of `StretchedCartesianSchema::Read` schedules, in
closed form: for each owned block it gets to, the x, y and z read, with the sum of the
lengths of the blocks before it as start and the length of the block as count. -/
theorem Stretched_read_loop_closed (rank : Int) (fh : ADIOS_FILE) (ons : String)
    (md : MeshMetadata) (n : Nat) :
    ∀ (j : Nat) (st : StretchedCartesianSchema.ReadState),
      st.xc_offset = lengthBefore md 0 1 j →
      st.yc_offset = lengthBefore md 2 3 j →
      st.zc_offset = lengthBefore md 4 5 j →
      ∃ m, m ≤ n ∧
        (StretchedCartesianSchema.Read.loop rank fh ons md n j st).2.reads =
          st.reads ++ (List.range' j m).flatMap (fun k =>
            if md.BlockOwner[k]? = some rank then
              [(⟨k, ons ++ "x_coords", lengthBefore md 0 1 k, blockLength md 0 1 k,
                  (((vtkDataArray.CreateDataArray md.CoordinateType).SetNumberOfComponents
                    1).SetNumberOfTuples (blockLength md 0 1 k)).SetName "x_coords"⟩ :
                  BlockRead),
               ⟨k, ons ++ "y_coords", lengthBefore md 2 3 k, blockLength md 2 3 k,
                  (((vtkDataArray.CreateDataArray md.CoordinateType).SetNumberOfComponents
                    1).SetNumberOfTuples (blockLength md 2 3 k)).SetName "y_coords"⟩,
               ⟨k, ons ++ "z_coords", lengthBefore md 4 5 k, blockLength md 4 5 k,
                  (((vtkDataArray.CreateDataArray md.CoordinateType).SetNumberOfComponents
                    1).SetNumberOfTuples (blockLength md 4 5 k)).SetName "z_coords"⟩]
            else []) ∧
        ((StretchedCartesianSchema.Read.loop rank fh ons md n j st).1 = 0 → m = n) := by
  induction n with
  | zero =>
    intro j st _ _ _
    exact ⟨0, le_refl _, by simp [StretchedCartesianSchema.Read.loop], fun _ => rfl⟩
  | succ n ih =>
    intro j st hx hy hz
    rw [StretchedCartesianSchema.Read.loop]
    obtain ⟨hreads, hoff⟩ := Stretched_read_body_spec rank fh ons md j st
    by_cases hr : (StretchedCartesianSchema.Read.body rank fh ons md j st).1 = 0
    · simp only [hr, ne_eq, not_true_eq_false, if_false]
      obtain ⟨ox, oy, oz⟩ := hoff hr
      rw [hx, lengthBefore_succ] at ox
      rw [hy, lengthBefore_succ] at oy
      rw [hz, lengthBefore_succ] at oz
      obtain ⟨m, hm, hreads2, hret⟩ := ih (j + 1) _ ox oy oz
      refine ⟨m + 1, by omega, ?_, fun h0 => by rw [hret h0]⟩
      rw [hreads2, hreads]
      by_cases ho : md.BlockOwner[j]? = some rank
      · simp [List.range'_succ, List.flatMap_cons, ho, hx, hy, hz]
      · simp [List.range'_succ, List.flatMap_cons, ho]
    · simp only [hr, ne_eq, not_false_eq_true, if_true]
      refine ⟨1, by omega, ?_, by simp⟩
      rw [hreads]
      by_cases ho : md.BlockOwner[j]? = some rank
      · simp [List.range'_succ, List.flatMap_cons, ho, hx, hy, hz]
      · simp [List.range'_succ, List.flatMap_cons, ho]

theorem toSize_of_nonneg (z : Int) (h0 : 0 ≤ z) (h1 : z < 2 ^ 64) :
    ((toSize z : Nat) : Int) = z := by
  unfold toSize
  rw [Int.emod_eq_of_lt h0 h1]
  exact Int.toNat_of_nonneg h0

theorem lengthBefore_exact (md : MeshMetadata) (lo hi n : Nat)
    (hfit : ((List.range n).map (blockLength md lo hi)).sum < 2 ^ 64) (j : Nat) (hj : j ≤ n) :
    lengthBefore md lo hi j = ((List.range j).map (blockLength md lo hi)).sum := by
  unfold lengthBefore
  apply u64_of_lt
  refine lt_of_le_of_lt ?_ hfit
  obtain ⟨d, rfl⟩ := Nat.exists_eq_add_of_le hj
  rw [List.range_add, List.map_append, List.sum_append]
  exact Nat.le_add_right _ _

/-- C22: the stretched-Cartesian codec.  Along each axis (extent entries 0 and 1 for x,
2 and 3 for y, 4 and 5 for z) the length of block `j` is `ext[hi] - ext[lo] + 2`,
converted to `unsigned long long`.  `StretchedCartesianSchema::DefineVariables`
declares for every owned block, in block order, the x, y and z variable with that
length as local extent, the sum of the lengths of all blocks as global extent and the
sum of the lengths of the blocks before it as offset;
`StretchedCartesianSchema::Read` schedules for every owned block it gets to (all of
them when it returns 0) the x, y and z read with the same sum as start and the length
as count.  The sums are taken in `unsigned long long`; they are the plain sums when
the sum over all blocks is below `2^64`, and a length is the integer
`ext[hi] - ext[lo] + 2` itself when that is not negative. -/
theorem C22_stretched_offsets (rankW rankR : Int) (onsW onsR : String) (md : MeshMetadata)
    (this : StretchedCartesianSchema) (fh : ADIOS_FILE) (dobj : vtkCompositeDataSet) :
    (StretchedCartesianSchema.DefineVariables.block rankW onsW md this).2 =
      (List.range' 0 (u32 md.NumBlocks)).flatMap (fun k =>
        if md.BlockOwner[k]? = some rankW then
          [(⟨k, k, ⟨onsW ++ "x_coords", adiosType md.CoordinateType, blockLength md 0 1 k,
              lengthBefore md 0 1 (u32 md.NumBlocks), lengthBefore md 0 1 k⟩⟩ : BlockVar),
           ⟨k, k, ⟨onsW ++ "y_coords", adiosType md.CoordinateType, blockLength md 2 3 k,
              lengthBefore md 2 3 (u32 md.NumBlocks), lengthBefore md 2 3 k⟩⟩,
           ⟨k, k, ⟨onsW ++ "z_coords", adiosType md.CoordinateType, blockLength md 4 5 k,
              lengthBefore md 4 5 (u32 md.NumBlocks), lengthBefore md 4 5 k⟩⟩]
        else []) ∧
    (∃ m, m ≤ u32 md.NumBlocks ∧
      (StretchedCartesianSchema.Read.block rankR fh onsR md dobj).2.2 =
        (List.range' 0 m).flatMap (fun k =>
          if md.BlockOwner[k]? = some rankR then
            [(⟨k, onsR ++ "x_coords", lengthBefore md 0 1 k, blockLength md 0 1 k,
                (((vtkDataArray.CreateDataArray md.CoordinateType).SetNumberOfComponents
                  1).SetNumberOfTuples (blockLength md 0 1 k)).SetName "x_coords"⟩ :
                BlockRead),
             ⟨k, onsR ++ "y_coords", lengthBefore md 2 3 k, blockLength md 2 3 k,
                (((vtkDataArray.CreateDataArray md.CoordinateType).SetNumberOfComponents
                  1).SetNumberOfTuples (blockLength md 2 3 k)).SetName "y_coords"⟩,
             ⟨k, onsR ++ "z_coords", lengthBefore md 4 5 k, blockLength md 4 5 k,
                (((vtkDataArray.CreateDataArray md.CoordinateType).SetNumberOfComponents
                  1).SetNumberOfTuples (blockLength md 4 5 k)).SetName "z_coords"⟩]
          else []) ∧
      ((StretchedCartesianSchema.Read.block rankR fh onsR md dobj).1 = 0 →
        m = u32 md.NumBlocks)) ∧
    (∀ lo hi j, blockLength md lo hi j =
      toSize ((md.BlockExtents.getD j []).getD hi 0 - (md.BlockExtents.getD j []).getD lo 0
        + 2)) ∧
    (∀ lo hi j,
      0 ≤ (md.BlockExtents.getD j []).getD hi 0 - (md.BlockExtents.getD j []).getD lo 0 + 2 →
      (md.BlockExtents.getD j []).getD hi 0 - (md.BlockExtents.getD j []).getD lo 0 + 2
        < 2 ^ 64 →
      ((blockLength md lo hi j : Nat) : Int) =
        (md.BlockExtents.getD j []).getD hi 0 - (md.BlockExtents.getD j []).getD lo 0 + 2) ∧
    (∀ lo hi,
      ((List.range (u32 md.NumBlocks)).map (blockLength md lo hi)).sum < 2 ^ 64 →
      ∀ j, j ≤ u32 md.NumBlocks →
        lengthBefore md lo hi j = ((List.range j).map (blockLength md lo hi)).sum) ∧
    (StretchedCartesianSchema.DefineVariables.block 0 "data_object_0/" sampleStretchedMd
      {}).2.map (fun w => (w.block, w.var.path, w.var.offset, w.var.local_extent,
        w.var.global_extent)) =
      [(0, "data_object_0/x_coords", 0, 5, 14), (0, "data_object_0/y_coords", 0, 3, 9),
       (0, "data_object_0/z_coords", 0, 2, 6), (2, "data_object_0/x_coords", 11, 3, 14),
       (2, "data_object_0/y_coords", 6, 3, 9), (2, "data_object_0/z_coords", 4, 2, 6)] ∧
    (StretchedCartesianSchema.Read.block 1 sampleEmptyFile "data_object_0/"
      sampleStretchedMd [none, some { DataObjectType := VTK_RECTILINEAR_GRID }, none]).2.2.map
        (fun r => (r.block, r.path, r.start, r.count)) =
      [(1, "data_object_0/x_coords", 5, 6), (1, "data_object_0/y_coords", 3, 3),
       (1, "data_object_0/z_coords", 2, 2)] := by
  refine ⟨?_, ?_, fun _ _ _ => rfl, ?_, ?_, by decide, by decide⟩
  · unfold StretchedCartesianSchema.DefineVariables.block
    have ht := Stretched_totals_closed md (u32 md.NumBlocks) 0 (0, 0, 0)
      (by simp [lengthBefore, u64])
    simp only [Nat.zero_add] at ht
    simp only [ht]
    have hl := Stretched_define_loop_closed rankW onsW md (adiosType md.CoordinateType)
      (lengthBefore md 0 1 (u32 md.NumBlocks)) (lengthBefore md 2 3 (u32 md.NumBlocks))
      (lengthBefore md 4 5 (u32 md.NumBlocks)) (u32 md.NumBlocks) 0
      { xCoordWriteVars := resize (getHandles this.XCoordWriteVars md.MeshName)
          (u32 md.NumBlocks),
        yCoordWriteVars := resize (getHandles this.YCoordWriteVars md.MeshName)
          (u32 md.NumBlocks),
        zCoordWriteVars := resize (getHandles this.ZCoordWriteVars md.MeshName)
          (u32 md.NumBlocks) }
      (by simp [lengthBefore, u64]) (by simp [lengthBefore, u64])
      (by simp [lengthBefore, u64])
    simpa using hl
  · unfold StretchedCartesianSchema.Read.block
    obtain ⟨m, hm, hreads, hret⟩ := Stretched_read_loop_closed rankR fh onsR md
      (u32 md.NumBlocks) 0 { dobj := dobj } (by simp [lengthBefore, u64])
      (by simp [lengthBefore, u64]) (by simp [lengthBefore, u64])
    exact ⟨m, hm, by simpa using hreads, hret⟩
  · intro lo hi j h0 h1
    exact toSize_of_nonneg _ h0 h1
  · intro lo hi hfit j hj
    exact lengthBefore_exact md lo hi _ hfit j hj

/-! ## The ghost arrays: variables declared, handles used, paths read -/

end senseiADIOS2
